import Mathlib

/-!
# rg-project: the render loop of `src/main.cpp`

A shallow embedding of the parts of `src/main.cpp` that carry program logic:
the framebuffer set-up, the scene pass, the bloom post-process (ping-pong blur
loop and composite stage), `renderQuad`, `renderQuadForBloom`, texture loading,
the render loop and the input handlers.

Conventions of the embedding.

* C++ globals live in `Globals`; the OpenGL context is the record `GLState`,
  and every OpenGL entry point used by the program is a function
  `GLState → GLState` that updates the part of the context it changes.
  `glDrawArrays` appends a `DrawCall` snapshot of the bindings to `draws`, so
  the order and the bindings of all draws can be read off the final state.
* Object names returned by `glGen*` are inputs (`Handles`, and the pair `names`
  of `renderQuadForBloom`), as the driver chooses them.
* `float` values are rationals (`ℚ`) and arithmetic on them is exact, except in
  `processInputFloat`, where the sums and differences of `processInput` are
  rounded to binary32 by `f32`.
* `bool` used as an `int` (array index, `setInt` argument) is `0` or `1`.
-/

namespace RgProject

/-! ## Constants of GLFW and OpenGL (values of the C headers) -/

def GLFW_RELEASE : Nat := 0
def GLFW_PRESS : Nat := 1
def GLFW_REPEAT : Nat := 2

def GLFW_KEY_SPACE : Nat := 32
def GLFW_KEY_A : Nat := 65
def GLFW_KEY_C : Nat := 67
def GLFW_KEY_D : Nat := 68
def GLFW_KEY_E : Nat := 69
def GLFW_KEY_G : Nat := 71
def GLFW_KEY_M : Nat := 77
def GLFW_KEY_Q : Nat := 81
def GLFW_KEY_S : Nat := 83
def GLFW_KEY_W : Nat := 87
def GLFW_KEY_Z : Nat := 90
def GLFW_KEY_ESCAPE : Nat := 256
def GLFW_KEY_F1 : Nat := 290

def GLFW_CURSOR_NORMAL : Nat := 0x00034001
def GLFW_CURSOR_DISABLED : Nat := 0x00034003

def GL_TRIANGLES : Nat := 4
def GL_TRIANGLE_STRIP : Nat := 5
def GL_TEXTURE_2D : Nat := 0x0DE1
def GL_TEXTURE0 : Nat := 0x84C0
def GL_TEXTURE1 : Nat := 0x84C1
def GL_ARRAY_BUFFER : Nat := 0x8892
def GL_FRAMEBUFFER : Nat := 0x8D40
def GL_COLOR_ATTACHMENT0 : Nat := 0x8CE0
def GL_COLOR_ATTACHMENT1 : Nat := 0x8CE1
def GL_DEPTH_ATTACHMENT : Nat := 0x8D00
def GL_RENDERBUFFER : Nat := 0x8D41
def GL_FRAMEBUFFER_COMPLETE : Nat := 0x8CD5
def GL_RGBA : Nat := 0x1908
def GL_RGBA16F : Nat := 0x881A
def GL_FLOAT : Nat := 0x1406
def GL_DEPTH_COMPONENT : Nat := 0x1902
def GL_TEXTURE_MAG_FILTER : Nat := 0x2800
def GL_TEXTURE_MIN_FILTER : Nat := 0x2801
def GL_TEXTURE_WRAP_S : Nat := 0x2802
def GL_TEXTURE_WRAP_T : Nat := 0x2803
def GL_LINEAR : Nat := 0x2601
def GL_CLAMP_TO_EDGE : Nat := 0x812F

def SCR_WIDTH : Nat := 800
def SCR_HEIGHT : Nat := 600

/-! ## The OpenGL context -/

/-- One enabled vertex attribute of a vertex array: component count, stride and
offset (both in floats), and the buffer it reads. -/
structure VertexAttrib where
  size : Nat
  stride : Nat
  offset : Nat
  buffer : Nat

/-- Storage of a texture level 0 as given to `glTexImage2D` (no pixel data). -/
structure TexImage where
  internalFormat : Nat
  width : Nat
  height : Nat
  format : Nat
  dataType : Nat

/-- Snapshot taken by `glDrawArrays`: the arguments of the call and the
bindings in force when it is issued. -/
structure DrawCall where
  mode : Nat
  first : Nat
  count : Nat
  /-- Framebuffer bound to `GL_FRAMEBUFFER`: the write target (0 is the default framebuffer). -/
  framebuffer : Nat
  /-- Program in use. -/
  program : Nat
  /-- Vertex array bound. -/
  vertexArray : Nat
  /-- Texture bound to `GL_TEXTURE_2D` on every texture unit. -/
  tex2D : Nat → Nat
  /-- Integer uniforms of the program in use, by name. -/
  uniformI : String → Option Int
  /-- Float uniforms of the program in use, by name. -/
  uniformF : String → Option ℚ

/-- One call of `glTexImage2D` on a face target of a cube map: the target, the
texture bound to `GL_TEXTURE_CUBE_MAP` on the active unit, and the storage
given (no pixel data). -/
structure FaceUpload where
  target : Nat
  texture : Nat
  image : TexImage

/-- The part of the OpenGL context the program depends on. -/
structure GLState where
  framebuffer : Nat
  program : Nat
  /-- Active texture unit, as an offset from `GL_TEXTURE0`. -/
  activeUnit : Nat
  /-- Texture bound to `target` on `unit`: `texBinding unit target`. -/
  texBinding : Nat → Nat → Nat
  vertexArray : Nat
  arrayBuffer : Nat
  /-- Contents of buffer objects. -/
  bufferData : Nat → List ℚ
  /-- Enabled attributes of vertex arrays: `attribs vao index`. -/
  attribs : Nat → Nat → Option VertexAttrib
  /-- Integer uniforms: `uniformI program name`. -/
  uniformI : Nat → String → Option Int
  /-- Float uniforms: `uniformF program name`. -/
  uniformF : Nat → String → Option ℚ
  /-- Texture attached to a framebuffer object: `attachment fbo point` (0 is none). -/
  attachment : Nat → Nat → Nat
  /-- Renderbuffer attached to a framebuffer object: `rbAttachment fbo point` (0 is none). -/
  rbAttachment : Nat → Nat → Nat
  /-- Draw buffers selected for a framebuffer object by `glDrawBuffers`, when it was called. -/
  drawBuffers : Nat → Option (List Nat)
  renderbuffer : Nat
  /-- Storage of renderbuffers: internal format, width, height. -/
  rbStorage : Nat → Option (Nat × Nat × Nat)
  /-- Level-0 storage of textures. -/
  texImage : Nat → Option TexImage
  /-- Integer parameters of textures: `texParam tex pname`. -/
  texParam : Nat → Nat → Option Nat
  /-- All draw calls issued so far, oldest first. -/
  draws : List DrawCall
  /-- All uploads to cube-map face targets so far, oldest first. -/
  faceUploads : List FaceUpload

/-- A fresh context: nothing bound, nothing drawn. -/
def GLState.init : GLState where
  framebuffer := 0
  program := 0
  activeUnit := 0
  texBinding := fun _ _ => 0
  vertexArray := 0
  arrayBuffer := 0
  bufferData := fun _ => []
  attribs := fun _ _ => none
  uniformI := fun _ _ => none
  uniformF := fun _ _ => none
  attachment := fun _ _ => 0
  rbAttachment := fun _ _ => 0
  drawBuffers := fun _ => none
  renderbuffer := 0
  rbStorage := fun _ => none
  texImage := fun _ => none
  texParam := fun _ _ => none
  draws := []
  faceUploads := []

def glBindFramebuffer (_target fbo : Nat) (g : GLState) : GLState :=
  { g with framebuffer := fbo }

def glUseProgram (p : Nat) (g : GLState) : GLState :=
  { g with program := p }

def glActiveTexture (texture : Nat) (g : GLState) : GLState :=
  { g with activeUnit := texture - GL_TEXTURE0 }

def glBindTexture (target tex : Nat) (g : GLState) : GLState :=
  { g with texBinding := fun u t =>
      if u = g.activeUnit ∧ t = target then tex else g.texBinding u t }

def glBindVertexArray (vao : Nat) (g : GLState) : GLState :=
  { g with vertexArray := vao }

def glBindBuffer (_target buf : Nat) (g : GLState) : GLState :=
  { g with arrayBuffer := buf }

def glBufferData (_target : Nat) (data : List ℚ) (g : GLState) : GLState :=
  { g with bufferData := fun b => if b = g.arrayBuffer then data else g.bufferData b }

/-- The pair `glEnableVertexAttribArray index; glVertexAttribPointer index size
GL_FLOAT GL_FALSE stride offset`, with stride and offset counted in floats. -/
def glVertexAttribPointer (index size stride offset : Nat) (g : GLState) : GLState :=
  { g with attribs := fun v i =>
      if v = g.vertexArray ∧ i = index then
        some { size := size, stride := stride, offset := offset, buffer := g.arrayBuffer }
      else g.attribs v i }

/-- The call `glUniform1i(glGetUniformLocation(prog, name), v)`: sets the
uniform `name` of `prog` when `prog` is the program in use, and is an
invalid operation (no effect) otherwise. -/
def glUniform1i (prog : Nat) (name : String) (v : Int) (g : GLState) : GLState :=
  if prog = g.program then
    { g with uniformI := fun p n => if p = prog ∧ n = name then some v else g.uniformI p n }
  else g

/-- The call `glUniform1f(glGetUniformLocation(prog, name), v)`. -/
def glUniform1f (prog : Nat) (name : String) (v : ℚ) (g : GLState) : GLState :=
  if prog = g.program then
    { g with uniformF := fun p n => if p = prog ∧ n = name then some v else g.uniformF p n }
  else g

/-- The call `glFramebufferTexture2D(GL_FRAMEBUFFER, point, GL_TEXTURE_2D, tex, 0)`:
attaches `tex` to the bound framebuffer object; an error (no effect) on the
default framebuffer. -/
def glFramebufferTexture2D (point tex : Nat) (g : GLState) : GLState :=
  if g.framebuffer = 0 then g
  else { g with attachment := fun f p =>
      if f = g.framebuffer ∧ p = point then tex else g.attachment f p }

/-- The call `glTexImage2D(target, 0, internalFormat, width, height, 0, format,
dataType, NULL)`: gives storage to the texture bound to `target` on the active unit. -/
def glTexImage2D (target internalFormat width height format dataType : Nat)
    (g : GLState) : GLState :=
  { g with texImage := fun t =>
      if t = g.texBinding g.activeUnit target then
        some { internalFormat := internalFormat, width := width, height := height,
               format := format, dataType := dataType }
      else g.texImage t }

def glTexParameteri (target pname param : Nat) (g : GLState) : GLState :=
  { g with texParam := fun t p =>
      if t = g.texBinding g.activeUnit target ∧ p = pname then some param
      else g.texParam t p }

def glBindRenderbuffer (_target rb : Nat) (g : GLState) : GLState :=
  { g with renderbuffer := rb }

def glRenderbufferStorage (_target internalFormat width height : Nat)
    (g : GLState) : GLState :=
  { g with rbStorage := fun r =>
      if r = g.renderbuffer then some (internalFormat, width, height) else g.rbStorage r }

/-- The call `glFramebufferRenderbuffer(GL_FRAMEBUFFER, point, GL_RENDERBUFFER, rb)`. -/
def glFramebufferRenderbuffer (point rb : Nat) (g : GLState) : GLState :=
  if g.framebuffer = 0 then g
  else { g with rbAttachment := fun f p =>
      if f = g.framebuffer ∧ p = point then rb else g.rbAttachment f p }

def glDrawBuffers (bufs : List Nat) (g : GLState) : GLState :=
  { g with drawBuffers := fun f => if f = g.framebuffer then some bufs else g.drawBuffers f }

/-- The call `glClear`: changes pixel contents only, which are not part of the model. -/
def glClear (g : GLState) : GLState := g

def glDrawArrays (mode first count : Nat) (g : GLState) : GLState :=
  { g with draws := g.draws ++
      [{ mode := mode, first := first, count := count,
         framebuffer := g.framebuffer, program := g.program,
         vertexArray := g.vertexArray,
         tex2D := fun u => g.texBinding u GL_TEXTURE_2D,
         uniformI := g.uniformI g.program,
         uniformF := g.uniformF g.program }] }

/-! ## The `Shader` class of `learnopengl/shader.h` -/

/-- A `Shader` object is its program name `ID`. -/
structure Shader where
  ID : Nat

def Shader.use (sh : Shader) (g : GLState) : GLState := glUseProgram sh.ID g

def Shader.setInt (sh : Shader) (name : String) (v : Int) (g : GLState) : GLState :=
  glUniform1i sh.ID name v g

def Shader.setFloat (sh : Shader) (name : String) (v : ℚ) (g : GLState) : GLState :=
  glUniform1f sh.ID name v g

/-! ## Program state -/

inductive Camera_Movement where
  | FORWARD
  | BACKWARD
  | LEFT
  | RIGHT
deriving DecidableEq, Repr

/-- A call received by the global `camera` object (class `Camera` of
`learnopengl/camera.h`). -/
inductive CameraCall where
  | ProcessKeyboard (direction : Camera_Movement) (deltaTime : ℚ)
  | ProcessMouseMovement (xoffset yoffset : ℚ)
  | ProcessMouseScroll (yoffset : ℚ)
deriving DecidableEq, Repr

/-- The global variables of `main.cpp`, with the file-scope variables
`quadVAO`, `quadVBO`, `quadVAO1`, `quadVBO1` of the two quad functions. The
`camera` object is represented by the calls it has received, oldest first. -/
structure Globals where
  cursorEnabled : Bool
  blinnPhong : Bool
  gateClosed : Bool
  heightScale : ℚ
  bloom : Bool
  bloomKeyPressed : Bool
  exposure : ℚ
  camera : List CameraCall
  lastX : ℚ
  lastY : ℚ
  firstMouse : Bool
  deltaTime : ℚ
  lastFrame : ℚ
  quadVAO : Nat
  quadVBO : Nat
  quadVAO1 : Nat
  quadVBO1 : Nat

/-- The initial values of the globals (lines 34-51, 1132-1133, 1226-1227). -/
def Globals.init : Globals where
  cursorEnabled := false
  blinnPhong := true
  gateClosed := false
  heightScale := 305 / 10000
  bloom := false
  bloomKeyPressed := false
  exposure := 1
  camera := []
  lastX := SCR_WIDTH / 2
  lastY := SCR_HEIGHT / 2
  firstMouse := true
  deltaTime := 0
  lastFrame := 0
  quadVAO := 0
  quadVBO := 0
  quadVAO1 := 0
  quadVBO1 := 0

/-- The GLFW window: the cached key states read by `glfwGetKey` (`true` is
pressed), the should-close flag and the cursor input mode. -/
structure Window where
  keyDown : Nat → Bool
  shouldClose : Bool
  cursorMode : Nat

/-- Result of `glfwGetKey`: one of `GLFW_PRESS` and `GLFW_RELEASE`. -/
def glfwGetKey (w : Window) (key : Nat) : Nat :=
  if w.keyDown key then GLFW_PRESS else GLFW_RELEASE

def glfwSetWindowShouldClose (w : Window) (value : Bool) : Window :=
  { w with shouldClose := value }

def glfwWindowShouldClose (w : Window) : Bool := w.shouldClose

/-- The call `glfwSetInputMode(window, GLFW_CURSOR, value)`. -/
def glfwSetInputMode (w : Window) (value : Nat) : Window :=
  { w with cursorMode := value }

/-- Globals, OpenGL context and the lines printed to `std::cout`. -/
structure State where
  app : Globals
  gl : GLState
  out : List String

/-- Object names that the `glGen*` calls of `main` return. -/
structure Handles where
  hdrFBO : Nat
  colorBuffers : Fin 2 → Nat
  rboDepth : Nat
  pingpongFBO : Fin 2 → Nat
  pingpongColorbuffers : Fin 2 → Nat

/-- The shader objects of `main` used by the bloom post-process. -/
structure Shaders where
  blurShader : Shader
  bloomFinalShader : Shader

/-- A C++ `bool` converted to `int`. -/
def boolToInt (b : Bool) : Int := if b then 1 else 0

/-- A C++ `bool` used as the index of a two-element array. -/
def boolIdx (b : Bool) : Fin 2 := if b then 1 else 0

/-! ## Framebuffer set-up (lines 198-249) -/

/-- Body of the loop of lines 205-215, for one `i`: storage and sampling
parameters of `colorBuffers[i]` and its attachment at point `i`. -/
def hdrColorBufferStep (h : Handles) (g : GLState) (i : Fin 2) : GLState :=
  let g := glBindTexture GL_TEXTURE_2D (h.colorBuffers i) g
  let g := glTexImage2D GL_TEXTURE_2D GL_RGBA16F SCR_WIDTH SCR_HEIGHT GL_RGBA GL_FLOAT g
  let g := glTexParameteri GL_TEXTURE_2D GL_TEXTURE_MIN_FILTER GL_LINEAR g
  let g := glTexParameteri GL_TEXTURE_2D GL_TEXTURE_MAG_FILTER GL_LINEAR g
  let g := glTexParameteri GL_TEXTURE_2D GL_TEXTURE_WRAP_S GL_CLAMP_TO_EDGE g
  let g := glTexParameteri GL_TEXTURE_2D GL_TEXTURE_WRAP_T GL_CLAMP_TO_EDGE g
  glFramebufferTexture2D (GL_COLOR_ATTACHMENT0 + i.val) (h.colorBuffers i) g

/-- Lines 198-229: the HDR framebuffer with two colour buffers and a depth
renderbuffer. `status` is the answer of `glCheckFramebufferStatus` for the
framebuffer bound at the time of the call. -/
def setupHdrFramebuffer (h : Handles) (status : Nat → Nat) (s : State) : State :=
  let g := glBindFramebuffer GL_FRAMEBUFFER h.hdrFBO s.gl
  let g := ([0, 1] : List (Fin 2)).foldl (hdrColorBufferStep h) g
  let g := glBindRenderbuffer GL_RENDERBUFFER h.rboDepth g
  let g := glRenderbufferStorage GL_RENDERBUFFER GL_DEPTH_COMPONENT SCR_WIDTH SCR_HEIGHT g
  let g := glFramebufferRenderbuffer GL_DEPTH_ATTACHMENT h.rboDepth g
  let g := glDrawBuffers [GL_COLOR_ATTACHMENT0, GL_COLOR_ATTACHMENT1] g
  let out :=
    if status g.framebuffer ≠ GL_FRAMEBUFFER_COMPLETE then
      s.out ++ ["Framebuffer not complete!"]
    else s.out
  let g := glBindFramebuffer GL_FRAMEBUFFER 0 g
  { s with gl := g, out := out }

/-- Body of the loop of lines 236-249, for one `i`. -/
def pingpongStep (h : Handles) (status : Nat → Nat) (s : State) (i : Fin 2) : State :=
  let g := glBindFramebuffer GL_FRAMEBUFFER (h.pingpongFBO i) s.gl
  let g := glBindTexture GL_TEXTURE_2D (h.pingpongColorbuffers i) g
  let g := glTexImage2D GL_TEXTURE_2D GL_RGBA16F SCR_WIDTH SCR_HEIGHT GL_RGBA GL_FLOAT g
  let g := glTexParameteri GL_TEXTURE_2D GL_TEXTURE_MIN_FILTER GL_LINEAR g
  let g := glTexParameteri GL_TEXTURE_2D GL_TEXTURE_MAG_FILTER GL_LINEAR g
  let g := glTexParameteri GL_TEXTURE_2D GL_TEXTURE_WRAP_S GL_CLAMP_TO_EDGE g
  let g := glTexParameteri GL_TEXTURE_2D GL_TEXTURE_WRAP_T GL_CLAMP_TO_EDGE g
  let g := glFramebufferTexture2D GL_COLOR_ATTACHMENT0 (h.pingpongColorbuffers i) g
  let out :=
    if status g.framebuffer ≠ GL_FRAMEBUFFER_COMPLETE then
      s.out ++ ["Framebuffer not complete!"]
    else s.out
  { s with gl := g, out := out }

/-- Lines 231-249: the two ping-pong framebuffers. -/
def setupPingpongFramebuffers (h : Handles) (status : Nat → Nat) (s : State) : State :=
  ([0, 1] : List (Fin 2)).foldl (pingpongStep h status) s

/-- Lines 198-249. -/
def setupFramebuffers (h : Handles) (status : Nat → Nat) (s : State) : State :=
  setupPingpongFramebuffers h status (setupHdrFramebuffer h status s)

/-! ## `renderQuadForBloom` (lines 1226-1253) -/

/-- The array `quadVertices` of `renderQuadForBloom`: per vertex three
position and two texture coordinates. -/
def bloomQuadVertices : List ℚ :=
  [-1,  1, 0, 0, 1,
   -1, -1, 0, 0, 0,
    1,  1, 0, 1, 1,
    1, -1, 0, 1, 0]

/-- The function `renderQuadForBloom`. `names` are the vertex-array and buffer
names that `glGenVertexArrays` and `glGenBuffers` return if they are called. -/
def renderQuadForBloom (names : Nat × Nat) (s : State) : State :=
  let s :=
    if s.app.quadVAO1 = 0 then
      let app := { s.app with quadVAO1 := names.1, quadVBO1 := names.2 }
      let g := glBindVertexArray app.quadVAO1 s.gl
      let g := glBindBuffer GL_ARRAY_BUFFER app.quadVBO1 g
      let g := glBufferData GL_ARRAY_BUFFER bloomQuadVertices g
      let g := glVertexAttribPointer 0 3 5 0 g
      let g := glVertexAttribPointer 1 2 5 3 g
      { s with app := app, gl := g }
    else s
  let g := glBindVertexArray s.app.quadVAO1 s.gl
  let g := glDrawArrays GL_TRIANGLE_STRIP 0 4 g
  let g := glBindVertexArray 0 g
  { s with gl := g }

/-! ## The bloom post-process of the render loop (lines 924-954) -/

/-- Local variables of the blur loop together with the program state. -/
structure BlurLoop where
  horizontal : Bool
  first_iteration : Bool
  st : State

/-- Body of the blur loop (lines 933-940). -/
def blurIteration (h : Handles) (sh : Shaders) (names : Nat × Nat) (L : BlurLoop) : BlurLoop :=
  let g := glBindFramebuffer GL_FRAMEBUFFER (h.pingpongFBO (boolIdx L.horizontal)) L.st.gl
  let g := sh.blurShader.setInt "horizontal" (boolToInt L.horizontal) g
  let g := glActiveTexture GL_TEXTURE0 g
  let g := glBindTexture GL_TEXTURE_2D
    (if L.first_iteration then h.colorBuffers 1
     else h.pingpongColorbuffers (boolIdx (!L.horizontal))) g
  let st := renderQuadForBloom names { L.st with gl := g }
  let horizontal := !L.horizontal
  let first_iteration := if L.first_iteration then false else L.first_iteration
  { horizontal := horizontal, first_iteration := first_iteration, st := st }

/-- The loop `for (unsigned int i = 0; i < amount; i++)` of line 931, entered
with the counter at `i`. -/
def blurFor (h : Handles) (sh : Shaders) (names : Nat × Nat) (amount i : Nat)
    (L : BlurLoop) : BlurLoop :=
  if i < amount then blurFor h sh names amount (i + 1) (blurIteration h sh names L) else L
termination_by amount - i

/-- Lines 928-930: the loop variables `horizontal = true`,
`first_iteration = true`, and `blurShader.use()`. -/
def blurInit (sh : Shaders) (s : State) : BlurLoop :=
  { horizontal := true, first_iteration := true,
    st := { s with gl := sh.blurShader.use s.gl } }

/-- Lines 928-942 with the iteration count `amount` as a parameter: the
blur stage. -/
def blurStage (h : Handles) (sh : Shaders) (names : Nat × Nat) (amount : Nat)
    (s : State) : BlurLoop :=
  let L := blurFor h sh names amount 0 (blurInit sh s)
  { L with st := { L.st with gl := glBindFramebuffer GL_FRAMEBUFFER 0 L.st.gl } }

/-- Lines 946-954: the composite stage, entered with the value of
`horizontal` that the blur loop left. -/
def compositeStage (h : Handles) (sh : Shaders) (names : Nat × Nat) (horizontal : Bool)
    (s : State) : State :=
  let g := glClear s.gl
  let g := sh.bloomFinalShader.use g
  let g := glActiveTexture GL_TEXTURE0 g
  let g := glBindTexture GL_TEXTURE_2D (h.colorBuffers 0) g
  let g := glActiveTexture GL_TEXTURE1 g
  let g := glBindTexture GL_TEXTURE_2D (h.pingpongColorbuffers (boolIdx (!horizontal))) g
  let g := sh.bloomFinalShader.setInt "bloom" (boolToInt s.app.bloom) g
  let g := sh.bloomFinalShader.setFloat "exposure" s.app.exposure g
  renderQuadForBloom names { s with gl := g }

/-- The constant `amount` of line 929. -/
def amount : Nat := 10

/-- Lines 926-954 with the iteration count as a parameter: blur stage, then
composite stage. -/
def postProcessN (h : Handles) (sh : Shaders) (names : Nat × Nat) (n : Nat)
    (s : State) : State :=
  let L := blurStage h sh names n s
  compositeStage h sh names L.horizontal L.st

/-- Lines 926-954 as written, with `amount = 10`. -/
def postProcess (h : Handles) (sh : Shaders) (names : Nat × Nat) (s : State) : State :=
  postProcessN h sh names amount s

/-! ## Input handling (lines 970-1061) -/

/-- Lines 971-972 of `processInput`: the escape key. -/
def inputEscape (w : Window) : Window :=
  if glfwGetKey w GLFW_KEY_ESCAPE = GLFW_PRESS then glfwSetWindowShouldClose w true else w

/-- A call `camera.ProcessKeyboard(direction, deltaTime)`. -/
def cameraProcessKeyboard (direction : Camera_Movement) (a : Globals) : Globals :=
  { a with camera := a.camera ++ [.ProcessKeyboard direction a.deltaTime] }

/-- Lines 974-981 of `processInput`: the movement keys. -/
def inputMove (w : Window) (a : Globals) : Globals :=
  let a := if glfwGetKey w GLFW_KEY_W = GLFW_PRESS then cameraProcessKeyboard .FORWARD a else a
  let a := if glfwGetKey w GLFW_KEY_S = GLFW_PRESS then cameraProcessKeyboard .BACKWARD a else a
  let a := if glfwGetKey w GLFW_KEY_A = GLFW_PRESS then cameraProcessKeyboard .LEFT a else a
  if glfwGetKey w GLFW_KEY_D = GLFW_PRESS then cameraProcessKeyboard .RIGHT a else a

/-- Lines 983-997 of `processInput`: `heightScale` on Q and E. -/
def inputHeightScale (w : Window) (a : Globals) : Globals :=
  if glfwGetKey w GLFW_KEY_Q = GLFW_PRESS then
    if a.heightScale > 0 then { a with heightScale := a.heightScale - 5 / 10000 }
    else { a with heightScale := 0 }
  else if glfwGetKey w GLFW_KEY_E = GLFW_PRESS then
    if a.heightScale < 1 then { a with heightScale := a.heightScale + 5 / 10000 }
    else { a with heightScale := 1 }
  else a

/-- Lines 999-1007 of `processInput`: the bloom toggle on space. -/
def inputBloom (w : Window) (a : Globals) : Globals :=
  let a :=
    if glfwGetKey w GLFW_KEY_SPACE = GLFW_PRESS ∧ ¬ a.bloomKeyPressed then
      { a with bloom := !a.bloom, bloomKeyPressed := true }
    else a
  if glfwGetKey w GLFW_KEY_SPACE = GLFW_RELEASE then { a with bloomKeyPressed := false }
  else a

/-- Lines 1009-1019 of `processInput`: `exposure` on Z and C. -/
def inputExposure (w : Window) (a : Globals) : Globals :=
  if glfwGetKey w GLFW_KEY_Z = GLFW_PRESS then
    if a.exposure > 0 then { a with exposure := a.exposure - 1 / 1000 }
    else { a with exposure := 0 }
  else if glfwGetKey w GLFW_KEY_C = GLFW_PRESS then
    { a with exposure := a.exposure + 1 / 1000 }
  else a

/-- The function `processInput` (lines 970-1020): its five blocks in order. -/
def processInput (w : Window) (a : Globals) : Window × Globals :=
  let w := inputEscape w
  let a := inputMove w a
  let a := inputHeightScale w a
  let a := inputBloom w a
  let a := inputExposure w a
  (w, a)

/-- The function `mouse_callback` (lines 1032-1046). -/
def mouse_callback (xpos ypos : ℚ) (a : Globals) : Globals :=
  let a :=
    if a.firstMouse then { a with lastX := xpos, lastY := ypos, firstMouse := false }
    else a
  let xoffset := xpos - a.lastX
  let yoffset := a.lastY - ypos
  let a := { a with lastX := xpos, lastY := ypos }
  { a with camera := a.camera ++ [.ProcessMouseMovement xoffset yoffset] }

/-- The function `scroll_callback` (lines 1050-1052). -/
def scroll_callback (_xoffset yoffset : ℚ) (a : Globals) : Globals :=
  { a with camera := a.camera ++ [.ProcessMouseScroll yoffset] }

/-- The function `key_callback` (lines 1054-1061). -/
def key_callback (key _scancode action _mods : Nat) (a : Globals) : Globals :=
  let a :=
    if key = GLFW_KEY_F1 ∧ action = GLFW_PRESS then { a with cursorEnabled := !a.cursorEnabled }
    else a
  let a :=
    if key = GLFW_KEY_G ∧ action = GLFW_PRESS then { a with gateClosed := !a.gateClosed }
    else a
  if key = GLFW_KEY_M ∧ action = GLFW_PRESS then { a with blinnPhong := !a.blinnPhong }
  else a

/-! ## One pass of the render loop (lines 482-961) -/

/-- The scene pass of lines 500-922 is a parameter of the frame: a function
that reads the globals and the time and acts on the OpenGL context, and may
initialise the statics `quadVAO`, `quadVBO` of `renderQuad`. It has no
assignment to any other global. The scene pass of `main` itself is `scenePass`
below. -/
structure ScenePass where
  run : Globals → ℚ → GLState → GLState
  quad : Globals → Nat × Nat

/-- Lines 485-491 of the loop body: the time update and the call of
`processInput`. `now` is the value of `glfwGetTime()`. -/
def frameInput (now : ℚ) (w : Window) (a : Globals) : Window × Globals :=
  let currentFrame := now
  let a := { a with deltaTime := currentFrame - a.lastFrame }
  let a := { a with lastFrame := currentFrame }
  processInput w a

/-- Lines 485-922 of the loop body: input, cursor mode and scene pass; the
result is the state in which the blur stage starts. -/
def frameScene (scene : ScenePass) (now : ℚ) (w : Window) (s : State) : Window × State :=
  let wa := frameInput now w s.app
  let w := wa.1
  let a := wa.2
  let w :=
    if a.cursorEnabled then glfwSetInputMode w GLFW_CURSOR_NORMAL
    else glfwSetInputMode w GLFW_CURSOR_DISABLED
  let g := scene.run a now s.gl
  let a := { a with quadVAO := (scene.quad a).1, quadVBO := (scene.quad a).2 }
  (w, { s with app := a, gl := g })

/-- Lines 485-954 of the loop body, up to the buffer swap: `frameScene`
followed by the blur stage and the composite stage. -/
def renderFrame (h : Handles) (sh : Shaders) (names : Nat × Nat) (scene : ScenePass)
    (now : ℚ) (w : Window) (s : State) : Window × State :=
  let ws := frameScene scene now w s
  (ws.1, postProcess h sh names ws.2)

/-! ## Observations on a run, used to state the results -/

/-- The snapshot that `renderQuadForBloom` logs when called in state `s`. -/
def bloomDraw (names : Nat × Nat) (s : State) : DrawCall :=
  { mode := GL_TRIANGLE_STRIP, first := 0, count := 4,
    framebuffer := s.gl.framebuffer, program := s.gl.program,
    vertexArray := if s.app.quadVAO1 = 0 then names.1 else s.app.quadVAO1,
    tex2D := fun u => s.gl.texBinding u GL_TEXTURE_2D,
    uniformI := s.gl.uniformI s.gl.program,
    uniformF := s.gl.uniformF s.gl.program }

/-- The OpenGL context of a blur iteration at its draw: lines 933-936 applied
to the context of the loop state `L`. -/
def blurBind (h : Handles) (sh : Shaders) (L : BlurLoop) : GLState :=
  glBindTexture GL_TEXTURE_2D
    (if L.first_iteration then h.colorBuffers 1
     else h.pingpongColorbuffers (boolIdx (!L.horizontal)))
    (glActiveTexture GL_TEXTURE0
      (sh.blurShader.setInt "horizontal" (boolToInt L.horizontal)
        (glBindFramebuffer GL_FRAMEBUFFER (h.pingpongFBO (boolIdx L.horizontal)) L.st.gl)))

/-- The draw issued by the blur iteration entered in loop state `L`. -/
def iterDraw (h : Handles) (sh : Shaders) (names : Nat × Nat) (L : BlurLoop) : DrawCall :=
  bloomDraw names { L.st with gl := blurBind h sh L }

/-- The loop state on entry to iteration `i` (0-based) of the blur loop
started in state `s`: the state after `i` iterations. -/
def blurEntry (h : Handles) (sh : Shaders) (names : Nat × Nat) (s : State) (i : Nat) :
    BlurLoop :=
  blurFor h sh names i 0 (blurInit sh s)

/-- The draws issued by the blur stage with `n` iterations started in `s`,
in issue order: what the stage appended to the log. -/
def blurDraws (h : Handles) (sh : Shaders) (names : Nat × Nat) (n : Nat) (s : State) :
    List DrawCall :=
  (blurStage h sh names n s).st.gl.draws.drop s.gl.draws.length

/-- The texture a blur draw samples: the sampler `image` of the blur shader is
set to unit 0 (line 341). -/
def DrawCall.readSource (d : DrawCall) : Nat := d.tex2D 0

/-- The colour texture a draw writes to, given the attachment table: the
texture at colour attachment 0 of the framebuffer bound at the draw. -/
def DrawCall.writeTexture (att : Nat → Nat → Nat) (d : DrawCall) : Nat :=
  att d.framebuffer GL_COLOR_ATTACHMENT0

/-- The OpenGL context of the composite stage at its draw: lines 946-953. -/
def compositeBind (h : Handles) (sh : Shaders) (horizontal : Bool) (s : State) : GLState :=
  sh.bloomFinalShader.setFloat "exposure" s.app.exposure
    (sh.bloomFinalShader.setInt "bloom" (boolToInt s.app.bloom)
      (glBindTexture GL_TEXTURE_2D (h.pingpongColorbuffers (boolIdx (!horizontal)))
        (glActiveTexture GL_TEXTURE1
          (glBindTexture GL_TEXTURE_2D (h.colorBuffers 0)
            (glActiveTexture GL_TEXTURE0
              (sh.bloomFinalShader.use (glClear s.gl)))))))

/-- The draw issued by the composite stage entered in state `s`. -/
def compositeDraw (h : Handles) (sh : Shaders) (names : Nat × Nat) (horizontal : Bool)
    (s : State) : DrawCall :=
  bloomDraw names { s with gl := compositeBind h sh horizontal s }

/-- Index of the ping-pong target that the last of `n` blur iterations binds
as write target: `horizontal` on entry to iteration `n - 1`, as an index. -/
def lastWrittenIndex (h : Handles) (sh : Shaders) (names : Nat × Nat) (n : Nat) (s : State) :
    Fin 2 :=
  boolIdx (blurEntry h sh names s (n - 1)).horizontal

/-- The four colour textures of the pipeline have pairwise distinct names. -/
def Handles.texturesDistinct (h : Handles) : Prop :=
  [h.colorBuffers 0, h.colorBuffers 1, h.pingpongColorbuffers 0,
    h.pingpongColorbuffers 1].Nodup

/-- Every ping-pong framebuffer has the ping-pong texture of the same index at
colour attachment 0 in the attachment table `att`. -/
def Handles.pingpongAttached (h : Handles) (att : Nat → Nat → Nat) : Prop :=
  ∀ k : Fin 2, att (h.pingpongFBO k) GL_COLOR_ATTACHMENT0 = h.pingpongColorbuffers k

/-- Successive calls of `processInput`, one per frame: before the call of a
frame the cached key states of the window are those of that frame (`keys`
lists them frame by frame, `true` is pressed). -/
def processInputs (keys : List (Nat → Bool)) (wa : Window × Globals) : Window × Globals :=
  keys.foldl (fun wa k => processInput { wa.1 with keyDown := k } wa.2) wa

/-- Number of frames whose key state is pressed while the state of the frame
before is released; `prev` is the state before the first frame. -/
def risingEdges : Bool → List Bool → Nat
  | _, [] => 0
  | prev, s :: rest => (if s = true ∧ prev = false then 1 else 0) + risingEdges s rest

/-- The space-key state of every frame. -/
def spaceStates (keys : List (Nat → Bool)) : List Bool :=
  keys.map (fun k => k GLFW_KEY_SPACE)

/-! ## Concrete inputs used to instantiate the results -/

def demoHandles : Handles :=
  { hdrFBO := 1, colorBuffers := ![2, 3], rboDepth := 4,
    pingpongFBO := ![5, 6], pingpongColorbuffers := ![7, 8] }

def demoShaders : Shaders := { blurShader := ⟨11⟩, bloomFinalShader := ⟨12⟩ }

def demoNames : Nat × Nat := (20, 21)

/-- A driver that reports every framebuffer complete. -/
def demoStatus : Nat → Nat := fun _ => GL_FRAMEBUFFER_COMPLETE

/-- The state after the framebuffer set-up on a fresh context. -/
def demoState : State :=
  setupFramebuffers demoHandles demoStatus
    { app := Globals.init, gl := GLState.init, out := [] }

def demoWindow : Window :=
  { keyDown := fun _ => false, shouldClose := false, cursorMode := GLFW_CURSOR_DISABLED }

/-- A scene pass that issues no OpenGL call. -/
def demoScene : ScenePass :=
  { run := fun _ _ g => g, quad := fun a => (a.quadVAO, a.quadVBO) }

/-- A window with the Z key down and every other key up. -/
def zWindow : Window :=
  { keyDown := fun k => decide (k = GLFW_KEY_Z), shouldClose := false,
    cursorMode := GLFW_CURSOR_DISABLED }

/-- A window with the C key down and every other key up. -/
def cWindow : Window :=
  { keyDown := fun k => decide (k = GLFW_KEY_C), shouldClose := false,
    cursorMode := GLFW_CURSOR_DISABLED }

/-- Globals with `exposure = 40049 / 2^32`, a value between 0 and 0.001 (the
`float` reached from 1.0f by a thousand decrements of 0.001f). -/
def lowExposure : Globals :=
  { Globals.init with exposure := 40049 / 4294967296 }

/-- Three frames with the space key held down. -/
def spaceHeld : List (Nat → Bool) :=
  List.replicate 3 (fun k => decide (k = GLFW_KEY_SPACE))

/-! ## Texture loading: `loadTexture` (lines 1093-1128) -/

def GL_RED : Nat := 0x1903
def GL_RGB : Nat := 0x1907
def GL_UNSIGNED_BYTE : Nat := 0x1401
def GL_REPEAT : Nat := 0x2901
def GL_LINEAR_MIPMAP_LINEAR : Nat := 0x2703

/-- What `stbi_load` hands back when it decodes a file: the dimensions and the
channel count. The pixel data is not part of the model. -/
structure StbImage where
  width : Nat
  height : Nat
  nrComponents : Int

/-- The call `glGenerateMipmap`: fills mip levels, which are pixel contents and
not part of the model. -/
def glGenerateMipmap (_target : Nat) (g : GLState) : GLState := g

/-- The function `loadTexture`. `textureID` is the name that `glGenTextures`
returns at entry and `stbi_load` the decoder (`none` is the null pointer). The
result is the returned handle and the state after the call. -/
def loadTexture (textureID : Nat) (stbi_load : String → Option StbImage) (path : String)
    (s : State) : Nat × State :=
  match stbi_load path with
  | some data =>
    let format := GL_RED
    let format :=
      if data.nrComponents = 1 then GL_RED
      else if data.nrComponents = 3 then GL_RGB
      else if data.nrComponents = 4 then GL_RGBA
      else format
    let g := glBindTexture GL_TEXTURE_2D textureID s.gl
    let g := glTexImage2D GL_TEXTURE_2D format data.width data.height format
      GL_UNSIGNED_BYTE g
    let g := glGenerateMipmap GL_TEXTURE_2D g
    let g := glTexParameteri GL_TEXTURE_2D GL_TEXTURE_WRAP_S GL_REPEAT g
    let g := glTexParameteri GL_TEXTURE_2D GL_TEXTURE_WRAP_T GL_REPEAT g
    let g := glTexParameteri GL_TEXTURE_2D GL_TEXTURE_MIN_FILTER GL_LINEAR_MIPMAP_LINEAR g
    let g := glTexParameteri GL_TEXTURE_2D GL_TEXTURE_MAG_FILTER GL_LINEAR g
    (textureID, { s with gl := g })
  | none =>
    (textureID, { s with out := s.out ++ ["Texture failed to load at path: " ++ path] })

/-- The paths of the six `loadTexture` calls of `main` (lines 253-259), in
call order, before `FileSystem::getPath` is applied. -/
def texturePaths : List String :=
  ["resources/textures/tree.png", "resources/textures/grass/diffuse.png",
   "resources/textures/grass/specular.png", "resources/textures/grassD.jpg",
   "resources/textures/grassN.jpg", "resources/textures/grassH.jpg"]

/-- Lines 253-259: the six `loadTexture` calls in order. `ids k` is the name
that `glGenTextures` returns to call `k` and `getPath` is
`FileSystem::getPath`. The result is the list of returned handles and the
state. -/
def loadTextures (ids : Nat → Nat) (getPath : String → String)
    (stbi_load : String → Option StbImage) (s : State) : List Nat × State :=
  texturePaths.enum.foldl
    (fun acc kp =>
      let r := loadTexture (ids kp.1) stbi_load (getPath kp.2) acc.2
      (acc.1 ++ [r.1], r.2))
    ([], s)

/-! ## The render loop and `main` (lines 53-967) -/

/-- An event that `glfwPollEvents` delivers to a callback registered in
lines 76-79. -/
inductive Event where
  | key (key scancode action mods : Nat)
  | cursorPos (xpos ypos : ℚ)
  | scroll (xoffset yoffset : ℚ)
  | framebufferSize (width height : Nat)

/-- The call `glViewport`: the viewport is not part of the model. -/
def glViewport (_x _y _width _height : Nat) (g : GLState) : GLState := g

/-- The function `framebuffer_size_callback` (lines 1024-1028). -/
def framebuffer_size_callback (width height : Nat) (g : GLState) : GLState :=
  glViewport 0 0 width height g

/-- Delivery of one event to its callback. -/
def dispatch (s : State) (e : Event) : State :=
  match e with
  | .key key scancode action mods => { s with app := key_callback key scancode action mods s.app }
  | .cursorPos x y => { s with app := mouse_callback x y s.app }
  | .scroll x y => { s with app := scroll_callback x y s.app }
  | .framebufferSize w h => { s with gl := framebuffer_size_callback w h s.gl }

/-- What one call of `glfwPollEvents` brings: the key states cached from then
on, the events for the callbacks in order, and whether the user asked to close
the window. -/
structure PollEvents where
  keys : Nat → Bool
  events : List Event
  closeRequested : Bool

/-- The call `glfwPollEvents`: a close request sets the should-close flag,
nothing clears it. -/
def glfwPollEvents (p : PollEvents) (ws : Window × State) : Window × State :=
  ({ ws.1 with keyDown := p.keys, shouldClose := ws.1.shouldClose || p.closeRequested },
   p.events.foldl dispatch ws.2)

/-- The inputs of one pass of the loop body: the value of `glfwGetTime()` at
line 485 and what `glfwPollEvents` brings at its end. -/
structure FrameIn where
  now : ℚ
  poll : PollEvents

/-- State of the render loop: window, program state, and the number of
`glfwSwapBuffers` calls so far. -/
structure LoopState where
  w : Window
  st : State
  swaps : Nat

/-- The body of the render loop (lines 483-961): `renderFrame`, then
`glfwSwapBuffers`, then `glfwPollEvents`. -/
def loopBody (h : Handles) (sh : Shaders) (names : Nat × Nat) (scene : ScenePass)
    (f : FrameIn) (L : LoopState) : LoopState :=
  let ws := renderFrame h sh names scene f.now L.w L.st
  let swaps := L.swaps + 1
  let ws := glfwPollEvents f.poll ws
  { w := ws.1, st := ws.2, swaps := swaps }

/-- The loop `while (!glfwWindowShouldClose(window))` of line 482, run on the
inputs of as many frames as `frames` lists: it stops when the flag is set at
the loop head, or, still running, when the listed inputs are used up. -/
def renderLoop (h : Handles) (sh : Shaders) (names : Nat × Nat) (scene : ScenePass) :
    List FrameIn → LoopState → LoopState
  | [], L => L
  | f :: fs, L =>
    if glfwWindowShouldClose L.w then L
    else renderLoop h sh names scene fs (loopBody h sh names scene f L)

/-- Lines 205-215 with the texture size as a parameter: `hdrColorBufferStep`
is the instance at `SCR_WIDTH`, `SCR_HEIGHT`. -/
def hdrColorBufferStepAt (width height : Nat) (h : Handles) (g : GLState) (i : Fin 2) :
    GLState :=
  let g := glBindTexture GL_TEXTURE_2D (h.colorBuffers i) g
  let g := glTexImage2D GL_TEXTURE_2D GL_RGBA16F width height GL_RGBA GL_FLOAT g
  let g := glTexParameteri GL_TEXTURE_2D GL_TEXTURE_MIN_FILTER GL_LINEAR g
  let g := glTexParameteri GL_TEXTURE_2D GL_TEXTURE_MAG_FILTER GL_LINEAR g
  let g := glTexParameteri GL_TEXTURE_2D GL_TEXTURE_WRAP_S GL_CLAMP_TO_EDGE g
  let g := glTexParameteri GL_TEXTURE_2D GL_TEXTURE_WRAP_T GL_CLAMP_TO_EDGE g
  glFramebufferTexture2D (GL_COLOR_ATTACHMENT0 + i.val) (h.colorBuffers i) g

/-- Lines 198-229 with the resolution as a parameter. -/
def setupHdrFramebufferAt (width height : Nat) (h : Handles) (status : Nat → Nat)
    (s : State) : State :=
  let g := glBindFramebuffer GL_FRAMEBUFFER h.hdrFBO s.gl
  let g := ([0, 1] : List (Fin 2)).foldl (hdrColorBufferStepAt width height h) g
  let g := glBindRenderbuffer GL_RENDERBUFFER h.rboDepth g
  let g := glRenderbufferStorage GL_RENDERBUFFER GL_DEPTH_COMPONENT width height g
  let g := glFramebufferRenderbuffer GL_DEPTH_ATTACHMENT h.rboDepth g
  let g := glDrawBuffers [GL_COLOR_ATTACHMENT0, GL_COLOR_ATTACHMENT1] g
  let out :=
    if status g.framebuffer ≠ GL_FRAMEBUFFER_COMPLETE then
      s.out ++ ["Framebuffer not complete!"]
    else s.out
  let g := glBindFramebuffer GL_FRAMEBUFFER 0 g
  { s with gl := g, out := out }

/-- Lines 236-249 with the texture size as a parameter. -/
def pingpongStepAt (width height : Nat) (h : Handles) (status : Nat → Nat) (s : State)
    (i : Fin 2) : State :=
  let g := glBindFramebuffer GL_FRAMEBUFFER (h.pingpongFBO i) s.gl
  let g := glBindTexture GL_TEXTURE_2D (h.pingpongColorbuffers i) g
  let g := glTexImage2D GL_TEXTURE_2D GL_RGBA16F width height GL_RGBA GL_FLOAT g
  let g := glTexParameteri GL_TEXTURE_2D GL_TEXTURE_MIN_FILTER GL_LINEAR g
  let g := glTexParameteri GL_TEXTURE_2D GL_TEXTURE_MAG_FILTER GL_LINEAR g
  let g := glTexParameteri GL_TEXTURE_2D GL_TEXTURE_WRAP_S GL_CLAMP_TO_EDGE g
  let g := glTexParameteri GL_TEXTURE_2D GL_TEXTURE_WRAP_T GL_CLAMP_TO_EDGE g
  let g := glFramebufferTexture2D GL_COLOR_ATTACHMENT0 (h.pingpongColorbuffers i) g
  let out :=
    if status g.framebuffer ≠ GL_FRAMEBUFFER_COMPLETE then
      s.out ++ ["Framebuffer not complete!"]
    else s.out
  { s with gl := g, out := out }

/-- Lines 198-249 with the resolution as a parameter: the framebuffer
provisioning for a requested resolution. `setupFramebuffers` is the instance
at `SCR_WIDTH`, `SCR_HEIGHT`, the only resolution `main` requests. -/
def setupFramebuffersAt (width height : Nat) (h : Handles) (status : Nat → Nat)
    (s : State) : State :=
  ([0, 1] : List (Fin 2)).foldl (pingpongStepAt width height h status)
    (setupHdrFramebufferAt width height h status s)

/-- Everything `main` receives from outside: the outcome of window creation
(for a valid window size) and of the OpenGL loader, the key states before the
first poll, the object names
and completeness answers of the driver, the image decoder, the shader objects,
the scene pass, and the inputs of the frames. `preSetup` stands for lines
90-197 and `postLoad` for lines 261-480 (shader construction and
configuration, vertex arrays, cube map, models), which act on the OpenGL
context only. -/
structure MainEnv where
  windowCreated : Bool
  gladLoaded : Bool
  keys : Nat → Bool
  preSetup : GLState → GLState
  h : Handles
  status : Nat → Nat
  textureIDs : Nat → Nat
  getPath : String → String
  stbi_load : String → Option StbImage
  postLoad : GLState → GLState
  sh : Shaders
  names : Nat × Nat
  scene : ScenePass
  frames : List FrameIn

/-- Outcome of `main`: the returned value, or `none` while the render loop is
still running when the listed frame inputs are used up, and the loop state
reached. -/
structure MainResult where
  exitCode : Option Int
  loop : LoopState

/-- The call `glfwCreateWindow(width, height, ...)` of line 68: whether it
yields a window. GLFW requires a width and a height greater than zero and
yields `NULL` otherwise; for such a size the outcome is the input
`windowCreated`. -/
def glfwCreateWindow (windowCreated : Bool) (width height : Nat) : Bool :=
  windowCreated && decide (0 < width) && decide (0 < height)

/-- The function `main` with the constants `SCR_WIDTH` and `SCR_HEIGHT` as
parameters: they are the size of the window (line 68) and the resolution of
the framebuffer provisioning (lines 198-249). -/
def mainRunAt (width height : Nat) (env : MainEnv) : MainResult :=
  let s : State := { app := Globals.init, gl := GLState.init, out := [] }
  let w : Window :=
    { keyDown := env.keys, shouldClose := false, cursorMode := GLFW_CURSOR_NORMAL }
  if glfwCreateWindow env.windowCreated width height = false then
    { exitCode := some (-1),
      loop := { w := w, st := { s with out := s.out ++ ["Failed to create GLFW window"] },
                swaps := 0 } }
  else
    let w := glfwSetInputMode w GLFW_CURSOR_DISABLED
    if env.gladLoaded = false then
      { exitCode := some (-1),
        loop := { w := w, st := { s with out := s.out ++ ["Failed to initialize GLAD"] },
                  swaps := 0 } }
    else
      let s := { s with gl := env.preSetup s.gl }
      let s := setupFramebuffersAt width height env.h env.status s
      let s := (loadTextures env.textureIDs env.getPath env.stbi_load s).2
      let s := { s with gl := env.postLoad s.gl }
      let L := renderLoop env.h env.sh env.names env.scene env.frames
        { w := w, st := s, swaps := 0 }
      { exitCode := if glfwWindowShouldClose L.w then some 0 else none, loop := L }

/-- The function `main` (lines 53-967). -/
def mainRun (env : MainEnv) : MainResult := mainRunAt SCR_WIDTH SCR_HEIGHT env

/-- A decoder that fails on every file. -/
def failingDecoder : String → Option StbImage := fun _ => none

/-- A decoder that yields a 4 by 4 image with three channels for every file. -/
def rgbDecoder : String → Option StbImage :=
  fun _ => some { width := 4, height := 4, nrComponents := 3 }

/-- The state `s` with the printed lines replaced by `o`. -/
def State.withOut (o : List String) (s : State) : State := { s with out := o }

/-- Two states agree in everything but the printed lines. -/
def State.sameCore (s t : State) : Prop := s.app = t.app ∧ s.gl = t.gl

/-- The lines that the framebuffer set-up prints for the completeness answers
`status`: one per framebuffer that is not complete, in checking order. -/
def incompleteLines (h : Handles) (status : Nat → Nat) : List String :=
  ([h.hdrFBO, h.pingpongFBO 0, h.pingpongFBO 1].filter
      (fun f => decide (status f ≠ GL_FRAMEBUFFER_COMPLETE))).map
    (fun _ => "Framebuffer not complete!")

/-- The state in which `main` enters the render loop, when window creation
and the OpenGL loader succeed (lines 90-480). -/
def startupState (width height : Nat) (env : MainEnv) : State :=
  let s : State := { app := Globals.init, gl := GLState.init, out := [] }
  let s := { s with gl := env.preSetup s.gl }
  let s := setupFramebuffersAt width height env.h env.status s
  let s := (loadTextures env.textureIDs env.getPath env.stbi_load s).2
  { s with gl := env.postLoad s.gl }

/-- The loop state in which `main` enters the render loop. -/
def startupLoop (width height : Nat) (env : MainEnv) : LoopState :=
  { w := glfwSetInputMode
      { keyDown := env.keys, shouldClose := false, cursorMode := GLFW_CURSOR_NORMAL }
      GLFW_CURSOR_DISABLED,
    st := startupState width height env, swaps := 0 }

/-- Number of framebuffers reported incomplete among three completeness
results (`true` is complete). -/
def incompleteCount (c0 c1 c2 : Bool) : Nat :=
  (if c0 then 0 else 1) + (if c1 then 0 else 1) + (if c2 then 0 else 1)

def GL_FRAMEBUFFER_INCOMPLETE_ATTACHMENT : Nat := 0x8CD6

/-- One frame whose poll brings a close request and nothing else. -/
def closingFrame : FrameIn :=
  { now := 0, poll := { keys := fun _ => false, events := [], closeRequested := true } }

/-- An environment for `main`: window and loader in order, the demo handles, a
driver that reports ping-pong framebuffer 0 (name 5) incomplete and the other
two complete, a decoder that succeeds, and one frame that ends with a close
request. -/
def demoEnv : MainEnv :=
  { windowCreated := true, gladLoaded := true, keys := fun _ => false,
    preSetup := fun g => g, h := demoHandles,
    status := fun f =>
      if f = 5 then GL_FRAMEBUFFER_INCOMPLETE_ATTACHMENT else GL_FRAMEBUFFER_COMPLETE,
    textureIDs := fun k => 30 + k, getPath := fun p => p, stbi_load := rgbDecoder,
    postLoad := fun g => g, sh := demoShaders, names := demoNames, scene := demoScene,
    frames := [closingFrame] }

/-- The window `w` with the escape key released and every other key state
kept. -/
def releaseEscape (w : Window) : Window :=
  { w with keyDown := fun k => if k = GLFW_KEY_ESCAPE then false else w.keyDown k }

/-- A window with the escape key down and every other key up. -/
def escWindow : Window :=
  { keyDown := fun k => decide (k = GLFW_KEY_ESCAPE), shouldClose := false,
    cursorMode := GLFW_CURSOR_DISABLED }

/-- A frame whose poll brings nothing. -/
def quietFrame : FrameIn :=
  { now := 1, poll := { keys := fun _ => false, events := [], closeRequested := false } }

/-! ## `renderQuad` (lines 1130-1224) -/

/-- The type `glm::vec2` over exact rationals. -/
structure vec2 where
  x : ℚ
  y : ℚ
deriving DecidableEq

/-- The type `glm::vec3` over exact rationals. -/
structure vec3 where
  x : ℚ
  y : ℚ
  z : ℚ
deriving DecidableEq

def vec2.sub (a b : vec2) : vec2 := ⟨a.x - b.x, a.y - b.y⟩

def vec3.sub (a b : vec3) : vec3 := ⟨a.x - b.x, a.y - b.y, a.z - b.z⟩

/-- The function `glm::normalize`: the vector divided by its length. The
square root is `Rat.sqrt`, which is exact when the squared length is the
square of a rational. -/
def normalize (v : vec3) : vec3 :=
  let len := Rat.sqrt (v.x * v.x + v.y * v.y + v.z * v.z)
  ⟨v.x / len, v.y / len, v.z / len⟩

/-- Tangent of a triangle as lines 1157-1160 and 1176-1179 compute it, before
`glm::normalize`. -/
def rawTangent (f : ℚ) (edge1 edge2 : vec3) (deltaUV1 deltaUV2 : vec2) : vec3 :=
  ⟨f * (deltaUV2.y * edge1.x - deltaUV1.y * edge2.x),
   f * (deltaUV2.y * edge1.y - deltaUV1.y * edge2.y),
   f * (deltaUV2.y * edge1.z - deltaUV1.y * edge2.z)⟩

/-- Bitangent of a triangle as lines 1162-1165 and 1182-1185 compute it, before
`glm::normalize`. -/
def rawBitangent (f : ℚ) (edge1 edge2 : vec3) (deltaUV1 deltaUV2 : vec2) : vec3 :=
  ⟨f * (-deltaUV2.x * edge1.x + deltaUV1.x * edge2.x),
   f * (-deltaUV2.x * edge1.y + deltaUV1.x * edge2.y),
   f * (-deltaUV2.x * edge1.z + deltaUV1.x * edge2.z)⟩

/-- One row of the array `quadVertices` of `renderQuad`: position, normal,
texture coordinates, tangent, bitangent. -/
def quadRow (pos nm : vec3) (uv : vec2) (tangent bitangent : vec3) : List ℚ :=
  [pos.x, pos.y, pos.z, nm.x, nm.y, nm.z, uv.x, uv.y,
   tangent.x, tangent.y, tangent.z, bitangent.x, bitangent.y, bitangent.z]

/-- The array `quadVertices` of `renderQuad` (lines 1138-1199). -/
def parallaxQuadVertices : List ℚ :=
  let pos1 : vec3 := ⟨-1, 1, 0⟩
  let pos2 : vec3 := ⟨-1, -1, 0⟩
  let pos3 : vec3 := ⟨1, -1, 0⟩
  let pos4 : vec3 := ⟨1, 1, 0⟩
  let uv1 : vec2 := ⟨0, 1⟩
  let uv2 : vec2 := ⟨0, 0⟩
  let uv3 : vec2 := ⟨1, 0⟩
  let uv4 : vec2 := ⟨1, 1⟩
  let nm : vec3 := ⟨0, 0, 1⟩
  let edge1 := pos2.sub pos1
  let edge2 := pos3.sub pos1
  let deltaUV1 := uv2.sub uv1
  let deltaUV2 := uv3.sub uv1
  let f := 1 / (deltaUV1.x * deltaUV2.y - deltaUV2.x * deltaUV1.y)
  let tangent1 := normalize (rawTangent f edge1 edge2 deltaUV1 deltaUV2)
  let bitangent1 := normalize (rawBitangent f edge1 edge2 deltaUV1 deltaUV2)
  let edge1 := pos3.sub pos1
  let edge2 := pos4.sub pos1
  let deltaUV1 := uv3.sub uv1
  let deltaUV2 := uv4.sub uv1
  let f := 1 / (deltaUV1.x * deltaUV2.y - deltaUV2.x * deltaUV1.y)
  let tangent2 := normalize (rawTangent f edge1 edge2 deltaUV1 deltaUV2)
  let bitangent2 := normalize (rawBitangent f edge1 edge2 deltaUV1 deltaUV2)
  quadRow pos1 nm uv1 tangent1 bitangent1 ++
  quadRow pos2 nm uv2 tangent1 bitangent1 ++
  quadRow pos3 nm uv3 tangent1 bitangent1 ++
  quadRow pos1 nm uv1 tangent2 bitangent2 ++
  quadRow pos3 nm uv3 tangent2 bitangent2 ++
  quadRow pos4 nm uv4 tangent2 bitangent2

/-- The function `renderQuad`. `names` are the vertex-array and buffer names
that `glGenVertexArrays` and `glGenBuffers` return if they are called. -/
def renderQuad (names : Nat × Nat) (s : State) : State :=
  let s :=
    if s.app.quadVAO = 0 then
      let app := { s.app with quadVAO := names.1, quadVBO := names.2 }
      let g := glBindVertexArray app.quadVAO s.gl
      let g := glBindBuffer GL_ARRAY_BUFFER app.quadVBO g
      let g := glBufferData GL_ARRAY_BUFFER parallaxQuadVertices g
      let g := glVertexAttribPointer 0 3 14 0 g
      let g := glVertexAttribPointer 1 3 14 3 g
      let g := glVertexAttribPointer 2 2 14 6 g
      let g := glVertexAttribPointer 3 3 14 8 g
      let g := glVertexAttribPointer 4 3 14 11 g
      { s with app := app, gl := g }
    else s
  let g := glBindVertexArray s.app.quadVAO s.gl
  let g := glDrawArrays GL_TRIANGLES 0 6 g
  let g := glBindVertexArray 0 g
  { s with gl := g }

/-- Names for the quad of `renderQuad` in the instances. -/
def demoQuadNames : Nat × Nat := (22, 23)

/-! ## The fragment shaders of the bloom post-process

The shader sources `blur.fs` and `bloom_final.fs` are loaded from
`resources/shaders` at run time; what they compute is taken from the
specification. -/

/-- One colour channel of a texture: the value at texel `(x, y)`. -/
abbrev Image := Nat → Nat → ℚ

/-- Contents of the textures, by texture name. -/
abbrev TexContents := Nat → Image

/-- The image has the value `c` at every texel of a `width` by `height` grid. -/
def Image.uniform (width height : Nat) (c : ℚ) (img : Image) : Prop :=
  ∀ x y, x < width → y < height → img x y = c

/-- Texel index for a coordinate under `GL_CLAMP_TO_EDGE` (lines 211-212 and
245-246): the coordinate limited to `0 .. n - 1`. -/
def clampIdx (n : Nat) (i : Int) : Nat := (max 0 (min i ((n : Int) - 1))).toNat

/-- A texture fetch with clamping at the edges. -/
def sampleClamped (width height : Nat) (img : Image) (x y : Int) : ℚ :=
  img (clampIdx width x) (clampIdx height y)

/-- Modelled from the spec: the constant weights of the separable blur kernel
of `blur.fs`, which is not among the sources. `center` weighs the texel itself
and `side` the texels at distance 1, 2, ...; the same weight is used on both
sides, which is the symmetry the specification asks for. -/
structure BlurKernel where
  center : ℚ
  side : List ℚ

/-- Modelled from the spec: the kernel is normalized, its weights over the
whole window add up to 1. -/
def BlurKernel.normalized (k : BlurKernel) : Prop := k.center + 2 * k.side.sum = 1

/-- The weighted sum `w_i * f i + w_(i+1) * f (i+1) + ...` over the weights
`ws`. -/
def sideSum (f : Nat → ℚ) : Nat → List ℚ → ℚ
  | _, [] => 0
  | i, w :: ws => w * f i + sideSum f (i + 1) ws

/-- Modelled from the spec: one full-screen draw of the blur shader `blur.fs`,
a 1-D convolution of the sampled texture with the kernel, along x when
`horizontal` is set and along y otherwise, with edge clamping. -/
def blurPass (k : BlurKernel) (width height : Nat) (horizontal : Bool) (img : Image) :
    Image :=
  fun x y =>
    k.center * sampleClamped width height img x y +
    sideSum (fun i =>
        if horizontal then
          sampleClamped width height img ((x : Int) + i) y
            + sampleClamped width height img ((x : Int) - i) y
        else
          sampleClamped width height img x ((y : Int) + i)
            + sampleClamped width height img x ((y : Int) - i))
      1 k.side

/-- A `bool` uniform of a shader as read from an integer upload: unset or 0 is
false. -/
def shaderBool (v : Option Int) : Bool :=
  match v with
  | some n => decide (n ≠ 0)
  | none => false

/-- Modelled from the spec: the effect of one blur draw on the texture
contents. The colour attachment 0 of the bound framebuffer receives the blur
pass of the texture on unit 0 (the sampler `image`, line 341), oriented by the
uniform `horizontal`; every other texture keeps its contents. -/
def applyBlurDraw (k : BlurKernel) (width height : Nat) (att : Nat → Nat → Nat)
    (pix : TexContents) (d : DrawCall) : TexContents :=
  fun t =>
    if t = d.writeTexture att then
      blurPass k width height (shaderBool (d.uniformI "horizontal")) (pix d.readSource)
    else pix t

/-- Texture contents after the blur stage with `n` iterations started in
state `s` with texture contents `pix`: the blur draws applied in issue
order. -/
def blurStageContents (k : BlurKernel) (width height : Nat) (h : Handles) (sh : Shaders)
    (names : Nat × Nat) (n : Nat) (s : State) (pix : TexContents) : TexContents :=
  (blurDraws h sh names n s).foldl (applyBlurDraw k width height s.gl.attachment) pix

/-- Modelled from the spec: the colour that `bloom_final.fs` writes for one
texel, `toneMap(sceneColor + (bloom ? blurredBrightness : 0), exposure)`. The
tone-mapping operator `toneMap` is a parameter. -/
def compositeShade (toneMap : ℚ → ℚ → ℚ) (bloom : Bool) (exposure : ℚ)
    (sceneColor blurredBrightness : ℚ) : ℚ :=
  toneMap (sceneColor + (if bloom then blurredBrightness else 0)) exposure

/-- Modelled from the spec: the image that the composite draw `d` writes, given
the texture contents. The sampler `scene` reads unit 0 and `bloomBlur` unit 1
(lines 343-344); `bloom` and `exposure` are the uniforms at the draw. -/
def compositeOutput (toneMap : ℚ → ℚ → ℚ) (pix : TexContents) (d : DrawCall) : Image :=
  fun x y =>
    compositeShade toneMap (shaderBool (d.uniformI "bloom"))
      ((d.uniformF "exposure").getD 0) (pix (d.tex2D 0) x y) (pix (d.tex2D 1) x y)

/-- A normalized kernel with binomial weights 1, 4, 6, 4, 1 over 16. -/
def demoKernel : BlurKernel := { center := 6 / 16, side := [4 / 16, 1 / 16] }

/-- Texture contents in which every texture is uniformly `1 / 2`. -/
def greyContents : TexContents := fun _ _ _ => 1 / 2

/-- Texture contents in which every texture is uniformly `1 / 2`, except the
ping-pong textures of the demo handles (names 7 and 8), which hold a
gradient. -/
def otherBlurContents : TexContents :=
  fun t x y => if t = 7 ∨ t = 8 then (x : ℚ) + y else 1 / 2

/-! ## The scene pass of the render loop (lines 500-923)

The scene pass is a straight sequence of calls on shader objects, model
objects and the OpenGL context. It is embedded as the list of these calls,
in the order of the source, and as their effect on the program state. -/

def GL_LESS : Nat := 0x0201
def GL_LEQUAL : Nat := 0x0203
def GL_BACK : Nat := 0x0405
def GL_CULL_FACE : Nat := 0x0B44
def GL_TEXTURE_CUBE_MAP : Nat := 0x8513
def GL_TEXTURE2 : Nat := 0x84C2
def GL_UNSIGNED_INT : Nat := 0x1405

/-- The five `Shader` variables of `main` used by the scene pass. -/
inductive ShaderName where
  | ourShader
  | skyboxShader
  | blendingShader
  | shader
  | ufoShader
deriving DecidableEq, Repr

/-- The seven `Model` variables of `main` (lines 351-369). -/
inductive ModelName where
  | ufoModel
  | stallModel
  | hutModel
  | wellModel
  | fenceModel
  | sheepModel
  | humanModel
deriving DecidableEq, Repr

/-- A `glm::vec3` argument of the scene pass: a literal, the camera position,
or the vector `glm::vec3(10 * cos(tx/2), 7.0f, 10 * sin(tz/2))` built at lines
513 and 582 from two readings `tx`, `tz` of `glfwGetTime()`. -/
inductive Vec3Arg where
  | lit (v : vec3)
  | cameraPosition
  | orbit (tx tz : ℚ)
deriving DecidableEq

/-- One step `model = glm::translate(model, v)`, `model = glm::rotate(model,
glm::radians(degrees), axis)` or `model = glm::scale(model, v)`. -/
inductive Xform where
  | translate (v : Vec3Arg)
  | rotate (degrees : ℚ) (axis : vec3)
  | scale (v : vec3)
deriving DecidableEq

/-- A `glm::mat4` argument of `setMat4`: the matrix `model` built from
`glm::mat4(1.0f)` by the listed steps in order, the projection matrix, the view
matrix of the camera, or the view matrix without its translation (line 810). -/
inductive Mat4Arg where
  | model (steps : List Xform)
  | projection
  | view
  | skyView
deriving DecidableEq

/-- A `float` argument of `setFloat`: a value, or `glm::cos(glm::radians(d))`. -/
inductive FloatArg where
  | lit (x : ℚ)
  | cosDegrees (d : ℚ)
deriving DecidableEq

/-- The calls of the scene pass. -/
inductive SceneCall where
  | glClearColor (r g b a : ℚ)
  | glClear
  | glBindFramebuffer (fbo : Nat)
  | use (sh : ShaderName)
  | setVec3 (sh : ShaderName) (name : String) (v : Vec3Arg)
  | setFloat (sh : ShaderName) (name : String) (v : FloatArg)
  | setInt (sh : ShaderName) (name : String) (v : Int)
  | setMat4 (sh : ShaderName) (name : String) (m : Mat4Arg)
  | draw (model : ModelName) (sh : ShaderName)
  | glDepthFunc (func : Nat)
  | glBindVertexArray (vao : Nat)
  | glActiveTexture (texture : Nat)
  | glBindTexture (target tex : Nat)
  | glDrawArrays (mode first count : Nat)
  | glEnable (cap : Nat)
  | glDisable (cap : Nat)
  | glCullFace (mode : Nat)
  | renderQuad
deriving DecidableEq

/-- One `Mesh` of a `Model` (`learnopengl/mesh.h`): its vertex array, the
number of its indices, and its textures as pairs of sampler uniform name and
texture name. -/
structure Mesh where
  VAO : Nat
  indices : Nat
  textures : List (String × Nat)

/-- What the scene pass refers to and `main` sets up before the loop: object
names, the shader objects, the meshes of the loaded models, the names that the
`glGen*` calls of `renderQuad` return, and the cosine of an angle in degrees. -/
structure SceneEnv where
  skyboxVAO : Nat
  transparentVAO : Nat
  cubemapTexture : Nat
  transparentTexture : Nat
  pDiffuseMap : Nat
  pNormalMap : Nat
  pHeightMap : Nat
  shaders : ShaderName → Shader
  meshes : ModelName → List Mesh
  quadNames : Nat × Nat
  cosDegrees : ℚ → ℚ

/-! ### Scene data (lines 166-171, 289-331, 374-475) -/

/-- The array `pointLightPositions` (lines 166-171). -/
def pointLightPositions : Fin 4 → vec3 :=
  ![⟨0.7, 0.2, 2⟩, ⟨2.3, 2, -4⟩, ⟨-4, 2, -12⟩, ⟨0, 0, -3⟩]

/-- The vector `vegetation` (lines 289-309). -/
def vegetation : List vec3 :=
  [⟨7, 2.5, 12.5⟩, ⟨5, 2.5, 12.4⟩, ⟨3, 2.5, 12.5⟩,
   ⟨0, 2.5, 12.4⟩, ⟨-3, 2.5, 12.5⟩, ⟨-6, 2.5, 12.4⟩,
   ⟨-9, 2.5, 12.5⟩, ⟨-12, 2.5, 12.4⟩, ⟨-14, 2.5, 12.5⟩,
   ⟨7, 2.5, -12.5⟩, ⟨5, 2.5, -12.4⟩, ⟨3, 2.5, -12.5⟩,
   ⟨0, 2.5, -12.4⟩, ⟨-3, 2.5, -12.5⟩, ⟨-6, 2.5, -12.4⟩,
   ⟨-9, 2.5, -12.5⟩, ⟨-12, 2.5, -12.4⟩, ⟨-14, 2.5, -12.5⟩]

/-- The vector `vegetationRotated` (lines 311-331). -/
def vegetationRotated : List vec3 :=
  [⟨12.5, 2.5, 15⟩, ⟨12.4, 2.5, 13⟩, ⟨12.5, 2.5, 10⟩,
   ⟨12.4, 2.5, 7⟩, ⟨12.5, 2.5, 4⟩, ⟨12.4, 2.5, 1⟩,
   ⟨12.5, 2.5, -2⟩, ⟨12.4, 2.5, -5⟩, ⟨12.5, 2.5, -8⟩,
   ⟨-12.5, 2.5, 15⟩, ⟨-12.4, 2.5, 13⟩, ⟨-12.5, 2.5, 10⟩,
   ⟨-12.4, 2.5, 7⟩, ⟨-12.5, 2.5, 4⟩, ⟨-12.4, 2.5, 1⟩,
   ⟨-12.5, 2.5, -2⟩, ⟨-12.4, 2.5, -5⟩, ⟨-12.5, 2.5, -8⟩]

/-- The vector `stalls` (lines 374-381). -/
def stalls : List vec3 :=
  [⟨10.5, 0, 11⟩, ⟨10.5, 0, 6⟩, ⟨10.5, 0, 1⟩,
   ⟨10.5, 0, -4⟩, ⟨10.5, 0, -9⟩]

/-- The vector `hutsRotated` (lines 383-394). -/
def hutsRotated : List vec3 :=
  [⟨-9.5, 0, -12⟩, ⟨-9.5, 0, -9.25⟩, ⟨-9.5, 0, -6.5⟩,
   ⟨-9.5, 0, -3.75⟩, ⟨-9.5, 0, -1⟩, ⟨-9.5, 0, 1.75⟩,
   ⟨-9.5, 0, 4.5⟩, ⟨-9.5, 0, 7.25⟩, ⟨-9.5, 0, 10⟩]

/-- The vector `huts` (lines 396-406). -/
def huts : List vec3 :=
  [⟨-4.5, 0, -10⟩, ⟨-4.5, 0, -7.25⟩, ⟨-4.5, 0, -4.5⟩,
   ⟨-4.5, 0, -1.75⟩, ⟨-4.5, 0, 3.75⟩, ⟨-4.5, 0, 6.5⟩,
   ⟨-4.5, 0, 9.25⟩, ⟨-4.5, 0, 12⟩]

/-- The vector `fences` (lines 408-420). -/
def fences : List vec3 :=
  [⟨1, 0, -8⟩, ⟨2.35, 0, -8⟩, ⟨3.7, 0, -8⟩,
   ⟨5.05, 0, -8⟩, ⟨6.4, 0, -8⟩, ⟨1, 0, 8.3⟩,
   ⟨2.35, 0, 8.3⟩, ⟨3.7, 0, 8.3⟩, ⟨5.05, 0, 8.3⟩,
   ⟨6.4, 0, 8.3⟩]

/-- The vector `fencesRotated` (lines 422-446). -/
def fencesRotated : List vec3 :=
  [⟨0.3, 0, -7.15⟩, ⟨0.3, 0, -5.8⟩, ⟨0.3, 0, -4.45⟩,
   ⟨0.3, 0, -3.1⟩, ⟨0.3, 0, -1.75⟩, ⟨0.3, 0, -0.4⟩,
   ⟨0.3, 0, 0.95⟩, ⟨0.3, 0, 2.3⟩, ⟨0.3, 0, 3.65⟩,
   ⟨0.3, 0, 5⟩, ⟨0.3, 0, 6.35⟩, ⟨0.3, 0, 7.7⟩,
   ⟨7.12, 0, -7.15⟩, ⟨7.12, 0, -5.8⟩, ⟨7.12, 0, -4.45⟩,
   ⟨7.12, 0, -3.1⟩, ⟨7.12, 0, -1.75⟩, ⟨7.12, 0, 2.3⟩,
   ⟨7.12, 0, 3.65⟩, ⟨7.12, 0, 5⟩, ⟨7.12, 0, 6.35⟩,
   ⟨7.12, 0, 7.7⟩]

/-- The vector `sheepsInside` (lines 448-456). -/
def sheepsInside : List vec3 :=
  [⟨10, 0, 8.7⟩, ⟨11, 0, 9.5⟩, ⟨11, 0, -5.5⟩,
   ⟨10, 0, -6.2⟩, ⟨11, 0, -10.5⟩, ⟨10, 0, -11.2⟩]

/-- The vector `sheepsOutside` (lines 458-475). -/
def sheepsOutside : List vec3 :=
  [⟨2, 0, 6⟩, ⟨3, 0, 7⟩, ⟨3.5, 0, 5.5⟩,
   ⟨5.5, 0, 7.5⟩, ⟨6.5, 0, 6⟩, ⟨3.5, 0, 4⟩,
   ⟨4.5, 0, 3⟩, ⟨2, 0, 4⟩, ⟨5.5, 0, -2⟩,
   ⟨1, 0, -5⟩, ⟨2, 0, -4⟩, ⟨2.5, 0, -5.5⟩,
   ⟨4.5, 0, -3.5⟩, ⟨5.5, 0, -5⟩, ⟨5.5, 0, -7⟩]

/-! ### The calls of the scene pass, block by block

`clock k` is the value of the `k`-th call of `glfwGetTime()` in the frame,
counted from 0: reading 0 is line 485, readings 1 and 2 are the two calls of
line 513 and readings 3 and 4 the two calls of line 582. Which of the two
calls of a line is evaluated first is left open by C++: reading 1 (3) is the
one under `cos`, reading 2 (4) the one under `sin`. -/

/-- Lines 500-506: clear the default framebuffer, bind and clear the HDR framebuffer. -/
def clearCalls (h : Handles) : List SceneCall :=
  [.glClearColor 0.5 0.5 0.5 1,
   .glClear,
   .glBindFramebuffer h.hdrFBO,
   .glClear]

/-- Lines 508-522: the spotlight carried by the UFO. -/
def ufoLightCalls (clock : Nat → ℚ) : List SceneCall :=
  [.use .ufoShader,
   .setVec3 .ufoShader "viewPosition" .cameraPosition,
   .setFloat .ufoShader "material.shininess" (.lit 16),
   .setVec3 .ufoShader "spotLight.position" (.orbit (clock 1) (clock 2)),
   .setVec3 .ufoShader "spotLight.direction" (.lit ⟨0, -1, 0⟩),
   .setVec3 .ufoShader "spotLight.ambient" (.lit ⟨0, 0, 0⟩),
   .setVec3 .ufoShader "spotLight.diffuse" (.lit ⟨0.1, 0.1, 0.1⟩),
   .setVec3 .ufoShader "spotLight.specular" (.lit ⟨0.1, 0.1, 0.1⟩),
   .setFloat .ufoShader "spotLight.constant" (.lit 1),
   .setFloat .ufoShader "spotLight.linear" (.lit 1),
   .setFloat .ufoShader "spotLight.quadratic" (.lit 1),
   .setFloat .ufoShader "spotLight.cutOff" (.cosDegrees 12.5),
   .setFloat .ufoShader "spotLight.outerCutOff" (.cosDegrees 15)]

/-- Lines 525-566: camera position, shading mode and lights of `ourShader`. -/
def ourLightCalls (a : Globals) : List SceneCall :=
  [.use .ourShader,
   .setVec3 .ourShader "viewPos" .cameraPosition,
   .setFloat .ourShader "material.shininess" (.lit 16),
   .setInt .ourShader "blinnPhong" (boolToInt a.blinnPhong),
   .setVec3 .ourShader "dirLight.direction" (.lit ⟨-0.2, -1, -0.3⟩),
   .setVec3 .ourShader "dirLight.ambient" (.lit ⟨0.05, 0.05, 0.05⟩),
   .setVec3 .ourShader "dirLight.diffuse" (.lit ⟨0.1, 0.1, 0.1⟩),
   .setVec3 .ourShader "dirLight.specular" (.lit ⟨0.1, 0.1, 0.1⟩),
   .setVec3 .ourShader "pointLights[0].position" (.lit (pointLightPositions 0)),
   .setVec3 .ourShader "pointLights[0].ambient" (.lit ⟨0.05, 0.05, 0.05⟩),
   .setVec3 .ourShader "pointLights[0].diffuse" (.lit ⟨0.1, 0.1, 0.1⟩),
   .setVec3 .ourShader "pointLights[0].specular" (.lit ⟨0.1, 0.1, 0.1⟩),
   .setFloat .ourShader "pointLights[0].constant" (.lit 1),
   .setFloat .ourShader "pointLights[0].linear" (.lit 0.09),
   .setFloat .ourShader "pointLights[0].quadratic" (.lit 0.032),
   .setVec3 .ourShader "pointLights[1].position" (.lit (pointLightPositions 1)),
   .setVec3 .ourShader "pointLights[1].ambient" (.lit ⟨0.05, 0.05, 0.05⟩),
   .setVec3 .ourShader "pointLights[1].diffuse" (.lit ⟨0.1, 0.1, 0.1⟩),
   .setVec3 .ourShader "pointLights[1].specular" (.lit ⟨0.1, 0.1, 0.1⟩),
   .setFloat .ourShader "pointLights[1].constant" (.lit 1),
   .setFloat .ourShader "pointLights[1].linear" (.lit 0.09),
   .setFloat .ourShader "pointLights[1].quadratic" (.lit 0.032),
   .setVec3 .ourShader "pointLights[2].position" (.lit (pointLightPositions 2)),
   .setVec3 .ourShader "pointLights[2].ambient" (.lit ⟨0.05, 0.05, 0.05⟩),
   .setVec3 .ourShader "pointLights[2].diffuse" (.lit ⟨0.1, 0.1, 0.1⟩),
   .setVec3 .ourShader "pointLights[2].specular" (.lit ⟨0.1, 0.1, 0.1⟩),
   .setFloat .ourShader "pointLights[2].constant" (.lit 1),
   .setFloat .ourShader "pointLights[2].linear" (.lit 0.09),
   .setFloat .ourShader "pointLights[2].quadratic" (.lit 0.032),
   .setVec3 .ourShader "pointLights[3].position" (.lit (pointLightPositions 3)),
   .setVec3 .ourShader "pointLights[3].ambient" (.lit ⟨0.05, 0.05, 0.05⟩),
   .setVec3 .ourShader "pointLights[3].diffuse" (.lit ⟨0.1, 0.1, 0.1⟩),
   .setVec3 .ourShader "pointLights[3].specular" (.lit ⟨0.1, 0.1, 0.1⟩),
   .setFloat .ourShader "pointLights[3].constant" (.lit 1),
   .setFloat .ourShader "pointLights[3].linear" (.lit 0.09),
   .setFloat .ourShader "pointLights[3].quadratic" (.lit 0.032)]

/-- Lines 569-576: projection and view matrices. -/
def cameraCalls : List SceneCall :=
  [.setMat4 .ourShader "projection" .projection,
   .setMat4 .ourShader "view" .view,
   .setMat4 .ufoShader "projection" .projection,
   .setMat4 .ufoShader "view" .view]

/-- Lines 578-585: the UFO, translated to its orbit position and scaled. -/
def ufoCalls (clock : Nat → ℚ) : List SceneCall :=
  [.setMat4 .ufoShader "model"
     (.model [.translate (.orbit (clock 3) (clock 4)), .scale ⟨0.05, 0.05, 0.05⟩]),
   .draw .ufoModel .ufoShader]

/-- Lines 587-595: the stalls. -/
def stallCalls : List SceneCall :=
  stalls.flatMap fun v =>
      [.setMat4 .ourShader "model" (.model [.translate (.lit v), .scale ⟨0.1, 0.1, 0.1⟩]),
       .draw .stallModel .ourShader]

/-- Lines 597-606: the rotated huts. -/
def hutRotatedCalls : List SceneCall :=
  hutsRotated.flatMap fun v =>
      [.setMat4 .ourShader "model"
        (.model [.translate (.lit v), .rotate 180 ⟨0, 1, 0⟩, .scale ⟨0.005, 0.005, 0.005⟩]),
       .draw .hutModel .ourShader]

/-- Lines 608-614: the huts. -/
def hutCalls : List SceneCall :=
  huts.flatMap fun v =>
      [.setMat4 .ourShader "model" (.model [.translate (.lit v), .scale ⟨0.005, 0.005, 0.005⟩]),
       .draw .hutModel .ourShader]

/-- Lines 616-727: the thirteen humans. -/
def humanCalls : List SceneCall :=
  [.setMat4 .ourShader "model"
    (.model [.translate (.lit ⟨1, 0, 0⟩), .rotate (-90) ⟨1, 0, 0⟩, .scale ⟨0.009, 0.009, 0.009⟩]),
   .draw .humanModel .ourShader,
   .setMat4 .ourShader "model"
     (.model [.translate (.lit ⟨-6, 0, 8⟩), .rotate 90 ⟨1, 0, 0⟩, .rotate 180 ⟨0, 1, 0⟩,
             .scale ⟨0.009, 0.009, 0.009⟩]),
   .draw .humanModel .ourShader,
   .setMat4 .ourShader "model"
     (.model [.translate (.lit ⟨-8, 0, 8⟩), .rotate 90 ⟨1, 0, 0⟩, .rotate 180 ⟨0, 1, 0⟩,
             .rotate (-45) ⟨0, 0, 1⟩, .scale ⟨0.009, 0.009, 0.009⟩]),
   .draw .humanModel .ourShader,
   .setMat4 .ourShader "model"
     (.model [.translate (.lit ⟨-8, 0, 6.5⟩), .rotate 90 ⟨1, 0, 0⟩, .rotate 180 ⟨0, 1, 0⟩,
             .rotate 180 ⟨0, 0, 1⟩, .scale ⟨0.009, 0.009, 0.009⟩]),
   .draw .humanModel .ourShader,
   .setMat4 .ourShader "model"
     (.model [.translate (.lit ⟨-6, 0, 6.5⟩), .rotate 90 ⟨1, 0, 0⟩, .rotate 180 ⟨0, 1, 0⟩,
             .rotate 135 ⟨0, 0, 1⟩, .scale ⟨0.009, 0.009, 0.009⟩]),
   .draw .humanModel .ourShader,
   .setMat4 .ourShader "model"
     (.model [.translate (.lit ⟨-6, 0, -6.5⟩), .rotate 90 ⟨1, 0, 0⟩, .rotate 180 ⟨0, 1, 0⟩,
             .scale ⟨0.009, 0.009, 0.009⟩]),
   .draw .humanModel .ourShader,
   .setMat4 .ourShader "model"
     (.model [.translate (.lit ⟨-8, 0, -6.5⟩), .rotate 90 ⟨1, 0, 0⟩, .rotate 180 ⟨0, 1, 0⟩,
             .rotate (-45) ⟨0, 0, 1⟩, .scale ⟨0.009, 0.009, 0.009⟩]),
   .draw .humanModel .ourShader,
   .setMat4 .ourShader "model"
     (.model [.translate (.lit ⟨-8, 0, -8⟩), .rotate 90 ⟨1, 0, 0⟩, .rotate 180 ⟨0, 1, 0⟩,
             .rotate 180 ⟨0, 0, 1⟩, .scale ⟨0.009, 0.009, 0.009⟩]),
   .draw .humanModel .ourShader,
   .setMat4 .ourShader "model"
     (.model [.translate (.lit ⟨-6, 0, -8⟩), .rotate 90 ⟨1, 0, 0⟩, .rotate 180 ⟨0, 1, 0⟩,
             .rotate 135 ⟨0, 0, 1⟩, .scale ⟨0.009, 0.009, 0.009⟩]),
   .draw .humanModel .ourShader,
   .setMat4 .ourShader "model"
     (.model [.translate (.lit ⟨-6, 0, 1.5⟩), .rotate 90 ⟨1, 0, 0⟩, .rotate 180 ⟨0, 1, 0⟩,
             .scale ⟨0.009, 0.009, 0.009⟩]),
   .draw .humanModel .ourShader,
   .setMat4 .ourShader "model"
     (.model [.translate (.lit ⟨-8, 0, 1.5⟩), .rotate 90 ⟨1, 0, 0⟩, .rotate 180 ⟨0, 1, 0⟩,
             .rotate (-45) ⟨0, 0, 1⟩, .scale ⟨0.009, 0.009, 0.009⟩]),
   .draw .humanModel .ourShader,
   .setMat4 .ourShader "model"
     (.model [.translate (.lit ⟨-8, 0, -1.5⟩), .rotate 90 ⟨1, 0, 0⟩, .rotate 180 ⟨0, 1, 0⟩,
             .rotate 180 ⟨0, 0, 1⟩, .scale ⟨0.009, 0.009, 0.009⟩]),
   .draw .humanModel .ourShader,
   .setMat4 .ourShader "model"
     (.model [.translate (.lit ⟨-6, 0, -1.5⟩), .rotate 90 ⟨1, 0, 0⟩, .rotate 180 ⟨0, 1, 0⟩,
             .rotate 135 ⟨0, 0, 1⟩, .scale ⟨0.009, 0.009, 0.009⟩]),
   .draw .humanModel .ourShader]

/-- Lines 729-734: the well. -/
def wellCalls : List SceneCall :=
  [.setMat4 .ourShader "model" (.model [.translate (.lit ⟨4, 0, 0⟩), .scale ⟨0.15, 0.15, 0.15⟩]),
   .draw .wellModel .ourShader]

/-- Lines 736-744: the fences. -/
def fenceCalls : List SceneCall :=
  fences.flatMap fun v =>
      [.setMat4 .ourShader "model" (.model [.translate (.lit v), .scale ⟨0.8, 0.8, 0.8⟩]),
       .draw .fenceModel .ourShader]

/-- Lines 746-753: the rotated fences. -/
def fenceRotatedCalls : List SceneCall :=
  fencesRotated.flatMap fun v =>
      [.setMat4 .ourShader "model"
        (.model [.translate (.lit v), .rotate 90 ⟨0, 1, 0⟩, .scale ⟨0.8, 0.8, 0.8⟩]),
       .draw .fenceModel .ourShader]

/-- Lines 755-786: the two fences of the gate, open or closed. -/
def gateCalls (gateClosed : Bool) : List SceneCall :=
  if !gateClosed then
    [.setMat4 .ourShader "model"
      (.model [.translate (.lit ⟨6.55, 0, 2.05⟩), .rotate 45 ⟨0, 1, 0⟩, .scale ⟨0.8, 0.8, 0.8⟩]),
     .draw .fenceModel .ourShader,
     .setMat4 .ourShader "model"
       (.model [.translate (.lit ⟨6.65, 0, -1.7⟩), .rotate (-45) ⟨0, 1, 0⟩,
               .scale ⟨0.8, 0.8, 0.8⟩]),
     .draw .fenceModel .ourShader]
  else
    [.setMat4 .ourShader "model"
      (.model [.translate (.lit ⟨7.12, 0, 0.95⟩), .rotate 90 ⟨0, 1, 0⟩, .scale ⟨0.8, 0.8, 0.8⟩]),
     .draw .fenceModel .ourShader,
     .setMat4 .ourShader "model"
       (.model [.translate (.lit ⟨7.12, 0, -0.4⟩), .rotate 90 ⟨0, 1, 0⟩, .scale ⟨0.8, 0.8, 0.8⟩]),
     .draw .fenceModel .ourShader]

/-- Lines 787-795: the sheep inside the fence. -/
def sheepInsideCalls : List SceneCall :=
  sheepsInside.flatMap fun v =>
      [.setMat4 .ourShader "model"
        (.model [.translate (.lit v), .rotate (-90) ⟨0, 1, 0⟩, .scale ⟨0.6, 0.6, 0.6⟩]),
       .draw .sheepModel .ourShader]

/-- Lines 797-804: the sheep outside, sheep `i` turned by `15 * (-1)^i * i` degrees. -/
def sheepOutsideCalls : List SceneCall :=
  sheepsOutside.enum.flatMap fun iv =>
      [.setMat4 .ourShader "model"
        (.model [.translate (.lit iv.2), .rotate (15 * (-1) ^ iv.1 * iv.1) ⟨0, 1, 0⟩,
                .scale ⟨0.6, 0.6, 0.6⟩]),
       .draw .sheepModel .ourShader]

/-- Lines 806-820: the skybox. -/
def skyboxCalls (env : SceneEnv) : List SceneCall :=
  [.glDepthFunc GL_LEQUAL,
   .use .skyboxShader,
   .setMat4 .skyboxShader "view" .skyView,
   .setMat4 .skyboxShader "projection" .projection,
   .glBindVertexArray env.skyboxVAO,
   .glActiveTexture GL_TEXTURE0,
   .glBindTexture GL_TEXTURE_CUBE_MAP env.cubemapTexture,
   .glDrawArrays GL_TRIANGLES 0 36,
   .glBindVertexArray 0,
   .glDepthFunc GL_LESS]

/-- Lines 822-832: shader, matrices, vertex array and texture of the vegetation. -/
def blendingCalls (env : SceneEnv) : List SceneCall :=
  [.use .blendingShader,
   .setMat4 .blendingShader "projection" .projection,
   .setMat4 .blendingShader "view" .view,
   .glBindVertexArray env.transparentVAO,
   .glBindTexture GL_TEXTURE_2D env.transparentTexture]

/-- Lines 833-840: the vegetation quads. -/
def vegetationCalls : List SceneCall :=
  vegetation.flatMap fun v =>
      [.setMat4 .blendingShader "model" (.model [.translate (.lit v), .scale ⟨7, 7, 7⟩]),
       .glDrawArrays GL_TRIANGLES 0 6]

/-- Lines 841-849: the rotated vegetation quads. -/
def vegetationRotatedCalls : List SceneCall :=
  vegetationRotated.flatMap fun v =>
      [.setMat4 .blendingShader "model"
        (.model [.translate (.lit v), .rotate 90 ⟨0, 1, 0⟩, .scale ⟨7, 7, 7⟩]),
       .glDrawArrays GL_TRIANGLES 0 6]

/-- Lines 853-923: the parallax-mapped ground quad. -/
def parallaxCalls (env : SceneEnv) (a : Globals) : List SceneCall :=
  [.use .shader,
   .setMat4 .shader "projection" .projection,
   .setMat4 .shader "view" .view,
   .setVec3 .shader "lightDir" (.lit ⟨-0.2, -1, -0.3⟩),
   .setVec3 .shader "dirLight.direction" (.lit ⟨-0.2, -1, -0.3⟩),
   .setVec3 .shader "dirLight.ambient" (.lit ⟨0.05, 0.05, 0.05⟩),
   .setVec3 .shader "dirLight.diffuse" (.lit ⟨0.1, 0.1, 0.1⟩),
   .setVec3 .shader "dirLight.specular" (.lit ⟨0.1, 0.1, 0.1⟩),
   .setVec3 .shader "lightPos[0]" (.lit (pointLightPositions 0)),
   .setVec3 .shader "pointLight[0].position" (.lit (pointLightPositions 0)),
   .setVec3 .shader "pointLight[0].ambient" (.lit ⟨0.05, 0.05, 0.05⟩),
   .setVec3 .shader "pointLight[0].diffuse" (.lit ⟨0.1, 0.1, 0.1⟩),
   .setVec3 .shader "pointLight[0].specular" (.lit ⟨0.1, 0.1, 0.1⟩),
   .setFloat .shader "pointLight[0].constant" (.lit 1),
   .setFloat .shader "pointLight[0].linear" (.lit 0.09),
   .setFloat .shader "pointLight[0].quadratic" (.lit 0.032),
   .setVec3 .shader "lightPos[1]" (.lit (pointLightPositions 1)),
   .setVec3 .shader "pointLight[1].position" (.lit (pointLightPositions 1)),
   .setVec3 .shader "pointLight[1].ambient" (.lit ⟨0.05, 0.05, 0.05⟩),
   .setVec3 .shader "pointLight[1].diffuse" (.lit ⟨0.1, 0.1, 0.1⟩),
   .setVec3 .shader "pointLight[1].specular" (.lit ⟨0.1, 0.1, 0.1⟩),
   .setFloat .shader "pointLight[1].constant" (.lit 1),
   .setFloat .shader "pointLight[1].linear" (.lit 0.09),
   .setFloat .shader "pointLight[1].quadratic" (.lit 0.032),
   .setVec3 .shader "lightPos[2]" (.lit (pointLightPositions 2)),
   .setVec3 .shader "pointLight[2].position" (.lit (pointLightPositions 2)),
   .setVec3 .shader "pointLight[2].ambient" (.lit ⟨0.05, 0.05, 0.05⟩),
   .setVec3 .shader "pointLight[2].diffuse" (.lit ⟨0.1, 0.1, 0.1⟩),
   .setVec3 .shader "pointLight[2].specular" (.lit ⟨0.1, 0.1, 0.1⟩),
   .setFloat .shader "pointLight[2].constant" (.lit 1),
   .setFloat .shader "pointLight[2].linear" (.lit 0.09),
   .setFloat .shader "pointLight[2].quadratic" (.lit 0.032),
   .setVec3 .shader "lightPos[3]" (.lit (pointLightPositions 3)),
   .setVec3 .shader "pointLight[3].position" (.lit (pointLightPositions 3)),
   .setVec3 .shader "pointLight[3].ambient" (.lit ⟨0.05, 0.05, 0.05⟩),
   .setVec3 .shader "pointLight[3].diffuse" (.lit ⟨0.1, 0.1, 0.1⟩),
   .setVec3 .shader "pointLight[3].specular" (.lit ⟨0.1, 0.1, 0.1⟩),
   .setFloat .shader "pointLight[3].constant" (.lit 1),
   .setFloat .shader "pointLight[3].linear" (.lit 0.09),
   .setFloat .shader "pointLight[3].quadratic" (.lit 0.032),
   .setMat4 .shader "model"
     (.model [.translate (.lit ⟨0, 0, 0⟩), .rotate (-90) ⟨1, 0, 0⟩, .scale ⟨12.5, 12.5, 12.5⟩]),
   .setVec3 .shader "viewPos" .cameraPosition,
   .setInt .shader "blinnPhong" (boolToInt a.blinnPhong),
   .setFloat .shader "material.shininess" (.lit 1000),
   .setFloat .shader "heightScale" (.lit a.heightScale),
   .glActiveTexture GL_TEXTURE0,
   .glBindTexture GL_TEXTURE_2D env.pDiffuseMap,
   .glActiveTexture GL_TEXTURE1,
   .glBindTexture GL_TEXTURE_2D env.pNormalMap,
   .glActiveTexture GL_TEXTURE2,
   .glBindTexture GL_TEXTURE_2D env.pHeightMap,
   .glEnable GL_CULL_FACE,
   .glCullFace GL_BACK,
   .renderQuad,
   .glDisable GL_CULL_FACE]


/-- The calls of the scene pass (lines 500-923) in a frame in which the
globals are `a` after `processInput` and the clock readings are `clock`. -/
def sceneCalls (h : Handles) (env : SceneEnv) (a : Globals) (clock : Nat → ℚ) :
    List SceneCall :=
  clearCalls h ++ ufoLightCalls clock ++ ourLightCalls a ++ cameraCalls ++
  ufoCalls clock ++ stallCalls ++ hutRotatedCalls ++ hutCalls ++ humanCalls ++
  wellCalls ++ fenceCalls ++ fenceRotatedCalls ++ gateCalls a.gateClosed ++
  sheepInsideCalls ++ sheepOutsideCalls ++ skyboxCalls env ++ blendingCalls env ++
  vegetationCalls ++ vegetationRotatedCalls ++ parallaxCalls env a

/-! ### Effect of the calls

The classes `Model` and `Mesh` come from the headers `learnopengl/model.h`
and `learnopengl/mesh.h`. `Draw` is embedded in the form these headers have in
LearnOpenGL; the meshes of a model are read from its file and are an input.
Uploads of `vec3` and `mat4` uniforms, the clear colour, the depth function
and face culling change no part of the context that is modelled. -/

/-- The call `glDrawElements(mode, count, GL_UNSIGNED_INT, 0)`: logged like a
`glDrawArrays` that starts at the first index. -/
def glDrawElements (mode count : Nat) (g : GLState) : GLState :=
  { g with draws := g.draws ++
      [{ mode := mode, first := 0, count := count,
         framebuffer := g.framebuffer, program := g.program,
         vertexArray := g.vertexArray,
         tex2D := fun u => g.texBinding u GL_TEXTURE_2D,
         uniformI := g.uniformI g.program,
         uniformF := g.uniformF g.program }] }

/-- The texture loop of `Mesh::Draw`: texture `i` is bound on unit `i` and its
sampler uniform is set to `i`. -/
def Mesh.bindTextures (sh : Shader) : List (Nat × String × Nat) → GLState → GLState
  | [], g => g
  | (i, name, id) :: rest, g =>
    let g := glActiveTexture (GL_TEXTURE0 + i) g
    let g := glUniform1i sh.ID name i g
    let g := glBindTexture GL_TEXTURE_2D id g
    Mesh.bindTextures sh rest g

/-- The method `Mesh::Draw(shader)`. -/
def Mesh.Draw (m : Mesh) (sh : Shader) (g : GLState) : GLState :=
  let g := Mesh.bindTextures sh m.textures.enum g
  let g := glBindVertexArray m.VAO g
  let g := glDrawElements GL_TRIANGLES m.indices g
  let g := glBindVertexArray 0 g
  glActiveTexture GL_TEXTURE0 g

/-- The method `Model::Draw(shader)`: every mesh of the model in turn. -/
def Model.Draw (meshes : List Mesh) (sh : Shader) (g : GLState) : GLState :=
  meshes.foldl (fun g m => m.Draw sh g) g

/-- Value of a `float` argument. -/
def FloatArg.eval (env : SceneEnv) : FloatArg → ℚ
  | .lit x => x
  | .cosDegrees d => env.cosDegrees d

/-- Effect of one call of the scene pass on the program state. -/
def runCall (env : SceneEnv) (s : State) : SceneCall → State
  | .glClearColor _ _ _ _ => s
  | .glClear => { s with gl := glClear s.gl }
  | .glBindFramebuffer fbo => { s with gl := glBindFramebuffer GL_FRAMEBUFFER fbo s.gl }
  | .use sh => { s with gl := (env.shaders sh).use s.gl }
  | .setVec3 _ _ _ => s
  | .setFloat sh name v => { s with gl := (env.shaders sh).setFloat name (v.eval env) s.gl }
  | .setInt sh name v => { s with gl := (env.shaders sh).setInt name v s.gl }
  | .setMat4 _ _ _ => s
  | .draw model sh => { s with gl := Model.Draw (env.meshes model) (env.shaders sh) s.gl }
  | .glDepthFunc _ => s
  | .glBindVertexArray vao => { s with gl := glBindVertexArray vao s.gl }
  | .glActiveTexture texture => { s with gl := glActiveTexture texture s.gl }
  | .glBindTexture target tex => { s with gl := glBindTexture target tex s.gl }
  | .glDrawArrays mode first count => { s with gl := glDrawArrays mode first count s.gl }
  | .glEnable _ => s
  | .glDisable _ => s
  | .glCullFace _ => s
  | .renderQuad => renderQuad env.quadNames s

/-- Effect of a sequence of calls, in order. -/
def runScene (env : SceneEnv) (calls : List SceneCall) (s : State) : State :=
  calls.foldl (runCall env) s

/-- The scene pass of `main` as the scene parameter of a frame. `later now k`
is reading `k` (1 to 4) of the clock in the frame whose reading 0 is `now`. -/
def scenePass (h : Handles) (env : SceneEnv) (later : ℚ → Nat → ℚ) : ScenePass where
  run := fun a now g =>
    (runScene env (sceneCalls h env a (later now)) { app := a, gl := g, out := [] }).gl
  quad := fun a =>
    let t := renderQuad env.quadNames { app := a, gl := GLState.init, out := [] }
    (t.app.quadVAO, t.app.quadVBO)

/-! ### Observations on the scene pass -/

/-- The matrix that a call uploads as the uniform `model`, if it does. -/
def SceneCall.modelMatrix : SceneCall → Option Mat4Arg
  | .setMat4 _ name m => if name = "model" then some m else none
  | _ => none

/-- The sequence of model matrices issued by a sequence of calls. -/
def sceneModels (calls : List SceneCall) : List Mat4Arg :=
  calls.filterMap SceneCall.modelMatrix

/-- The model a call draws, if it is a `Model::Draw`. -/
def SceneCall.drawnModel : SceneCall → Option ModelName
  | .draw model _ => some model
  | _ => none

/-- Whether a call is the call of `renderQuad`. -/
def SceneCall.isRenderQuad : SceneCall → Bool
  | .renderQuad => true
  | _ => false

/-- The mesh a draw call draws: its vertex array and the range of vertices
or indices, with the primitive mode. -/
structure MeshKey where
  vertexArray : Nat
  mode : Nat
  first : Nat
  count : Nat
deriving DecidableEq, Repr

def DrawCall.mesh (d : DrawCall) : MeshKey :=
  { vertexArray := d.vertexArray, mode := d.mode, first := d.first, count := d.count }

/-- The draw calls a frame issues, in order: what `renderFrame` appends to
the draw log. -/
def frameDraws (h : Handles) (sh : Shaders) (names : Nat × Nat) (scene : ScenePass)
    (now : ℚ) (w : Window) (s : State) : List DrawCall :=
  (renderFrame h sh names scene now w s).2.gl.draws.drop s.gl.draws.length

/-- The draw calls the scene pass of a frame issues. -/
def sceneDraws (scene : ScenePass) (now : ℚ) (w : Window) (s : State) : List DrawCall :=
  (frameScene scene now w s).2.gl.draws.drop s.gl.draws.length

/-! ### Draw steps: the calls that bear on which meshes are drawn -/

/-- A call of the scene pass reduced to what decides the meshes drawn: a
vertex-array binding, a `glDrawArrays`, a `Model::Draw`, or `renderQuad`. -/
inductive DrawStep where
  | bind (vao : Nat)
  | arrays (mode first count : Nat)
  | model (m : ModelName)
  | quad
deriving DecidableEq

def SceneCall.drawStep : SceneCall → Option DrawStep
  | .glBindVertexArray vao => some (.bind vao)
  | .glDrawArrays mode first count => some (.arrays mode first count)
  | .draw model _ => some (.model model)
  | .renderQuad => some .quad
  | _ => none

/-- The part of the program state that decides which meshes are drawn, with
the meshes drawn so far. -/
structure MeshView where
  vertexArray : Nat
  quadVAO : Nat
  drawn : List MeshKey

def State.meshView (s : State) : MeshView :=
  { vertexArray := s.gl.vertexArray, quadVAO := s.app.quadVAO,
    drawn := s.gl.draws.map DrawCall.mesh }

/-- The mesh that `Mesh::Draw` draws. -/
def Mesh.key (m : Mesh) : MeshKey :=
  { vertexArray := m.VAO, mode := GL_TRIANGLES, first := 0, count := m.indices }

/-- The vertex array `renderQuad` draws when the cached name is `quadVAO`. -/
def quadArray (env : SceneEnv) (quadVAO : Nat) : Nat :=
  if quadVAO = 0 then env.quadNames.1 else quadVAO

/-- Effect of a draw step on the view. -/
def MeshView.step (env : SceneEnv) (v : MeshView) : DrawStep → MeshView
  | .bind vao => { v with vertexArray := vao }
  | .arrays mode first count =>
    { v with drawn := v.drawn ++
        [{ vertexArray := v.vertexArray, mode := mode, first := first, count := count }] }
  | .model m =>
    { v with vertexArray := if (env.meshes m).isEmpty then v.vertexArray else 0,
             drawn := v.drawn ++ (env.meshes m).map Mesh.key }
  | .quad =>
    { vertexArray := 0, quadVAO := quadArray env v.quadVAO,
      drawn := v.drawn ++
        [{ vertexArray := quadArray env v.quadVAO, mode := GL_TRIANGLES, first := 0, count := 6 }] }

/-- Every `glDrawArrays` of the steps comes after a vertex-array binding made
by the steps themselves, with no `Model::Draw` in between; `bound` tells
whether such a binding is in force at the start. -/
def bindsBeforeArrays : Bool → List DrawStep → Bool
  | _, [] => true
  | _, .bind _ :: rest => bindsBeforeArrays true rest
  | bound, .arrays _ _ _ :: rest => bound && bindsBeforeArrays bound rest
  | _, .model _ :: rest => bindsBeforeArrays false rest
  | _, .quad :: rest => bindsBeforeArrays true rest

/-- The vertex array the bloom quad is drawn from when the cached name is
`quadVAO1`. -/
def bloomArray (names : Nat × Nat) (quadVAO1 : Nat) : Nat :=
  if quadVAO1 = 0 then names.1 else quadVAO1

/-! ### A scene environment and two frames for the instances -/

/-- A scene environment with small models; the cosine is replaced by its
second-order approximation. -/
def demoSceneEnv : SceneEnv where
  skyboxVAO := 30
  transparentVAO := 31
  cubemapTexture := 40
  transparentTexture := 41
  pDiffuseMap := 42
  pNormalMap := 43
  pHeightMap := 44
  shaders := fun n =>
    match n with
    | .ourShader => ⟨13⟩
    | .skyboxShader => ⟨14⟩
    | .blendingShader => ⟨15⟩
    | .shader => ⟨16⟩
    | .ufoShader => ⟨17⟩
  meshes := fun m =>
    match m with
    | .ufoModel => [⟨50, 300, [("texture_diffuse1", 60)]⟩, ⟨51, 120, []⟩]
    | .stallModel => [⟨52, 90, [("texture_diffuse1", 61)]⟩]
    | .hutModel => [⟨53, 240, [("texture_diffuse1", 62), ("texture_specular1", 63)]⟩]
    | .wellModel => [⟨54, 180, []⟩]
    | .fenceModel => [⟨55, 36, [("texture_diffuse1", 64)]⟩]
    | .sheepModel => [⟨56, 600, [("texture_diffuse1", 65)]⟩]
    | .humanModel => [⟨57, 900, []⟩, ⟨58, 60, []⟩]
  quadNames := demoQuadNames
  cosDegrees := fun d => 1 - d * d / 6565

/-- Clock readings a microsecond apart. -/
def demoLater (now : ℚ) (k : Nat) : ℚ := now + k / 1000000

/-- A frame at time 0 with the gate open. -/
def openGateFrame : Globals × (Nat → ℚ) :=
  ({ Globals.init with gateClosed := false }, fun _ => 0)

/-- A frame at time 1 with the gate closed. -/
def closedGateFrame : Globals × (Nat → ℚ) :=
  ({ Globals.init with gateClosed := true }, fun _ => 1)

/-- The state `demoState` with every toggle flipped and other values of
`exposure` and `heightScale`. -/
def toggledState : State :=
  { demoState with
    app := { demoState.app with
      gateClosed := true, blinnPhong := false, bloom := true, cursorEnabled := true,
      exposure := 2, heightScale := 1 / 10 } }

/-! ## Reading vertices out of the context -/

/-- The components that vertex `i` reads through attribute `a` from the
contents `data` of the attribute's buffer. -/
def VertexAttrib.fetch (a : VertexAttrib) (data : List ℚ) (i : Nat) : List ℚ :=
  (data.drop (a.offset + i * a.stride)).take a.size

/-- What vertex `i` of the vertex array `vao` reads through the attribute
`index`; `none` when the attribute is not enabled. -/
def GLState.fetch (g : GLState) (vao index i : Nat) : Option (List ℚ) :=
  (g.attribs vao index).map fun a => a.fetch (g.bufferData a.buffer) i

/-! ## Key states for the instances of the input results -/

/-- Key states with only the Z key down. -/
def zKeys : Nat → Bool := fun k => decide (k = GLFW_KEY_Z)

/-- Key states with the Q and E keys down. -/
def qeKeys : Nat → Bool := fun k => decide (k = GLFW_KEY_Q) || decide (k = GLFW_KEY_E)

/-! ## The tangent computation of `renderQuad` (lines 1150-1185) -/

/-- The denominator of `f` at lines 1155 and 1174. -/
def uvDeterminant (deltaUV1 deltaUV2 : vec2) : ℚ :=
  deltaUV1.x * deltaUV2.y - deltaUV2.x * deltaUV1.y

/-- What `renderQuad` computes for one triangle: the denominator of `f`, the
tangent and the bitangent, both after `glm::normalize`. -/
structure TangentFrame where
  determinant : ℚ
  tangent : vec3
  bitangent : vec3

/-- Lines 1150-1165 and 1169-1185, for the triangle with the corners `pa`,
`pb`, `pc` and the texture coordinates `uva`, `uvb`, `uvc`. -/
def triangleFrame (pa pb pc : vec3) (uva uvb uvc : vec2) : TangentFrame :=
  let edge1 := pb.sub pa
  let edge2 := pc.sub pa
  let deltaUV1 := uvb.sub uva
  let deltaUV2 := uvc.sub uva
  let f := 1 / uvDeterminant deltaUV1 deltaUV2
  { determinant := uvDeterminant deltaUV1 deltaUV2,
    tangent := normalize (rawTangent f edge1 edge2 deltaUV1 deltaUV2),
    bitangent := normalize (rawBitangent f edge1 edge2 deltaUV1 deltaUV2) }

/-- Triangle 1 of `renderQuad`: `pos1`, `pos2`, `pos3`. -/
def quadTriangle1 : TangentFrame :=
  triangleFrame ⟨-1, 1, 0⟩ ⟨-1, -1, 0⟩ ⟨1, -1, 0⟩ ⟨0, 1⟩ ⟨0, 0⟩ ⟨1, 0⟩

/-- Triangle 2 of `renderQuad`: `pos1`, `pos3`, `pos4`. -/
def quadTriangle2 : TangentFrame :=
  triangleFrame ⟨-1, 1, 0⟩ ⟨1, -1, 0⟩ ⟨1, 1, 0⟩ ⟨0, 1⟩ ⟨1, 0⟩ ⟨1, 1⟩

/-- The normal `nm` of `renderQuad`. -/
def quadNormal : vec3 := ⟨0, 0, 1⟩

/-- The cross product of two vectors. -/
def vec3.cross (a b : vec3) : vec3 :=
  ⟨a.y * b.z - a.z * b.y, a.z * b.x - a.x * b.z, a.x * b.y - a.y * b.x⟩

/-- The dot product of two vectors. -/
def vec3.dot (a b : vec3) : ℚ := a.x * b.x + a.y * b.y + a.z * b.z

/-! ## Cube-map loading: `loadCubemap` (lines 1063-1091) -/

def GL_TEXTURE_CUBE_MAP_POSITIVE_X : Nat := 0x8515
def GL_TEXTURE_WRAP_R : Nat := 0x8072

/-- The call `glTexImage2D(target, 0, internalFormat, width, height, 0, format,
dataType, data)` with a face target of a cube map: the image is given to the
texture bound to `GL_TEXTURE_CUBE_MAP` on the active unit. The call is kept in
the log `faceUploads` with its target as passed; the six values from
`GL_TEXTURE_CUBE_MAP_POSITIVE_X` on are the faces, and what the driver does
with another value is not modelled. -/
def glTexImage2DFace (target internalFormat width height format dataType : Nat)
    (g : GLState) : GLState :=
  { g with faceUploads := g.faceUploads ++
      [{ target := target,
         texture := g.texBinding g.activeUnit GL_TEXTURE_CUBE_MAP,
         image := { internalFormat := internalFormat, width := width, height := height,
                    format := format, dataType := dataType } }] }

/-- The body of the loop of `loadCubemap` (lines 1072-1082) for face `i`.
`stbi_load i path` is what the call of `stbi_load` in iteration `i` returns
(`none` is the null pointer). -/
def loadCubemapFace (stbi_load : Nat → String → Option StbImage) (i : Nat) (face : String)
    (s : State) : State :=
  match stbi_load i face with
  | some data =>
    { s with
      gl := (glTexImage2DFace (GL_TEXTURE_CUBE_MAP_POSITIVE_X + i) GL_RGB data.width
        data.height GL_RGB GL_UNSIGNED_BYTE s.gl) }
  | none =>
    { s with out := s.out ++ ["Cubemap texture failed to load at path: " ++ face] }

/-- The loop `for (unsigned int i = 0; i < faces.size(); i++)` of line 1070,
entered with the counter at `i` and the faces from `i` on still to do. -/
def loadCubemapLoop (stbi_load : Nat → String → Option StbImage) :
    Nat → List String → State → State
  | _, [], s => s
  | i, face :: rest, s =>
    loadCubemapLoop stbi_load (i + 1) rest (loadCubemapFace stbi_load i face s)

/-- The function `loadCubemap` (lines 1063-1091). `textureID` is the name that
`glGenTextures` returns. The result is the returned handle and the state after
the call. -/
def loadCubemap (textureID : Nat) (stbi_load : Nat → String → Option StbImage)
    (faces : List String) (s : State) : Nat × State :=
  let g := glBindTexture GL_TEXTURE_CUBE_MAP textureID s.gl
  let s := loadCubemapLoop stbi_load 0 faces { s with gl := g }
  let g := glTexParameteri GL_TEXTURE_CUBE_MAP GL_TEXTURE_MIN_FILTER GL_LINEAR s.gl
  let g := glTexParameteri GL_TEXTURE_CUBE_MAP GL_TEXTURE_MAG_FILTER GL_LINEAR g
  let g := glTexParameteri GL_TEXTURE_CUBE_MAP GL_TEXTURE_WRAP_S GL_CLAMP_TO_EDGE g
  let g := glTexParameteri GL_TEXTURE_CUBE_MAP GL_TEXTURE_WRAP_T GL_CLAMP_TO_EDGE g
  let g := glTexParameteri GL_TEXTURE_CUBE_MAP GL_TEXTURE_WRAP_R GL_CLAMP_TO_EDGE g
  (textureID, { s with gl := g })

/-- The vector `skyboxSides` of `main` (lines 275-282), before
`FileSystem::getPath` is applied. -/
def skyboxSides : List String :=
  ["resources/textures/alps/right.tga", "resources/textures/alps/left.tga",
   "resources/textures/alps/up.tga", "resources/textures/alps/down.tga",
   "resources/textures/alps/back.tga", "resources/textures/alps/front.tga"]

/-- The upload that `loadCubemap` issues for face `i` when it decodes to `data`. -/
def faceUploadOf (textureID i : Nat) (data : StbImage) : FaceUpload :=
  { target := GL_TEXTURE_CUBE_MAP_POSITIVE_X + i, texture := textureID,
    image := { internalFormat := GL_RGB, width := data.width, height := data.height,
               format := GL_RGB, dataType := GL_UNSIGNED_BYTE } }

/-- The message that `loadCubemap` prints for a face that does not decode. -/
def faceMessage (face : String) : String :=
  "Cubemap texture failed to load at path: " ++ face

/-- A decoder that fails at every call. -/
def failingDecoderAt : Nat → String → Option StbImage := fun _ _ => none

/-- A decoder for the instances: the faces 1 and 4 fail, the others decode to
an 8 by 8 image with three channels. -/
def patchyDecoder : Nat → String → Option StbImage :=
  fun i _ => if i = 1 ∨ i = 4 then none else some { width := 8, height := 8, nrComponents := 3 }

/-! ## Channel counts and pixel formats -/

/-- The pixel format named for a channel count: `GL_RED` for 1, `GL_RGB` for
3, `GL_RGBA` for 4, and `GL_RED` for every other count. -/
def channelFormat (nrComponents : Int) : Nat :=
  if nrComponents = 1 then GL_RED
  else if nrComponents = 3 then GL_RGB
  else if nrComponents = 4 then GL_RGBA
  else GL_RED

/-- A decoder that yields a 4 by 4 image with two channels for every file. -/
def twoChannelDecoder : String → Option StbImage :=
  fun _ => some { width := 4, height := 4, nrComponents := 2 }

/-! ## `float` arithmetic: `processInput` with rounded results -/

/-- Rounding of a rational to the nearest integer, a tie going to the even
neighbour. -/
def roundHalfEven (q : ℚ) : ℤ :=
  let f := ⌊q⌋
  if q - f < 1 / 2 then f
  else if 1 / 2 < q - f then f + 1
  else if f % 2 = 0 then f
  else f + 1

/-- The spacing of the `float` (binary32) values around `x`: `2 ^ (e - 23)` for
`2 ^ e ≤ |x| < 2 ^ (e + 1)`, and `2 ^ (-149)` below `2 ^ (-126)`. -/
def f32ulp (x : ℚ) : ℚ := (2 : ℚ) ^ (max (Int.log 2 |x|) (-126) - 23)

/-- Rounding of a rational to `float` (binary32, round to nearest, ties to
even), as the result of a `float` operation is rounded. Overflow to infinity,
which starts at `2 ^ 128`, is not modelled. -/
def f32 (x : ℚ) : ℚ := roundHalfEven (x / f32ulp x) * f32ulp x

/-- The constant `0.001f`: the `float` nearest to 0.001. -/
def float_0_001 : ℚ := 8589935 / 8589934592

/-- The constant `0.0005f`: the `float` nearest to 0.0005. -/
def float_0_0005 : ℚ := 8589935 / 17179869184

/-- Lines 983-997 of `processInput` in `float` arithmetic. -/
def inputHeightScaleFloat (w : Window) (a : Globals) : Globals :=
  if glfwGetKey w GLFW_KEY_Q = GLFW_PRESS then
    if a.heightScale > 0 then { a with heightScale := f32 (a.heightScale - float_0_0005) }
    else { a with heightScale := 0 }
  else if glfwGetKey w GLFW_KEY_E = GLFW_PRESS then
    if a.heightScale < 1 then { a with heightScale := f32 (a.heightScale + float_0_0005) }
    else { a with heightScale := 1 }
  else a

/-- Lines 1009-1019 of `processInput` in `float` arithmetic: the difference
and the sum are rounded to `float`. -/
def inputExposureFloat (w : Window) (a : Globals) : Globals :=
  if glfwGetKey w GLFW_KEY_Z = GLFW_PRESS then
    if a.exposure > 0 then { a with exposure := f32 (a.exposure - float_0_001) }
    else { a with exposure := 0 }
  else if glfwGetKey w GLFW_KEY_C = GLFW_PRESS then
    { a with exposure := f32 (a.exposure + float_0_001) }
  else a

/-- The function `processInput` (lines 970-1020) in `float` arithmetic. -/
def processInputFloat (w : Window) (a : Globals) : Window × Globals :=
  let w := inputEscape w
  let a := inputMove w a
  let a := inputHeightScaleFloat w a
  let a := inputBloom w a
  let a := inputExposureFloat w a
  (w, a)

/-- Globals with `exposure = 32768`, a `float` value. -/
def highExposure : Globals := { Globals.init with exposure := 32768 }

/-! ## Projections of the uniform setters -/

@[simp] theorem setInt_framebuffer (sh : Shader) (name : String) (v : Int) (g : GLState) :
    (sh.setInt name v g).framebuffer = g.framebuffer := by
  unfold Shader.setInt glUniform1i
  split <;> rfl

@[simp] theorem setInt_program (sh : Shader) (name : String) (v : Int) (g : GLState) :
    (sh.setInt name v g).program = g.program := by
  unfold Shader.setInt glUniform1i
  split <;> rfl

@[simp] theorem setInt_activeUnit (sh : Shader) (name : String) (v : Int) (g : GLState) :
    (sh.setInt name v g).activeUnit = g.activeUnit := by
  unfold Shader.setInt glUniform1i
  split <;> rfl

@[simp] theorem setInt_texBinding (sh : Shader) (name : String) (v : Int) (g : GLState) :
    (sh.setInt name v g).texBinding = g.texBinding := by
  unfold Shader.setInt glUniform1i
  split <;> rfl

@[simp] theorem setInt_vertexArray (sh : Shader) (name : String) (v : Int) (g : GLState) :
    (sh.setInt name v g).vertexArray = g.vertexArray := by
  unfold Shader.setInt glUniform1i
  split <;> rfl

@[simp] theorem setInt_attachment (sh : Shader) (name : String) (v : Int) (g : GLState) :
    (sh.setInt name v g).attachment = g.attachment := by
  unfold Shader.setInt glUniform1i
  split <;> rfl

@[simp] theorem setInt_draws (sh : Shader) (name : String) (v : Int) (g : GLState) :
    (sh.setInt name v g).draws = g.draws := by
  unfold Shader.setInt glUniform1i
  split <;> rfl

@[simp] theorem setInt_uniformF (sh : Shader) (name : String) (v : Int) (g : GLState) :
    (sh.setInt name v g).uniformF = g.uniformF := by
  unfold Shader.setInt glUniform1i
  split <;> rfl

@[simp] theorem setFloat_framebuffer (sh : Shader) (name : String) (v : ℚ) (g : GLState) :
    (sh.setFloat name v g).framebuffer = g.framebuffer := by
  unfold Shader.setFloat glUniform1f
  split <;> rfl

@[simp] theorem setFloat_program (sh : Shader) (name : String) (v : ℚ) (g : GLState) :
    (sh.setFloat name v g).program = g.program := by
  unfold Shader.setFloat glUniform1f
  split <;> rfl

@[simp] theorem setFloat_activeUnit (sh : Shader) (name : String) (v : ℚ) (g : GLState) :
    (sh.setFloat name v g).activeUnit = g.activeUnit := by
  unfold Shader.setFloat glUniform1f
  split <;> rfl

@[simp] theorem setFloat_texBinding (sh : Shader) (name : String) (v : ℚ) (g : GLState) :
    (sh.setFloat name v g).texBinding = g.texBinding := by
  unfold Shader.setFloat glUniform1f
  split <;> rfl

@[simp] theorem setFloat_vertexArray (sh : Shader) (name : String) (v : ℚ) (g : GLState) :
    (sh.setFloat name v g).vertexArray = g.vertexArray := by
  unfold Shader.setFloat glUniform1f
  split <;> rfl

@[simp] theorem setFloat_attachment (sh : Shader) (name : String) (v : ℚ) (g : GLState) :
    (sh.setFloat name v g).attachment = g.attachment := by
  unfold Shader.setFloat glUniform1f
  split <;> rfl

@[simp] theorem setFloat_draws (sh : Shader) (name : String) (v : ℚ) (g : GLState) :
    (sh.setFloat name v g).draws = g.draws := by
  unfold Shader.setFloat glUniform1f
  split <;> rfl

@[simp] theorem setFloat_uniformI (sh : Shader) (name : String) (v : ℚ) (g : GLState) :
    (sh.setFloat name v g).uniformI = g.uniformI := by
  unfold Shader.setFloat glUniform1f
  split <;> rfl

theorem setInt_uniformI (sh : Shader) (name : String) (v : Int) (g : GLState)
    (hp : g.program = sh.ID) : (sh.setInt name v g).uniformI sh.ID name = some v := by
  simp [Shader.setInt, glUniform1i, hp]

theorem setFloat_uniformF (sh : Shader) (name : String) (v : ℚ) (g : GLState)
    (hp : g.program = sh.ID) : (sh.setFloat name v g).uniformF sh.ID name = some v := by
  simp [Shader.setFloat, glUniform1f, hp]

/-! ## Lemmas on `renderQuadForBloom` -/

theorem renderQuadForBloom_draws (names : Nat × Nat) (s : State) :
    (renderQuadForBloom names s).gl.draws = s.gl.draws ++ [bloomDraw names s] := by
  unfold renderQuadForBloom bloomDraw
  split <;> simp_all [glBindVertexArray, glDrawArrays, glBindBuffer, glBufferData,
    glVertexAttribPointer]

theorem renderQuadForBloom_frame (names : Nat × Nat) (s : State) :
    (renderQuadForBloom names s).gl.framebuffer = s.gl.framebuffer ∧
    (renderQuadForBloom names s).gl.program = s.gl.program ∧
    (renderQuadForBloom names s).gl.activeUnit = s.gl.activeUnit ∧
    (renderQuadForBloom names s).gl.texBinding = s.gl.texBinding ∧
    (renderQuadForBloom names s).gl.uniformI = s.gl.uniformI ∧
    (renderQuadForBloom names s).gl.uniformF = s.gl.uniformF ∧
    (renderQuadForBloom names s).gl.attachment = s.gl.attachment ∧
    (renderQuadForBloom names s).out = s.out := by
  unfold renderQuadForBloom
  split <;> simp [glBindVertexArray, glDrawArrays, glBindBuffer, glBufferData,
    glVertexAttribPointer]

theorem renderQuadForBloom_app (names : Nat × Nat) (s : State) :
    (renderQuadForBloom names s).app.bloom = s.app.bloom ∧
    (renderQuadForBloom names s).app.exposure = s.app.exposure ∧
    (renderQuadForBloom names s).app.bloomKeyPressed = s.app.bloomKeyPressed := by
  unfold renderQuadForBloom
  split <;> simp

/-! ## Lemmas on the blur loop -/

theorem blurIteration_horizontal (h : Handles) (sh : Shaders) (names : Nat × Nat)
    (L : BlurLoop) : (blurIteration h sh names L).horizontal = !L.horizontal := rfl

theorem blurIteration_first (h : Handles) (sh : Shaders) (names : Nat × Nat)
    (L : BlurLoop) : (blurIteration h sh names L).first_iteration = false := by
  unfold blurIteration
  cases L.first_iteration <;> simp

theorem blurIteration_st (h : Handles) (sh : Shaders) (names : Nat × Nat) (L : BlurLoop) :
    (blurIteration h sh names L).st
      = renderQuadForBloom names { L.st with gl := blurBind h sh L } := rfl

theorem blurIteration_draws (h : Handles) (sh : Shaders) (names : Nat × Nat) (L : BlurLoop) :
    (blurIteration h sh names L).st.gl.draws = L.st.gl.draws ++ [iterDraw h sh names L] := by
  rw [blurIteration_st, renderQuadForBloom_draws]
  simp [iterDraw, blurBind, glBindTexture, glActiveTexture, Shader.setInt, glUniform1i,
    glBindFramebuffer]
  split <;> rfl

theorem blurBind_program (h : Handles) (sh : Shaders) (L : BlurLoop) :
    (blurBind h sh L).program = L.st.gl.program := by
  simp [blurBind, glBindTexture, glActiveTexture, glBindFramebuffer]

theorem blurBind_attachment (h : Handles) (sh : Shaders) (L : BlurLoop) :
    (blurBind h sh L).attachment = L.st.gl.attachment := by
  simp [blurBind, glBindTexture, glActiveTexture, glBindFramebuffer]

theorem blurIteration_program (h : Handles) (sh : Shaders) (names : Nat × Nat)
    (L : BlurLoop) : (blurIteration h sh names L).st.gl.program = L.st.gl.program := by
  rw [blurIteration_st, (renderQuadForBloom_frame names _).2.1]
  exact blurBind_program h sh L

theorem blurIteration_attachment (h : Handles) (sh : Shaders) (names : Nat × Nat)
    (L : BlurLoop) : (blurIteration h sh names L).st.gl.attachment = L.st.gl.attachment := by
  rw [blurIteration_st, (renderQuadForBloom_frame names _).2.2.2.2.2.2.1]
  exact blurBind_attachment h sh L

theorem blurIteration_app (h : Handles) (sh : Shaders) (names : Nat × Nat) (L : BlurLoop) :
    (blurIteration h sh names L).st.app.bloom = L.st.app.bloom ∧
    (blurIteration h sh names L).st.app.exposure = L.st.app.exposure := by
  rw [blurIteration_st]
  exact ⟨(renderQuadForBloom_app names _).1, (renderQuadForBloom_app names _).2.1⟩

/-- The loop runs its body `amount - i` times and stops. -/
theorem blurFor_eq_iterate (h : Handles) (sh : Shaders) (names : Nat × Nat) (n : Nat) :
    ∀ (k i : Nat) (L : BlurLoop), n - i = k →
      blurFor h sh names n i L = (blurIteration h sh names)^[k] L := by
  intro k
  induction k with
  | zero =>
    intro i L hk
    unfold blurFor
    have : ¬ i < n := by omega
    simp [this]
  | succ k ih =>
    intro i L hk
    unfold blurFor
    have : i < n := by omega
    simp only [this, if_true]
    rw [ih (i + 1) _ (by omega)]
    rfl

theorem blurEntry_eq_iterate (h : Handles) (sh : Shaders) (names : Nat × Nat) (s : State)
    (i : Nat) : blurEntry h sh names s i = (blurIteration h sh names)^[i] (blurInit sh s) :=
  blurFor_eq_iterate h sh names i i 0 _ (by omega)

theorem blurEntry_succ (h : Handles) (sh : Shaders) (names : Nat × Nat) (s : State)
    (i : Nat) :
    blurEntry h sh names s (i + 1) = blurIteration h sh names (blurEntry h sh names s i) := by
  rw [blurEntry_eq_iterate, blurEntry_eq_iterate, Function.iterate_succ_apply']

theorem blurEntry_zero (h : Handles) (sh : Shaders) (names : Nat × Nat) (s : State) :
    blurEntry h sh names s 0 = blurInit sh s := by
  rw [blurEntry_eq_iterate]; rfl

theorem blurEntry_horizontal (h : Handles) (sh : Shaders) (names : Nat × Nat) (s : State)
    (i : Nat) : (blurEntry h sh names s i).horizontal = decide (i % 2 = 0) := by
  induction i with
  | zero => rw [blurEntry_zero]; rfl
  | succ i ih =>
    rw [blurEntry_succ, blurIteration_horizontal, ih]
    rcases Nat.mod_two_eq_zero_or_one i with h0 | h1
    · have : (i + 1) % 2 = 1 := by omega
      simp [h0, this]
    · have : (i + 1) % 2 = 0 := by omega
      simp [h1, this]

theorem blurEntry_first (h : Handles) (sh : Shaders) (names : Nat × Nat) (s : State)
    (i : Nat) : (blurEntry h sh names s i).first_iteration = decide (i = 0) := by
  cases i with
  | zero => rw [blurEntry_zero]; rfl
  | succ i => rw [blurEntry_succ, blurIteration_first]; simp

theorem blurEntry_program (h : Handles) (sh : Shaders) (names : Nat × Nat) (s : State)
    (i : Nat) : (blurEntry h sh names s i).st.gl.program = sh.blurShader.ID := by
  induction i with
  | zero => rw [blurEntry_zero]; rfl
  | succ i ih => rw [blurEntry_succ, blurIteration_program, ih]

theorem blurEntry_attachment (h : Handles) (sh : Shaders) (names : Nat × Nat) (s : State)
    (i : Nat) : (blurEntry h sh names s i).st.gl.attachment = s.gl.attachment := by
  induction i with
  | zero => rw [blurEntry_zero]; rfl
  | succ i ih => rw [blurEntry_succ, blurIteration_attachment, ih]

theorem blurEntry_app (h : Handles) (sh : Shaders) (names : Nat × Nat) (s : State)
    (i : Nat) :
    (blurEntry h sh names s i).st.app.bloom = s.app.bloom ∧
    (blurEntry h sh names s i).st.app.exposure = s.app.exposure := by
  induction i with
  | zero => rw [blurEntry_zero]; exact ⟨rfl, rfl⟩
  | succ i ih =>
    rw [blurEntry_succ]
    exact ⟨(blurIteration_app h sh names _).1.trans ih.1,
      (blurIteration_app h sh names _).2.trans ih.2⟩

theorem blurEntry_draws (h : Handles) (sh : Shaders) (names : Nat × Nat) (s : State)
    (i : Nat) :
    (blurEntry h sh names s i).st.gl.draws
      = s.gl.draws ++ (List.range i).map (fun j => iterDraw h sh names (blurEntry h sh names s j)) := by
  induction i with
  | zero => rw [blurEntry_zero]; simp [blurInit, Shader.use, glUseProgram]
  | succ i ih =>
    rw [blurEntry_succ, blurIteration_draws, ih, List.range_succ, List.map_append,
      List.append_assoc]
    rfl

/-- The blur stage with `n` iterations appends exactly the draws of its `n`
iterations, in order. -/
theorem blurDraws_eq (h : Handles) (sh : Shaders) (names : Nat × Nat) (n : Nat) (s : State) :
    blurDraws h sh names n s
      = (List.range n).map (fun j => iterDraw h sh names (blurEntry h sh names s j)) := by
  have : (blurStage h sh names n s).st.gl.draws = (blurEntry h sh names s n).st.gl.draws := rfl
  rw [blurDraws, this, blurEntry_draws, List.drop_left]

theorem blurStage_draws (h : Handles) (sh : Shaders) (names : Nat × Nat) (n : Nat)
    (s : State) :
    (blurStage h sh names n s).st.gl.draws = s.gl.draws ++ blurDraws h sh names n s := by
  have : (blurStage h sh names n s).st.gl.draws = (blurEntry h sh names s n).st.gl.draws := rfl
  rw [blurDraws_eq, this, blurEntry_draws]

theorem blurDraws_length (h : Handles) (sh : Shaders) (names : Nat × Nat) (n : Nat)
    (s : State) : (blurDraws h sh names n s).length = n := by
  rw [blurDraws_eq]; simp

theorem blurDraws_get (h : Handles) (sh : Shaders) (names : Nat × Nat) (n : Nat)
    (s : State) (i : Nat) (hi : i < n) :
    (blurDraws h sh names n s)[i]? = some (iterDraw h sh names (blurEntry h sh names s i)) := by
  rw [blurDraws_eq]
  simp [hi]

/-! ## The draw of one blur iteration -/

theorem iterDraw_framebuffer (h : Handles) (sh : Shaders) (names : Nat × Nat) (L : BlurLoop) :
    (iterDraw h sh names L).framebuffer = h.pingpongFBO (boolIdx L.horizontal) := by
  simp [iterDraw, bloomDraw, blurBind, glBindTexture, glActiveTexture, glBindFramebuffer]

theorem iterDraw_program (h : Handles) (sh : Shaders) (names : Nat × Nat) (L : BlurLoop) :
    (iterDraw h sh names L).program = L.st.gl.program := by
  simp only [iterDraw, bloomDraw]
  exact blurBind_program h sh L

theorem iterDraw_shape (h : Handles) (sh : Shaders) (names : Nat × Nat) (L : BlurLoop) :
    (iterDraw h sh names L).mode = GL_TRIANGLE_STRIP ∧ (iterDraw h sh names L).first = 0 ∧
    (iterDraw h sh names L).count = 4 := ⟨rfl, rfl, rfl⟩

theorem iterDraw_readSource (h : Handles) (sh : Shaders) (names : Nat × Nat) (L : BlurLoop) :
    (iterDraw h sh names L).readSource
      = if L.first_iteration then h.colorBuffers 1
        else h.pingpongColorbuffers (boolIdx (!L.horizontal)) := by
  simp [DrawCall.readSource, iterDraw, bloomDraw, blurBind, glBindTexture, glActiveTexture]

theorem iterDraw_uniform (h : Handles) (sh : Shaders) (names : Nat × Nat) (L : BlurLoop)
    (hp : L.st.gl.program = sh.blurShader.ID) :
    (iterDraw h sh names L).uniformI "horizontal" = some (boolToInt L.horizontal) := by
  simp [iterDraw, bloomDraw, blurBind, glBindTexture, glActiveTexture, Shader.setInt,
    glUniform1i, glBindFramebuffer, hp]

/-! ## The framebuffer set-up attaches the ping-pong textures -/

theorem setup_pingpongAttached (h : Handles) (status : Nat → Nat) (s : State)
    (hd : h.pingpongFBO 0 ≠ h.pingpongFBO 1) (hz : ∀ k, h.pingpongFBO k ≠ 0) :
    h.pingpongAttached (setupFramebuffers h status s).gl.attachment := by
  have h0 := hz 0
  have h1 := hz 1
  intro k
  fin_cases k <;>
    simp [setupFramebuffers, setupPingpongFramebuffers, pingpongStep, glBindFramebuffer,
      glBindTexture, glTexImage2D, glTexParameteri, glFramebufferTexture2D, h0, h1, hd]

/-! ## The composite stage -/

theorem compositeStage_eq (h : Handles) (sh : Shaders) (names : Nat × Nat) (hor : Bool)
    (s : State) :
    compositeStage h sh names hor s
      = renderQuadForBloom names { s with gl := compositeBind h sh hor s } := rfl

theorem compositeStage_draws (h : Handles) (sh : Shaders) (names : Nat × Nat) (hor : Bool)
    (s : State) :
    (compositeStage h sh names hor s).gl.draws
      = s.gl.draws ++ [compositeDraw h sh names hor s] := by
  rw [compositeStage_eq, renderQuadForBloom_draws]
  simp [compositeDraw, compositeBind, glBindTexture, glActiveTexture, Shader.use,
    glUseProgram, glClear]

theorem compositeStage_attachment (h : Handles) (sh : Shaders) (names : Nat × Nat)
    (hor : Bool) (s : State) :
    (compositeStage h sh names hor s).gl.attachment = s.gl.attachment := by
  rw [compositeStage_eq, (renderQuadForBloom_frame names _).2.2.2.2.2.2.1]
  simp [compositeBind, glBindTexture, glActiveTexture, Shader.use, glUseProgram, glClear]

theorem compositeDraw_fields (h : Handles) (sh : Shaders) (names : Nat × Nat) (hor : Bool)
    (s : State) :
    (compositeDraw h sh names hor s).framebuffer = s.gl.framebuffer ∧
    (compositeDraw h sh names hor s).program = sh.bloomFinalShader.ID ∧
    (compositeDraw h sh names hor s).tex2D 0 = h.colorBuffers 0 ∧
    (compositeDraw h sh names hor s).tex2D 1 = h.pingpongColorbuffers (boolIdx (!hor)) ∧
    (compositeDraw h sh names hor s).uniformI "bloom" = some (boolToInt s.app.bloom) ∧
    (compositeDraw h sh names hor s).uniformF "exposure" = some s.app.exposure ∧
    (compositeDraw h sh names hor s).mode = GL_TRIANGLE_STRIP ∧
    (compositeDraw h sh names hor s).first = 0 ∧
    (compositeDraw h sh names hor s).count = 4 := by
  have hp : (glBindTexture GL_TEXTURE_2D (h.pingpongColorbuffers (boolIdx (!hor)))
        (glActiveTexture GL_TEXTURE1
          (glBindTexture GL_TEXTURE_2D (h.colorBuffers 0)
            (glActiveTexture GL_TEXTURE0
              (sh.bloomFinalShader.use (glClear s.gl)))))).program = sh.bloomFinalShader.ID := rfl
  refine ⟨?_, ?_, ?_, ?_, ?_, ?_, rfl, rfl, rfl⟩
  · simp [compositeDraw, bloomDraw, compositeBind, glBindTexture, glActiveTexture,
      Shader.use, glUseProgram, glClear]
  · simp [compositeDraw, bloomDraw, compositeBind, glBindTexture, glActiveTexture,
      Shader.use, glUseProgram, glClear]
  · simp [compositeDraw, bloomDraw, compositeBind, glBindTexture, glActiveTexture,
      Shader.use, glUseProgram, glClear, GL_TEXTURE0, GL_TEXTURE1]
  · simp [compositeDraw, bloomDraw, compositeBind, glBindTexture, glActiveTexture,
      Shader.use, glUseProgram, glClear, GL_TEXTURE0, GL_TEXTURE1]
  · have hq : (compositeBind h sh hor s).program = sh.bloomFinalShader.ID := by
      simp [compositeBind, glBindTexture, glActiveTexture, Shader.use, glUseProgram, glClear]
    simp only [compositeDraw, bloomDraw, hq]
    simp only [compositeBind, setFloat_uniformI]
    exact setInt_uniformI _ _ _ _ hp
  · have hq : (compositeBind h sh hor s).program = sh.bloomFinalShader.ID := by
      simp [compositeBind, glBindTexture, glActiveTexture, Shader.use, glUseProgram, glClear]
    simp only [compositeDraw, bloomDraw, hq]
    simp only [compositeBind]
    exact setFloat_uniformF _ _ _ _ (by simpa using hp)

theorem blurStage_horizontal (h : Handles) (sh : Shaders) (names : Nat × Nat) (n : Nat)
    (s : State) :
    (blurStage h sh names n s).horizontal = (blurEntry h sh names s n).horizontal := rfl

theorem blurStage_attachment (h : Handles) (sh : Shaders) (names : Nat × Nat) (n : Nat)
    (s : State) : (blurStage h sh names n s).st.gl.attachment = s.gl.attachment :=
  blurEntry_attachment h sh names s n

theorem blurStage_framebuffer (h : Handles) (sh : Shaders) (names : Nat × Nat) (n : Nat)
    (s : State) : (blurStage h sh names n s).st.gl.framebuffer = 0 := rfl

theorem blurStage_app (h : Handles) (sh : Shaders) (names : Nat × Nat) (n : Nat)
    (s : State) :
    (blurStage h sh names n s).st.app.bloom = s.app.bloom ∧
    (blurStage h sh names n s).st.app.exposure = s.app.exposure :=
  blurEntry_app h sh names s n

theorem postProcessN_draws (h : Handles) (sh : Shaders) (names : Nat × Nat) (n : Nat)
    (s : State) :
    (postProcessN h sh names n s).gl.draws
      = s.gl.draws ++ blurDraws h sh names n s ++
        [compositeDraw h sh names (blurStage h sh names n s).horizontal
          (blurStage h sh names n s).st] := by
  unfold postProcessN
  rw [compositeStage_draws, blurStage_draws]

theorem postProcessN_attachment (h : Handles) (sh : Shaders) (names : Nat × Nat) (n : Nat)
    (s : State) : (postProcessN h sh names n s).gl.attachment = s.gl.attachment := by
  unfold postProcessN
  rw [compositeStage_attachment, blurStage_attachment]

/-! ## Auxiliary facts on indices and handles -/

theorem boolIdx_not_ne (b : Bool) : boolIdx (!b) ≠ boolIdx b := by
  cases b <;> decide

theorem texturesDistinct_pingpong (h : Handles) (hdist : h.texturesDistinct) (b : Bool) :
    h.pingpongColorbuffers (boolIdx (!b)) ≠ h.pingpongColorbuffers (boolIdx b) := by
  unfold Handles.texturesDistinct at hdist
  simp only [List.nodup_cons, List.mem_cons, List.mem_singleton, not_or] at hdist
  cases b
  · exact fun e => hdist.2.2.1.1 e.symm
  · exact fun e => hdist.2.2.1.1 e

theorem texturesDistinct_bright (h : Handles) (hdist : h.texturesDistinct) (k : Fin 2) :
    h.colorBuffers 1 ≠ h.pingpongColorbuffers k := by
  unfold Handles.texturesDistinct at hdist
  simp only [List.nodup_cons, List.mem_cons, List.mem_singleton, not_or] at hdist
  fin_cases k
  · exact hdist.2.1.1
  · exact hdist.2.1.2.1

/-! ## Results on the blur stage and the composite bind -/

/-- C1: for every iteration count `n ≥ 1`, the texture that the composite stage
binds as its blurred input (on unit 1) is `pingpongColorbuffers[!horizontal]`
for the value of `horizontal` at loop exit, and it is the colour attachment
(as established by the framebuffer set-up) of the ping-pong framebuffer that
the last blur iteration, iteration `n - 1`, drew to. -/
theorem composite_binds_last_written (h : Handles) (sh : Shaders) (names : Nat × Nat)
    (status : Nat → Nat) (s0 s : State) (n : Nat)
    (hd : h.pingpongFBO 0 ≠ h.pingpongFBO 1) (hz : ∀ k, h.pingpongFBO k ≠ 0)
    (hs : s.gl.attachment = (setupFramebuffers h status s0).gl.attachment)
    (hn : 1 ≤ n) :
    ∃ last comp,
      (blurDraws h sh names n s)[n - 1]? = some last ∧
      (blurDraws h sh names n s).getLast? = some last ∧
      (postProcessN h sh names n s).gl.draws.getLast? = some comp ∧
      comp.tex2D 1
        = h.pingpongColorbuffers (boolIdx (!(blurStage h sh names n s).horizontal)) ∧
      comp.tex2D 1 = last.writeTexture (postProcessN h sh names n s).gl.attachment := by
  have hatt : h.pingpongAttached s.gl.attachment := by
    rw [hs]; exact setup_pingpongAttached h status s0 hd hz
  have hget := blurDraws_get h sh names n s (n - 1) (by omega)
  refine ⟨iterDraw h sh names (blurEntry h sh names s (n - 1)),
    compositeDraw h sh names (blurStage h sh names n s).horizontal
      (blurStage h sh names n s).st,
    hget, ?_, ?_, (compositeDraw_fields h sh names _ _).2.2.2.1, ?_⟩
  · rw [List.getLast?_eq_getElem?, blurDraws_length]; exact hget
  · rw [postProcessN_draws, List.getLast?_concat]
  · rw [(compositeDraw_fields h sh names _ _).2.2.2.1, postProcessN_attachment,
      DrawCall.writeTexture, iterDraw_framebuffer, hatt, blurStage_horizontal]
    have : n = (n - 1) + 1 := by omega
    conv_lhs => rw [this, blurEntry_succ, blurIteration_horizontal]
    cases (blurEntry h sh names s (n - 1)).horizontal <;> rfl

/-- C1 instantiated: the demo handles after the real set-up, ten iterations. -/
theorem composite_binds_last_written_witness :
    demoHandles.pingpongFBO 0 ≠ demoHandles.pingpongFBO 1 ∧
    (∀ k, demoHandles.pingpongFBO k ≠ 0) ∧
    demoState.gl.attachment
      = (setupFramebuffers demoHandles demoStatus
          { app := Globals.init, gl := GLState.init, out := [] }).gl.attachment ∧
    1 ≤ 10 ∧
    ∃ last comp,
      (blurDraws demoHandles demoShaders demoNames 10 demoState)[10 - 1]? = some last ∧
      (blurDraws demoHandles demoShaders demoNames 10 demoState).getLast? = some last ∧
      (postProcessN demoHandles demoShaders demoNames 10 demoState).gl.draws.getLast?
        = some comp ∧
      comp.tex2D 1
        = demoHandles.pingpongColorbuffers
            (boolIdx (!(blurStage demoHandles demoShaders demoNames 10 demoState).horizontal)) ∧
      comp.tex2D 1
        = last.writeTexture
            (postProcessN demoHandles demoShaders demoNames 10 demoState).gl.attachment :=
  ⟨by decide, by decide, rfl, by decide,
    composite_binds_last_written demoHandles demoShaders demoNames demoStatus
      { app := Globals.init, gl := GLState.init, out := [] } demoState 10
      (by decide) (by decide) rfl (by decide)⟩

/-- C2: in every blur iteration `i < n` the texture bound as read source is not
the colour attachment of the framebuffer bound as write target, given that
`pingpongFBO[k]` has `pingpongColorbuffers[k]` attached and that the four
texture names are pairwise distinct. -/
theorem blur_read_write_disjoint (h : Handles) (sh : Shaders) (names : Nat × Nat)
    (s : State) (n i : Nat)
    (hatt : h.pingpongAttached s.gl.attachment) (hdist : h.texturesDistinct)
    (hi : i < n) :
    ∃ d, (blurDraws h sh names n s)[i]? = some d ∧
      d.readSource ≠ d.writeTexture s.gl.attachment := by
  refine ⟨_, blurDraws_get h sh names n s i hi, ?_⟩
  rw [iterDraw_readSource, DrawCall.writeTexture, iterDraw_framebuffer, hatt,
    blurEntry_first]
  by_cases h0 : i = 0
  · simp only [h0, decide_True, if_true]
    exact texturesDistinct_bright h hdist _
  · simp only [h0, decide_False]
    exact texturesDistinct_pingpong h hdist _

/-- C2 instantiated: iteration 3 of 10 on the demo handles after the set-up. -/
theorem blur_read_write_disjoint_witness :
    demoHandles.pingpongAttached demoState.gl.attachment ∧
    demoHandles.texturesDistinct ∧ 3 < 10 ∧
    ∃ d, (blurDraws demoHandles demoShaders demoNames 10 demoState)[3]? = some d ∧
      d.readSource ≠ d.writeTexture demoState.gl.attachment :=
  have hatt : demoHandles.pingpongAttached demoState.gl.attachment :=
    setup_pingpongAttached demoHandles demoStatus _ (by decide) (by decide)
  have hdist : demoHandles.texturesDistinct := by
    unfold Handles.texturesDistinct; decide
  ⟨hatt, hdist, by decide,
    blur_read_write_disjoint demoHandles demoShaders demoNames demoState 10 3 hatt hdist
      (by decide)⟩

/-- The bright-pass texture is the read source of the first of the mapped
iteration draws only. -/
theorem countP_bright (h : Handles) (sh : Shaders) (names : Nat × Nat) (s : State)
    (hdist : h.texturesDistinct) (n : Nat) :
    ((List.range (n + 1)).map
        (fun j => iterDraw h sh names (blurEntry h sh names s j))).countP
      (fun d => decide (d.readSource = h.colorBuffers 1)) = 1 := by
  rw [List.range_succ_eq_map, List.map_cons, List.countP_cons, List.map_map]
  have hrest : ((List.range n).map
        ((fun j => iterDraw h sh names (blurEntry h sh names s j)) ∘ Nat.succ)).countP
      (fun d => decide (d.readSource = h.colorBuffers 1)) = 0 := by
    rw [List.countP_eq_zero]
    intro d hd
    obtain ⟨j, _, rfl⟩ := List.mem_map.1 hd
    simp only [Function.comp, Nat.succ_eq_add_one, iterDraw_readSource, blurEntry_first,
      Nat.add_one_ne_zero, decide_False, Bool.false_eq_true, if_false, decide_eq_true_eq]
    exact fun e => texturesDistinct_bright h hdist _ e.symm
  rw [hrest, iterDraw_readSource, blurEntry_first]
  simp

/-- C3: in a blur loop of `n` iterations, iteration 0 reads the bright-pass
texture `colorBuffers[1]`; every later iteration `i` reads the ping-pong
texture that iteration `i - 1` wrote; `first_iteration` is true on entry to
iteration 0 only; and the bright-pass texture is the read source of exactly
one draw of the blur stage. -/
theorem blur_read_chain (h : Handles) (sh : Shaders) (names : Nat × Nat)
    (s : State) (n i : Nat)
    (hatt : h.pingpongAttached s.gl.attachment) (hdist : h.texturesDistinct)
    (hi : i < n) :
    (∃ d, (blurDraws h sh names n s)[i]? = some d ∧
      (i = 0 → d.readSource = h.colorBuffers 1) ∧
      (1 ≤ i → ∃ p, (blurDraws h sh names n s)[i - 1]? = some p ∧
        d.readSource = p.writeTexture s.gl.attachment)) ∧
    (blurEntry h sh names s i).first_iteration = decide (i = 0) ∧
    (blurDraws h sh names n s).countP
      (fun d => decide (d.readSource = h.colorBuffers 1)) = 1 := by
  refine ⟨⟨_, blurDraws_get h sh names n s i hi, ?_, ?_⟩, blurEntry_first h sh names s i, ?_⟩
  · intro h0
    rw [iterDraw_readSource, blurEntry_first]
    simp [h0]
  · intro h1
    refine ⟨_, blurDraws_get h sh names n s (i - 1) (by omega), ?_⟩
    rw [iterDraw_readSource, blurEntry_first, DrawCall.writeTexture, iterDraw_framebuffer,
      hatt]
    have hne : i ≠ 0 := by omega
    have hsucc : i = (i - 1) + 1 := by omega
    simp only [hne, decide_False, Bool.false_eq_true, if_false]
    conv_lhs => rw [hsucc, blurEntry_succ, blurIteration_horizontal]
    simp
  · obtain ⟨m, rfl⟩ : ∃ m, n = m + 1 := ⟨n - 1, by omega⟩
    rw [blurDraws_eq]
    exact countP_bright h sh names s hdist m

/-- C3 instantiated: iteration 4 of 10 on the demo handles after the set-up. -/
theorem blur_read_chain_witness :
    demoHandles.pingpongAttached demoState.gl.attachment ∧
    demoHandles.texturesDistinct ∧ 4 < 10 ∧
    ((∃ d, (blurDraws demoHandles demoShaders demoNames 10 demoState)[4]? = some d ∧
      (4 = 0 → d.readSource = demoHandles.colorBuffers 1) ∧
      (1 ≤ 4 → ∃ p, (blurDraws demoHandles demoShaders demoNames 10 demoState)[4 - 1]? = some p ∧
        d.readSource = p.writeTexture demoState.gl.attachment)) ∧
    (blurEntry demoHandles demoShaders demoNames demoState 4).first_iteration
      = decide (4 = 0) ∧
    (blurDraws demoHandles demoShaders demoNames 10 demoState).countP
      (fun d => decide (d.readSource = demoHandles.colorBuffers 1)) = 1) :=
  have hatt : demoHandles.pingpongAttached demoState.gl.attachment :=
    setup_pingpongAttached demoHandles demoStatus _ (by decide) (by decide)
  have hdist : demoHandles.texturesDistinct := by
    unfold Handles.texturesDistinct; decide
  ⟨hatt, hdist, by decide,
    blur_read_chain demoHandles demoShaders demoNames demoState 10 4 hatt hdist (by decide)⟩

/-- C4: the blur loop starts with `horizontal = true` and
`first_iteration = true`; iteration `i < n` is entered with `horizontal` true
exactly when `i` is even, binds ping-pong framebuffer index 1 for even `i` and
index 0 for odd `i` as write target, and draws with the uniform `horizontal`
of the blur shader set to the same flag; the next iteration, if there is one,
has the other target and the other orientation. -/
theorem blur_alternates (h : Handles) (sh : Shaders) (names : Nat × Nat)
    (s : State) (n i : Nat) (hi : i < n) :
    (blurEntry h sh names s 0).horizontal = true ∧
    (blurEntry h sh names s 0).first_iteration = true ∧
    (blurEntry h sh names s i).horizontal = decide (i % 2 = 0) ∧
    (∃ d, (blurDraws h sh names n s)[i]? = some d ∧
      d.program = sh.blurShader.ID ∧
      d.framebuffer = h.pingpongFBO (if i % 2 = 0 then 1 else 0) ∧
      d.uniformI "horizontal" = some (if i % 2 = 0 then 1 else 0)) ∧
    (i + 1 < n → ∃ d, (blurDraws h sh names n s)[i + 1]? = some d ∧
      d.framebuffer = h.pingpongFBO (if i % 2 = 0 then 0 else 1) ∧
      d.uniformI "horizontal" = some (if i % 2 = 0 then 0 else 1)) := by
  have key : ∀ j, j < n → ∃ d, (blurDraws h sh names n s)[j]? = some d ∧
      d.program = sh.blurShader.ID ∧
      d.framebuffer = h.pingpongFBO (if j % 2 = 0 then 1 else 0) ∧
      d.uniformI "horizontal" = some (if j % 2 = 0 then 1 else 0) := by
    intro j hj
    refine ⟨_, blurDraws_get h sh names n s j hj, ?_, ?_, ?_⟩
    · rw [iterDraw_program, blurEntry_program]
    · rw [iterDraw_framebuffer, blurEntry_horizontal]
      by_cases hp : j % 2 = 0 <;> simp [hp, boolIdx]
    · rw [iterDraw_uniform h sh names _ (blurEntry_program h sh names s j),
        blurEntry_horizontal]
      by_cases hp : j % 2 = 0 <;> simp [hp, boolToInt]
  refine ⟨?_, ?_, blurEntry_horizontal h sh names s i, key i hi, ?_⟩
  · rw [blurEntry_zero]; rfl
  · rw [blurEntry_zero]; rfl
  · intro hi1
    obtain ⟨d, hd, _, hfb, hu⟩ := key (i + 1) hi1
    refine ⟨d, hd, ?_, ?_⟩
    · rw [hfb]
      rcases Nat.mod_two_eq_zero_or_one i with h0 | h1
      · have : (i + 1) % 2 = 1 := by omega
        simp [h0, this]
      · have : (i + 1) % 2 = 0 := by omega
        simp [h1, this]
    · rw [hu]
      rcases Nat.mod_two_eq_zero_or_one i with h0 | h1
      · have : (i + 1) % 2 = 1 := by omega
        simp [h0, this]
      · have : (i + 1) % 2 = 0 := by omega
        simp [h1, this]

/-- C4 instantiated: iteration 7 of 10. -/
theorem blur_alternates_witness :
    7 < 10 ∧
    ((blurEntry demoHandles demoShaders demoNames demoState 0).horizontal = true ∧
    (blurEntry demoHandles demoShaders demoNames demoState 0).first_iteration = true ∧
    (blurEntry demoHandles demoShaders demoNames demoState 7).horizontal
      = decide (7 % 2 = 0) ∧
    (∃ d, (blurDraws demoHandles demoShaders demoNames 10 demoState)[7]? = some d ∧
      d.program = demoShaders.blurShader.ID ∧
      d.framebuffer = demoHandles.pingpongFBO (if 7 % 2 = 0 then 1 else 0) ∧
      d.uniformI "horizontal" = some (if 7 % 2 = 0 then 1 else 0)) ∧
    (7 + 1 < 10 → ∃ d,
      (blurDraws demoHandles demoShaders demoNames 10 demoState)[7 + 1]? = some d ∧
      d.framebuffer = demoHandles.pingpongFBO (if 7 % 2 = 0 then 0 else 1) ∧
      d.uniformI "horizontal" = some (if 7 % 2 = 0 then 0 else 1))) :=
  ⟨by decide, blur_alternates demoHandles demoShaders demoNames demoState 10 7 (by decide)⟩

theorem lastWrittenIndex_val (h : Handles) (sh : Shaders) (names : Nat × Nat) (s : State)
    (n : Nat) (hn : 1 ≤ n) : (lastWrittenIndex h sh names n s).val = n % 2 := by
  unfold lastWrittenIndex
  rw [blurEntry_horizontal]
  rcases Nat.mod_two_eq_zero_or_one n with h0 | h1
  · have : (n - 1) % 2 = 1 := by omega
    simp [h0, this, boolIdx]
  · have : (n - 1) % 2 = 0 := by omega
    simp [h1, this, boolIdx]

/-- C5: for every iteration count `n ≥ 1`, started with `horizontal = true`,
the index of the ping-pong target written last equals `n mod 2`: the last draw
of the blur stage goes to `pingpongFBO[n mod 2]`. For `n = 1, 2, 3, 4` the
index is `1, 0, 1, 0`, and for the `amount = 10` of the source it is `0`, the
complement of the initial `horizontal`. -/
theorem last_written_index_parity (h : Handles) (sh : Shaders) (names : Nat × Nat)
    (s : State) (n : Nat) (hn : 1 ≤ n) :
    (blurInit sh s).horizontal = true ∧
    (lastWrittenIndex h sh names n s).val = n % 2 ∧
    (blurDraws h sh names n s).getLast?.map DrawCall.framebuffer
      = some (h.pingpongFBO (lastWrittenIndex h sh names n s)) ∧
    lastWrittenIndex h sh names 1 s = 1 ∧
    lastWrittenIndex h sh names 2 s = 0 ∧
    lastWrittenIndex h sh names 3 s = 1 ∧
    lastWrittenIndex h sh names 4 s = 0 ∧
    amount = 10 ∧
    lastWrittenIndex h sh names amount s = 0 ∧
    lastWrittenIndex h sh names amount s = boolIdx (!(blurInit sh s).horizontal) := by
  have hval := fun m hm => lastWrittenIndex_val h sh names s m hm
  have e1 : lastWrittenIndex h sh names 1 s = 1 := Fin.ext (hval 1 (by decide))
  have e2 : lastWrittenIndex h sh names 2 s = 0 := Fin.ext (hval 2 (by decide))
  have e3 : lastWrittenIndex h sh names 3 s = 1 := Fin.ext (hval 3 (by decide))
  have e4 : lastWrittenIndex h sh names 4 s = 0 := Fin.ext (hval 4 (by decide))
  have e10 : lastWrittenIndex h sh names amount s = 0 := Fin.ext (hval 10 (by decide))
  refine ⟨rfl, hval n hn, ?_, e1, e2, e3, e4, rfl, e10, ?_⟩
  · rw [List.getLast?_eq_getElem?, blurDraws_length,
      blurDraws_get h sh names n s (n - 1) (by omega)]
    simp only [Option.map_some', iterDraw_framebuffer, lastWrittenIndex]
  · rw [e10]; rfl

/-- C5 instantiated: the ten iterations of the source on the demo handles. -/
theorem last_written_index_parity_witness :
    1 ≤ 10 ∧
    ((blurInit demoShaders demoState).horizontal = true ∧
    (lastWrittenIndex demoHandles demoShaders demoNames 10 demoState).val = 10 % 2 ∧
    (blurDraws demoHandles demoShaders demoNames 10 demoState).getLast?.map
        DrawCall.framebuffer
      = some (demoHandles.pingpongFBO
          (lastWrittenIndex demoHandles demoShaders demoNames 10 demoState)) ∧
    lastWrittenIndex demoHandles demoShaders demoNames 1 demoState = 1 ∧
    lastWrittenIndex demoHandles demoShaders demoNames 2 demoState = 0 ∧
    lastWrittenIndex demoHandles demoShaders demoNames 3 demoState = 1 ∧
    lastWrittenIndex demoHandles demoShaders demoNames 4 demoState = 0 ∧
    amount = 10 ∧
    lastWrittenIndex demoHandles demoShaders demoNames amount demoState = 0 ∧
    lastWrittenIndex demoHandles demoShaders demoNames amount demoState
      = boolIdx (!(blurInit demoShaders demoState).horizontal)) :=
  ⟨by decide,
    last_written_index_parity demoHandles demoShaders demoNames demoState 10 (by decide)⟩

/-! ## Results on a whole frame -/

theorem postProcessN_composite_fields (h : Handles) (sh : Shaders) (names : Nat × Nat)
    (n : Nat) (s : State) :
    (compositeDraw h sh names (blurStage h sh names n s).horizontal
      (blurStage h sh names n s).st).framebuffer = 0 ∧
    (compositeDraw h sh names (blurStage h sh names n s).horizontal
      (blurStage h sh names n s).st).uniformI "bloom" = some (boolToInt s.app.bloom) ∧
    (compositeDraw h sh names (blurStage h sh names n s).horizontal
      (blurStage h sh names n s).st).uniformF "exposure" = some s.app.exposure := by
  have hf := compositeDraw_fields h sh names (blurStage h sh names n s).horizontal
    (blurStage h sh names n s).st
  refine ⟨?_, ?_, ?_⟩
  · rw [hf.1, blurStage_framebuffer]
  · rw [hf.2.2.2.2.1, (blurStage_app h sh names n s).1]
  · rw [hf.2.2.2.2.2.1, (blurStage_app h sh names n s).2]

theorem frameScene_app (scene : ScenePass) (now : ℚ) (w : Window) (s : State) :
    (frameScene scene now w s).2.app.bloom = (frameInput now w s.app).2.bloom ∧
    (frameScene scene now w s).2.app.exposure = (frameInput now w s.app).2.exposure :=
  ⟨rfl, rfl⟩

/-- C6: in every frame the blur stage issues exactly ten draws, one per
iteration of a loop that runs its body exactly `amount = 10` times, each a
four-vertex triangle strip with the blur shader; the draw log of the frame is
the log at the end of the scene pass, then these ten draws, then the single
draw of the composite stage, which therefore comes after every blur draw. -/
theorem frame_blur_before_composite (h : Handles) (sh : Shaders) (names : Nat × Nat)
    (scene : ScenePass) (now : ℚ) (w : Window) (s : State) :
    amount = 10 ∧
    blurFor h sh names amount 0 (blurInit sh (frameScene scene now w s).2)
      = (blurIteration h sh names)^[10] (blurInit sh (frameScene scene now w s).2) ∧
    (blurDraws h sh names amount (frameScene scene now w s).2).length = 10 ∧
    (∀ d ∈ blurDraws h sh names amount (frameScene scene now w s).2,
      d.program = sh.blurShader.ID ∧ d.mode = GL_TRIANGLE_STRIP ∧ d.first = 0 ∧
      d.count = 4) ∧
    ∃ comp,
      (renderFrame h sh names scene now w s).2.gl.draws
        = (frameScene scene now w s).2.gl.draws
          ++ blurDraws h sh names amount (frameScene scene now w s).2 ++ [comp] ∧
      comp.program = sh.bloomFinalShader.ID ∧
      comp.tex2D 1
        = h.pingpongColorbuffers (boolIdx
            (!(blurStage h sh names amount (frameScene scene now w s).2).horizontal)) := by
  refine ⟨rfl, ?_, blurDraws_length _ _ _ _ _, ?_, ?_⟩
  · exact blurFor_eq_iterate h sh names amount 10 0 _ rfl
  · intro d hd
    rw [blurDraws_eq] at hd
    obtain ⟨j, _, rfl⟩ := List.mem_map.1 hd
    exact ⟨by rw [iterDraw_program, blurEntry_program], rfl, rfl, rfl⟩
  · refine ⟨_, postProcessN_draws h sh names amount (frameScene scene now w s).2, ?_, ?_⟩
    · exact (compositeDraw_fields h sh names _ _).2.1
    · exact (compositeDraw_fields h sh names _ _).2.2.2.1

/-- C7: in every frame the composite stage issues exactly one draw, the last
of the frame, a four-vertex triangle strip with the default framebuffer 0
bound, `colorBuffers[0]` on texture unit 0 and a ping-pong colour texture on
unit 1, and with the uniforms `bloom` and `exposure` of the final shader equal
to the globals `bloom` and `exposure` as the `processInput` call of that
frame left them. -/
theorem frame_composite_draw (h : Handles) (sh : Shaders) (names : Nat × Nat)
    (scene : ScenePass) (now : ℚ) (w : Window) (s : State) :
    ∃ comp,
      (renderFrame h sh names scene now w s).2.gl.draws
        = (blurStage h sh names amount (frameScene scene now w s).2).st.gl.draws
          ++ [comp] ∧
      comp.mode = GL_TRIANGLE_STRIP ∧ comp.first = 0 ∧ comp.count = 4 ∧
      comp.framebuffer = 0 ∧
      comp.program = sh.bloomFinalShader.ID ∧
      comp.tex2D 0 = h.colorBuffers 0 ∧
      (∃ k, comp.tex2D 1 = h.pingpongColorbuffers k) ∧
      comp.uniformI "bloom" = some (boolToInt (frameInput now w s.app).2.bloom) ∧
      comp.uniformF "exposure" = some (frameInput now w s.app).2.exposure ∧
      (frameInput now w s.app).2
        = (processInput w
            { s.app with deltaTime := now - s.app.lastFrame, lastFrame := now }).2 := by
  have hf := compositeDraw_fields h sh names
    (blurStage h sh names amount (frameScene scene now w s).2).horizontal
    (blurStage h sh names amount (frameScene scene now w s).2).st
  have hp := postProcessN_composite_fields h sh names amount (frameScene scene now w s).2
  refine ⟨_, compositeStage_draws h sh names _ _, hf.2.2.2.2.2.2.1, hf.2.2.2.2.2.2.2.1,
    hf.2.2.2.2.2.2.2.2, hp.1, hf.2.1, hf.2.2.1, ⟨_, hf.2.2.2.1⟩, ?_, ?_, rfl⟩
  · rw [hp.2.1, (frameScene_app scene now w s).1]
  · rw [hp.2.2, (frameScene_app scene now w s).2]

/-! ## Results on `processInput` -/

theorem glfwGetKey_inputEscape (w : Window) (key : Nat) :
    glfwGetKey (inputEscape w) key = glfwGetKey w key := by
  unfold inputEscape glfwGetKey glfwSetWindowShouldClose
  split <;> rfl

theorem glfwGetKey_press (w : Window) (key : Nat) :
    (glfwGetKey w key = GLFW_PRESS) = (w.keyDown key = true) := by
  unfold glfwGetKey
  cases w.keyDown key <;> simp [GLFW_PRESS, GLFW_RELEASE]

theorem glfwGetKey_release (w : Window) (key : Nat) :
    (glfwGetKey w key = GLFW_RELEASE) = (w.keyDown key = false) := by
  unfold glfwGetKey
  cases w.keyDown key <;> simp [GLFW_PRESS, GLFW_RELEASE]

theorem inputMove_fields (w : Window) (a : Globals) :
    (inputMove w a).bloom = a.bloom ∧
    (inputMove w a).bloomKeyPressed = a.bloomKeyPressed ∧
    (inputMove w a).exposure = a.exposure ∧
    (inputMove w a).heightScale = a.heightScale := by
  unfold inputMove cameraProcessKeyboard
  refine ⟨?_, ?_, ?_, ?_⟩ <;> (simp only []; repeat' split) <;> rfl

theorem inputHeightScale_fields (w : Window) (a : Globals) :
    (inputHeightScale w a).bloom = a.bloom ∧
    (inputHeightScale w a).bloomKeyPressed = a.bloomKeyPressed ∧
    (inputHeightScale w a).exposure = a.exposure := by
  unfold inputHeightScale
  refine ⟨?_, ?_, ?_⟩ <;> (repeat' split) <;> rfl

theorem inputBloom_exposure (w : Window) (a : Globals) :
    (inputBloom w a).exposure = a.exposure := by
  unfold inputBloom
  simp only []
  repeat' split
  all_goals rfl

theorem inputExposure_fields (w : Window) (a : Globals) :
    (inputExposure w a).bloom = a.bloom ∧
    (inputExposure w a).bloomKeyPressed = a.bloomKeyPressed := by
  unfold inputExposure
  refine ⟨?_, ?_⟩ <;> (repeat' split) <;> rfl

theorem inputBloom_bloom (w : Window) (a : Globals) :
    (inputBloom w a).bloom
      = if w.keyDown GLFW_KEY_SPACE = true ∧ a.bloomKeyPressed = false then !a.bloom
        else a.bloom := by
  unfold inputBloom
  simp only [glfwGetKey_press, glfwGetKey_release]
  cases hk : w.keyDown GLFW_KEY_SPACE <;> cases hb : a.bloomKeyPressed <;> simp [hb]

theorem inputBloom_keyPressed (w : Window) (a : Globals) :
    (inputBloom w a).bloomKeyPressed = w.keyDown GLFW_KEY_SPACE := by
  unfold inputBloom
  simp only [glfwGetKey_press, glfwGetKey_release]
  cases hk : w.keyDown GLFW_KEY_SPACE <;> cases hb : a.bloomKeyPressed <;> simp [hb]

theorem inputExposure_exposure (w : Window) (a : Globals) :
    (inputExposure w a).exposure
      = if w.keyDown GLFW_KEY_Z = true then
          (if a.exposure > 0 then a.exposure - 1 / 1000 else 0)
        else if w.keyDown GLFW_KEY_C = true then a.exposure + 1 / 1000
        else a.exposure := by
  unfold inputExposure
  simp only [glfwGetKey_press]
  repeat' split
  all_goals rfl

theorem inputEscape_keyDown (w : Window) : (inputEscape w).keyDown = w.keyDown := by
  unfold inputEscape glfwSetWindowShouldClose
  split <;> rfl

theorem processInput_bloom (w : Window) (a : Globals) :
    (processInput w a).2.bloom
      = if w.keyDown GLFW_KEY_SPACE = true ∧ a.bloomKeyPressed = false then !a.bloom
        else a.bloom := by
  unfold processInput
  simp only [(inputExposure_fields _ _).1, inputBloom_bloom, inputEscape_keyDown,
    (inputHeightScale_fields _ _).1, (inputHeightScale_fields _ _).2.1,
    (inputMove_fields _ _).1, (inputMove_fields _ _).2.1]

theorem processInput_keyPressed (w : Window) (a : Globals) :
    (processInput w a).2.bloomKeyPressed = w.keyDown GLFW_KEY_SPACE := by
  unfold processInput
  simp only [(inputExposure_fields _ _).2, inputBloom_keyPressed, inputEscape_keyDown]

theorem processInputs_cons (k : Nat → Bool) (keys : List (Nat → Bool))
    (wa : Window × Globals) :
    processInputs (k :: keys) wa
      = processInputs keys (processInput { wa.1 with keyDown := k } wa.2) := rfl

/-- The bloom flag and the key latch after a run of frames, from any latch state. -/
theorem processInputs_bloom (keys : List (Nat → Bool)) :
    ∀ (w : Window) (a : Globals),
      (processInputs keys (w, a)).2.bloom
        = (fun b => !b)^[risingEdges a.bloomKeyPressed (spaceStates keys)] a.bloom ∧
      (processInputs keys (w, a)).2.bloomKeyPressed
        = (spaceStates keys).getLast?.getD a.bloomKeyPressed := by
  induction keys with
  | nil => intro w a; exact ⟨rfl, rfl⟩
  | cons k keys ih =>
    intro w a
    rw [processInputs_cons]
    obtain ⟨ih1, ih2⟩ := ih (processInput { w with keyDown := k } a).1
      (processInput { w with keyDown := k } a).2
    rw [ih1, ih2, processInput_keyPressed, processInput_bloom]
    refine ⟨?_, ?_⟩
    · simp only [spaceStates, List.map_cons, risingEdges]
      by_cases hc : k GLFW_KEY_SPACE = true ∧ a.bloomKeyPressed = false
      · rw [if_pos hc, if_pos hc, Nat.add_comm, Function.iterate_succ_apply]
      · rw [if_neg hc, if_neg hc, Nat.zero_add]
    · simp only [spaceStates, List.map_cons]
      cases hm : keys.map (fun k => k GLFW_KEY_SPACE) with
      | nil => rfl
      | cons x xs =>
        rw [List.getLast?_eq_getLast _ (List.cons_ne_nil x xs)]
        rfl

theorem risingEdges_held (n : Nat) :
    risingEdges true (List.replicate n true) = 0 := by
  induction n with
  | zero => rfl
  | succ n ih => simp [List.replicate_succ, risingEdges, ih]

theorem spaceStates_held (keys : List (Nat → Bool))
    (hall : ∀ k ∈ keys, k GLFW_KEY_SPACE = true) :
    spaceStates keys = List.replicate keys.length true := by
  induction keys with
  | nil => rfl
  | cons k keys ih =>
    simp only [spaceStates, List.map_cons, List.length_cons, List.replicate_succ]
    rw [hall k (List.mem_cons_self _ _)]
    exact congrArg _ (ih (fun k hk => hall k (List.mem_cons_of_mem _ hk)))

/-- C8: the bloom flag is edge-triggered by the space key. Starting with
`bloomKeyPressed = false`, after the `processInput` calls of any finite
sequence of frames the bloom flag is its initial value flipped once for each
frame whose space state is pressed while that of the frame before is released
(released before the first frame), and `bloomKeyPressed` equals the space
state of the last frame; holding space over any positive number of frames
flips bloom exactly once. -/
theorem bloom_edge_triggered (keys : List (Nat → Bool)) (w : Window) (a : Globals)
    (hk : a.bloomKeyPressed = false) :
    (processInputs keys (w, a)).2.bloom
      = (fun b => !b)^[risingEdges false (spaceStates keys)] a.bloom ∧
    (processInputs keys (w, a)).2.bloomKeyPressed = (spaceStates keys).getLast?.getD false ∧
    (keys ≠ [] → (∀ k ∈ keys, k GLFW_KEY_SPACE = true) →
      risingEdges false (spaceStates keys) = 1 ∧
      (processInputs keys (w, a)).2.bloom = !a.bloom) := by
  have hmain := processInputs_bloom keys w a
  rw [hk] at hmain
  refine ⟨hmain.1, hmain.2, ?_⟩
  intro hne hall
  have hr : risingEdges false (spaceStates keys) = 1 := by
    rw [spaceStates_held keys hall]
    cases keys with
    | nil => exact absurd rfl hne
    | cons k ks => simp [List.replicate_succ, risingEdges, risingEdges_held]
  refine ⟨hr, ?_⟩
  rw [hmain.1, hr]
  rfl

/-- C8 instantiated: three frames with space held, from the initial globals. -/
theorem bloom_edge_triggered_witness :
    Globals.init.bloomKeyPressed = false ∧
    ((processInputs spaceHeld (demoWindow, Globals.init)).2.bloom
      = (fun b => !b)^[risingEdges false (spaceStates spaceHeld)] Globals.init.bloom ∧
    (processInputs spaceHeld (demoWindow, Globals.init)).2.bloomKeyPressed
      = (spaceStates spaceHeld).getLast?.getD false ∧
    (spaceHeld ≠ [] → (∀ k ∈ spaceHeld, k GLFW_KEY_SPACE = true) →
      risingEdges false (spaceStates spaceHeld) = 1 ∧
      (processInputs spaceHeld (demoWindow, Globals.init)).2.bloom = !Globals.init.bloom)) :=
  ⟨rfl, bloom_edge_triggered spaceHeld demoWindow Globals.init rfl⟩

theorem processInput_exposure (w : Window) (a : Globals) :
    (processInput w a).2.exposure
      = if w.keyDown GLFW_KEY_Z = true then
          (if a.exposure > 0 then a.exposure - 1 / 1000 else 0)
        else if w.keyDown GLFW_KEY_C = true then a.exposure + 1 / 1000
        else a.exposure := by
  unfold processInput
  simp only [inputExposure_exposure, inputEscape_keyDown, inputBloom_exposure,
    (inputHeightScale_fields _ _).2.2, (inputMove_fields _ _).2.2.1]

/-- C9 at its failing input: with `exposure = 40049 / 2^32`, which is not
negative, and the Z key down, one call of `processInput` leaves a negative
`exposure`. -/
theorem exposure_negative_after_decrement :
    0 ≤ lowExposure.exposure ∧ (processInput zWindow lowExposure).2.exposure < 0 := by
  rw [processInput_exposure]
  simp only [zWindow, lowExposure, Globals.init, decide_True, if_true]
  norm_num

/-- With Z up and C down, `n` calls of `processInput` add `n` steps of 0.001. -/
theorem processInput_exposure_iterate (w : Window) (hz : w.keyDown GLFW_KEY_Z = false)
    (hc : w.keyDown GLFW_KEY_C = true) (n : Nat) :
    ∀ a : Globals,
      ((fun b => (processInput w b).2)^[n] a).exposure = a.exposure + n * (1 / 1000) := by
  induction n with
  | zero => intro a; simp
  | succ n ih =>
    intro a
    rw [Function.iterate_succ_apply, ih, processInput_exposure]
    simp only [hz, hc, Bool.false_eq_true, if_false, if_true]
    push_cast
    ring

/-- Under exact arithmetic, one call of `processInput` changes `exposure` as
follows, for every prior value `e`: with Z down the result is `e - 0.001` when
`e > 0` and `0` otherwise, whatever the state of C; with Z up and C down it is
`e + 0.001`; with both up it is `e`. With Z up and C down, `n` successive calls
give `e + n * 0.001` for every `n`. -/
theorem exposure_step (w : Window) (a : Globals) (n : Nat) :
    (processInput w a).2.exposure
      = (if w.keyDown GLFW_KEY_Z = true then
          (if a.exposure > 0 then a.exposure - 1 / 1000 else 0)
        else if w.keyDown GLFW_KEY_C = true then a.exposure + 1 / 1000
        else a.exposure) ∧
    (w.keyDown GLFW_KEY_Z = true → a.exposure > 0 →
      (processInput w a).2.exposure = a.exposure - 1 / 1000) ∧
    (w.keyDown GLFW_KEY_Z = true → ¬ a.exposure > 0 →
      (processInput w a).2.exposure = 0) ∧
    (w.keyDown GLFW_KEY_Z = false → w.keyDown GLFW_KEY_C = true →
      (processInput w a).2.exposure = a.exposure + 1 / 1000 ∧
      ((fun b => (processInput w b).2)^[n] a).exposure = a.exposure + n * (1 / 1000)) ∧
    (w.keyDown GLFW_KEY_Z = false → w.keyDown GLFW_KEY_C = false →
      (processInput w a).2.exposure = a.exposure) := by
  refine ⟨processInput_exposure w a, ?_, ?_, ?_, ?_⟩
  · intro hz he
    rw [processInput_exposure, if_pos hz, if_pos he]
  · intro hz he
    rw [processInput_exposure, if_pos hz, if_neg he]
  · intro hz hc
    refine ⟨?_, processInput_exposure_iterate w hz hc n a⟩
    rw [processInput_exposure]
    simp [hz, hc]
  · intro hz hc
    rw [processInput_exposure]
    simp [hz, hc]

/-- The exact steps instantiated: Z down on the initial globals
(`exposure = 1`), C down for five frames on a window with only C down. -/
theorem exposure_step_witness :
    (zWindow.keyDown GLFW_KEY_Z = true ∧ Globals.init.exposure > 0 ∧
      (processInput zWindow Globals.init).2.exposure = Globals.init.exposure - 1 / 1000) ∧
    (cWindow.keyDown GLFW_KEY_Z = false ∧ cWindow.keyDown GLFW_KEY_C = true ∧
      (processInput cWindow Globals.init).2.exposure = Globals.init.exposure + 1 / 1000 ∧
      ((fun b => (processInput cWindow b).2)^[5] Globals.init).exposure
        = Globals.init.exposure + (5 : Nat) * (1 / 1000)) ∧
    (demoWindow.keyDown GLFW_KEY_Z = false ∧ demoWindow.keyDown GLFW_KEY_C = false ∧
      (processInput demoWindow Globals.init).2.exposure = Globals.init.exposure) :=
  ⟨⟨by decide, by decide,
      (exposure_step zWindow Globals.init 5).2.1 (by decide) (by decide)⟩,
   ⟨by decide, by decide,
      (exposure_step cWindow Globals.init 5).2.2.2.1 (by decide) (by decide)⟩,
   ⟨by decide, by decide,
      (exposure_step demoWindow Globals.init 5).2.2.2.2 (by decide) (by decide)⟩⟩

/-! ## Results on the framebuffer set-up -/

theorem hdrColorBufferStep_fields (h : Handles) (g : GLState) (i : Fin 2) :
    (hdrColorBufferStep h g i).framebuffer = g.framebuffer ∧
    (hdrColorBufferStep h g i).rbAttachment = g.rbAttachment ∧
    (hdrColorBufferStep h g i).drawBuffers = g.drawBuffers ∧
    (hdrColorBufferStep h g i).renderbuffer = g.renderbuffer ∧
    (hdrColorBufferStep h g i).attachment
      = if g.framebuffer = 0 then g.attachment
        else fun f p =>
          if f = g.framebuffer ∧ p = GL_COLOR_ATTACHMENT0 + i.val then h.colorBuffers i
          else g.attachment f p := by
  unfold hdrColorBufferStep glFramebufferTexture2D
  by_cases hf : g.framebuffer = 0
  · simp [hf, glBindTexture, glTexImage2D, glTexParameteri]
  · simp [hf, glBindTexture, glTexImage2D, glTexParameteri]

theorem setupHdrFramebuffer_fields (h : Handles) (status : Nat → Nat) (s : State)
    (hz : h.hdrFBO ≠ 0) :
    (setupHdrFramebuffer h status s).gl.attachment
      = (fun f p =>
          if f = h.hdrFBO ∧ p = GL_COLOR_ATTACHMENT0 + 1 then h.colorBuffers 1
          else if f = h.hdrFBO ∧ p = GL_COLOR_ATTACHMENT0 + 0 then h.colorBuffers 0
          else s.gl.attachment f p) ∧
    (setupHdrFramebuffer h status s).gl.rbAttachment
      = (fun f p =>
          if f = h.hdrFBO ∧ p = GL_DEPTH_ATTACHMENT then h.rboDepth
          else s.gl.rbAttachment f p) ∧
    (setupHdrFramebuffer h status s).gl.drawBuffers
      = (fun f =>
          if f = h.hdrFBO then some [GL_COLOR_ATTACHMENT0, GL_COLOR_ATTACHMENT1]
          else s.gl.drawBuffers f) := by
  have e0 := hdrColorBufferStep_fields h (glBindFramebuffer GL_FRAMEBUFFER h.hdrFBO s.gl) 0
  have e1 := hdrColorBufferStep_fields h
    (hdrColorBufferStep h (glBindFramebuffer GL_FRAMEBUFFER h.hdrFBO s.gl) 0) 1
  have hb : (glBindFramebuffer GL_FRAMEBUFFER h.hdrFBO s.gl).framebuffer = h.hdrFBO := rfl
  rw [e0.1, hb] at e1
  rw [hb] at e0
  simp only [hz, if_false] at e0 e1
  have tail : ∀ g2 : GLState, g2.framebuffer = h.hdrFBO →
      (glBindFramebuffer GL_FRAMEBUFFER 0
        (glDrawBuffers [GL_COLOR_ATTACHMENT0, GL_COLOR_ATTACHMENT1]
          (glFramebufferRenderbuffer GL_DEPTH_ATTACHMENT h.rboDepth
            (glRenderbufferStorage GL_RENDERBUFFER GL_DEPTH_COMPONENT SCR_WIDTH SCR_HEIGHT
              (glBindRenderbuffer GL_RENDERBUFFER h.rboDepth g2))))).attachment
        = g2.attachment ∧
      (glBindFramebuffer GL_FRAMEBUFFER 0
        (glDrawBuffers [GL_COLOR_ATTACHMENT0, GL_COLOR_ATTACHMENT1]
          (glFramebufferRenderbuffer GL_DEPTH_ATTACHMENT h.rboDepth
            (glRenderbufferStorage GL_RENDERBUFFER GL_DEPTH_COMPONENT SCR_WIDTH SCR_HEIGHT
              (glBindRenderbuffer GL_RENDERBUFFER h.rboDepth g2))))).rbAttachment
        = (fun f p =>
            if f = h.hdrFBO ∧ p = GL_DEPTH_ATTACHMENT then h.rboDepth
            else g2.rbAttachment f p) ∧
      (glBindFramebuffer GL_FRAMEBUFFER 0
        (glDrawBuffers [GL_COLOR_ATTACHMENT0, GL_COLOR_ATTACHMENT1]
          (glFramebufferRenderbuffer GL_DEPTH_ATTACHMENT h.rboDepth
            (glRenderbufferStorage GL_RENDERBUFFER GL_DEPTH_COMPONENT SCR_WIDTH SCR_HEIGHT
              (glBindRenderbuffer GL_RENDERBUFFER h.rboDepth g2))))).drawBuffers
        = (fun f =>
            if f = h.hdrFBO then some [GL_COLOR_ATTACHMENT0, GL_COLOR_ATTACHMENT1]
            else g2.drawBuffers f) := by
    intro g2 hg2
    simp [glBindFramebuffer, glDrawBuffers, glFramebufferRenderbuffer, glRenderbufferStorage,
      glBindRenderbuffer, hg2, hz]
  have hgl : (setupHdrFramebuffer h status s).gl
      = glBindFramebuffer GL_FRAMEBUFFER 0
        (glDrawBuffers [GL_COLOR_ATTACHMENT0, GL_COLOR_ATTACHMENT1]
          (glFramebufferRenderbuffer GL_DEPTH_ATTACHMENT h.rboDepth
            (glRenderbufferStorage GL_RENDERBUFFER GL_DEPTH_COMPONENT SCR_WIDTH SCR_HEIGHT
              (glBindRenderbuffer GL_RENDERBUFFER h.rboDepth
                (hdrColorBufferStep h
                  (hdrColorBufferStep h (glBindFramebuffer GL_FRAMEBUFFER h.hdrFBO s.gl) 0)
                  1))))) := rfl
  obtain ⟨ta, tr, td⟩ := tail _ e1.1
  rw [hgl]
  refine ⟨?_, ?_, ?_⟩
  · rw [ta, e1.2.2.2.2, e0.2.2.2.2]; rfl
  · rw [tr, e1.2.1, e0.2.1]; rfl
  · rw [td, e1.2.2.1, e0.2.2.1]; rfl

theorem pingpongStep_fields (h : Handles) (status : Nat → Nat) (s : State) (i : Fin 2)
    (hz : h.pingpongFBO i ≠ 0) :
    (pingpongStep h status s i).gl.attachment
      = (fun f p =>
          if f = h.pingpongFBO i ∧ p = GL_COLOR_ATTACHMENT0 then h.pingpongColorbuffers i
          else s.gl.attachment f p) ∧
    (pingpongStep h status s i).gl.rbAttachment = s.gl.rbAttachment ∧
    (pingpongStep h status s i).gl.drawBuffers = s.gl.drawBuffers ∧
    (pingpongStep h status s i).app = s.app := by
  unfold pingpongStep glFramebufferTexture2D
  simp [hz, glBindTexture, glTexImage2D, glTexParameteri, glBindFramebuffer]

theorem setupFramebuffers_fields (h : Handles) (status : Nat → Nat) (s : State)
    (hz : h.hdrFBO ≠ 0) (hpz : ∀ k, h.pingpongFBO k ≠ 0) :
    (setupFramebuffers h status s).gl.attachment
      = (fun f p =>
          if f = h.pingpongFBO 1 ∧ p = GL_COLOR_ATTACHMENT0 then h.pingpongColorbuffers 1
          else if f = h.pingpongFBO 0 ∧ p = GL_COLOR_ATTACHMENT0 then
            h.pingpongColorbuffers 0
          else if f = h.hdrFBO ∧ p = GL_COLOR_ATTACHMENT0 + 1 then h.colorBuffers 1
          else if f = h.hdrFBO ∧ p = GL_COLOR_ATTACHMENT0 + 0 then h.colorBuffers 0
          else s.gl.attachment f p) ∧
    (setupFramebuffers h status s).gl.rbAttachment
      = (fun f p =>
          if f = h.hdrFBO ∧ p = GL_DEPTH_ATTACHMENT then h.rboDepth
          else s.gl.rbAttachment f p) ∧
    (setupFramebuffers h status s).gl.drawBuffers
      = (fun f =>
          if f = h.hdrFBO then some [GL_COLOR_ATTACHMENT0, GL_COLOR_ATTACHMENT1]
          else s.gl.drawBuffers f) := by
  have eh := setupHdrFramebuffer_fields h status s hz
  have e0 := pingpongStep_fields h status (setupHdrFramebuffer h status s) 0 (hpz 0)
  have e1 := pingpongStep_fields h status
    (pingpongStep h status (setupHdrFramebuffer h status s) 0) 1 (hpz 1)
  have e : setupFramebuffers h status s
      = pingpongStep h status (pingpongStep h status (setupHdrFramebuffer h status s) 0) 1 :=
    rfl
  rw [e]
  refine ⟨?_, ?_, ?_⟩
  · rw [e1.1, e0.1, eh.1]
  · rw [e1.2.1, e0.2.1, eh.2.1]
  · rw [e1.2.2.1, e0.2.2.1, eh.2.2]

/-- C11: the framebuffer set-up attaches every colour texture at the index it
is stored under. `colorBuffers[i]` is at colour attachment point `i` of the
HDR framebuffer for `i = 0, 1`, both points are its draw buffers and
`rboDepth` is its depth renderbuffer; `pingpongColorbuffers[i]` is at colour
attachment 0 of `pingpongFBO[i]`, and the ping-pong framebuffers get no
renderbuffer at any point (so no depth attachment) and no texture at any other
point. The framebuffer names are non-zero and pairwise distinct, as
`glGenFramebuffers` returns them, and newly generated. -/
theorem setup_attachments (h : Handles) (status : Nat → Nat) (s : State)
    (hz : h.hdrFBO ≠ 0) (hpz : ∀ k, h.pingpongFBO k ≠ 0)
    (hd : h.pingpongFBO 0 ≠ h.pingpongFBO 1) (hhp : ∀ k, h.hdrFBO ≠ h.pingpongFBO k)
    (hnew : ∀ k p, s.gl.rbAttachment (h.pingpongFBO k) p = 0 ∧
      s.gl.attachment (h.pingpongFBO k) p = 0) :
    (∀ i : Fin 2, (setupFramebuffers h status s).gl.attachment h.hdrFBO
        (GL_COLOR_ATTACHMENT0 + i.val) = h.colorBuffers i) ∧
    (setupFramebuffers h status s).gl.drawBuffers h.hdrFBO
      = some [GL_COLOR_ATTACHMENT0, GL_COLOR_ATTACHMENT1] ∧
    (setupFramebuffers h status s).gl.rbAttachment h.hdrFBO GL_DEPTH_ATTACHMENT
      = h.rboDepth ∧
    (∀ i : Fin 2, (setupFramebuffers h status s).gl.attachment (h.pingpongFBO i)
        GL_COLOR_ATTACHMENT0 = h.pingpongColorbuffers i) ∧
    (∀ (i : Fin 2) (p : Nat),
      (setupFramebuffers h status s).gl.rbAttachment (h.pingpongFBO i) p = 0) ∧
    (∀ i : Fin 2, (setupFramebuffers h status s).gl.rbAttachment (h.pingpongFBO i)
        GL_DEPTH_ATTACHMENT = 0) ∧
    (∀ (i : Fin 2) (p : Nat), p ≠ GL_COLOR_ATTACHMENT0 →
      (setupFramebuffers h status s).gl.attachment (h.pingpongFBO i) p = 0) := by
  obtain ⟨ea, er, ed⟩ := setupFramebuffers_fields h status s hz hpz
  have hrb : ∀ (i : Fin 2) (p : Nat),
      (setupFramebuffers h status s).gl.rbAttachment (h.pingpongFBO i) p = 0 := by
    intro i p
    rw [er]
    simp only [Ne.symm (hhp i), false_and, if_false]
    exact (hnew i p).1
  refine ⟨?_, ?_, ?_, setup_pingpongAttached h status s hd hpz, hrb, fun i => hrb i _, ?_⟩
  · intro i
    rw [ea]
    have h0 := hhp 0
    have h1 := hhp 1
    fin_cases i <;> simp [h0, h1]
  · rw [ed]; simp
  · rw [er]; simp
  · intro i p hp
    rw [ea]
    have hh := Ne.symm (hhp i)
    simp only [hp, and_false, if_false, hh, false_and]
    exact (hnew i p).2

/-- C11 instantiated: the demo handles on a fresh context. -/
theorem setup_attachments_witness :
    demoHandles.hdrFBO ≠ 0 ∧ (∀ k, demoHandles.pingpongFBO k ≠ 0) ∧
    demoHandles.pingpongFBO 0 ≠ demoHandles.pingpongFBO 1 ∧
    (∀ k, demoHandles.hdrFBO ≠ demoHandles.pingpongFBO k) ∧
    (∀ (i : Fin 2), demoState.gl.attachment demoHandles.hdrFBO
        (GL_COLOR_ATTACHMENT0 + i.val) = demoHandles.colorBuffers i) ∧
    demoState.gl.drawBuffers demoHandles.hdrFBO
      = some [GL_COLOR_ATTACHMENT0, GL_COLOR_ATTACHMENT1] ∧
    demoState.gl.rbAttachment demoHandles.hdrFBO GL_DEPTH_ATTACHMENT
      = demoHandles.rboDepth ∧
    (∀ i : Fin 2, demoState.gl.attachment (demoHandles.pingpongFBO i)
        GL_COLOR_ATTACHMENT0 = demoHandles.pingpongColorbuffers i) ∧
    (∀ (i : Fin 2) (p : Nat), demoState.gl.rbAttachment (demoHandles.pingpongFBO i) p = 0) ∧
    (∀ i : Fin 2, demoState.gl.rbAttachment (demoHandles.pingpongFBO i)
        GL_DEPTH_ATTACHMENT = 0) ∧
    (∀ (i : Fin 2) (p : Nat), p ≠ GL_COLOR_ATTACHMENT0 →
      demoState.gl.attachment (demoHandles.pingpongFBO i) p = 0) :=
  ⟨by decide, by decide, by decide, by decide,
    setup_attachments demoHandles demoStatus
      { app := Globals.init, gl := GLState.init, out := [] }
      (by decide) (by decide) (by decide) (by decide) (fun _ _ => ⟨rfl, rfl⟩)⟩

theorem setupFramebuffersAt_screen (h : Handles) (status : Nat → Nat) (s : State) :
    setupFramebuffersAt SCR_WIDTH SCR_HEIGHT h status s = setupFramebuffers h status s := rfl

/-! ## Results on `loadTexture` -/

/-- The handle that `loadTexture` returns is the generated name, whatever the
decoder does. -/
theorem loadTexture_handle (textureID : Nat) (stbi_load : String → Option StbImage)
    (path : String) (s : State) : (loadTexture textureID stbi_load path s).1 = textureID := by
  unfold loadTexture
  cases stbi_load path <;> rfl

/-- C14: `loadTexture` signals a load failure only by a printed line. When the
decoder returns no data, the call prints `Texture failed to load at path: `
followed by the path, leaves the OpenGL context as it was (no image uploaded,
no texture parameter set, nothing bound) and the globals untouched, and
returns the texture name generated at entry; with any other decoder, also one
that succeeds, the returned handle is the same, so the result carries no
status. -/
theorem loadTexture_failure_only_logged (textureID : Nat)
    (stbi_load : String → Option StbImage) (path : String) (s : State)
    (hfail : stbi_load path = none) :
    (loadTexture textureID stbi_load path s).2.out
      = s.out ++ ["Texture failed to load at path: " ++ path] ∧
    (loadTexture textureID stbi_load path s).2.gl = s.gl ∧
    (loadTexture textureID stbi_load path s).2.gl.texImage = s.gl.texImage ∧
    (loadTexture textureID stbi_load path s).2.gl.texParam = s.gl.texParam ∧
    (loadTexture textureID stbi_load path s).2.app = s.app ∧
    (loadTexture textureID stbi_load path s).1 = textureID ∧
    (∀ other : String → Option StbImage,
      (loadTexture textureID other path s).1
        = (loadTexture textureID stbi_load path s).1) := by
  have e : loadTexture textureID stbi_load path s
      = (textureID, { s with out := s.out ++ ["Texture failed to load at path: " ++ path] }) := by
    unfold loadTexture
    rw [hfail]
  refine ⟨by rw [e], by rw [e], by rw [e], by rw [e], by rw [e], by rw [e], ?_⟩
  intro other
  rw [loadTexture_handle, loadTexture_handle]

/-- C14 instantiated: a failing decoder on the first texture of `main`. -/
theorem loadTexture_failure_only_logged_witness :
    failingDecoder "resources/textures/tree.png" = none ∧
    (loadTexture 9 failingDecoder "resources/textures/tree.png" demoState).2.out
      = demoState.out ++ ["Texture failed to load at path: " ++ "resources/textures/tree.png"] ∧
    (loadTexture 9 failingDecoder "resources/textures/tree.png" demoState).2.gl
      = demoState.gl ∧
    (loadTexture 9 failingDecoder "resources/textures/tree.png" demoState).1 = 9 ∧
    (loadTexture 9 rgbDecoder "resources/textures/tree.png" demoState).1
      = (loadTexture 9 failingDecoder "resources/textures/tree.png" demoState).1 :=
  have hw := loadTexture_failure_only_logged 9 failingDecoder "resources/textures/tree.png"
    demoState rfl
  ⟨rfl, hw.1, hw.2.1, hw.2.2.2.2.2.1, hw.2.2.2.2.2.2 rgbDecoder⟩

/-! ## Printed lines do not influence the rest of the state -/

theorem sameCore_iff (s t : State) : s.sameCore t ↔ t = s.withOut t.out := by
  constructor
  · rintro ⟨ha, hg⟩
    cases s; cases t
    simp only [State.withOut] at *
    simp_all
  · intro e
    rw [e]
    exact ⟨rfl, rfl⟩

theorem renderQuadForBloom_withOut (names : Nat × Nat) (o : List String) (s : State) :
    renderQuadForBloom names (s.withOut o) = (renderQuadForBloom names s).withOut o := by
  unfold renderQuadForBloom State.withOut
  split <;> rfl

theorem blurIteration_withOut (h : Handles) (sh : Shaders) (names : Nat × Nat)
    (o : List String) (L : BlurLoop) :
    blurIteration h sh names { L with st := L.st.withOut o }
      = { blurIteration h sh names L with st := (blurIteration h sh names L).st.withOut o } := by
  have e := renderQuadForBloom_withOut names o { L.st with gl := blurBind h sh L }
  unfold blurIteration
  simp only [blurBind, State.withOut] at e ⊢
  rw [e]

theorem blurIterate_withOut (h : Handles) (sh : Shaders) (names : Nat × Nat)
    (o : List String) (n : Nat) :
    ∀ L : BlurLoop,
      (blurIteration h sh names)^[n] { L with st := L.st.withOut o }
        = { (blurIteration h sh names)^[n] L with
            st := ((blurIteration h sh names)^[n] L).st.withOut o } := by
  induction n with
  | zero => intro L; rfl
  | succ n ih =>
    intro L
    rw [Function.iterate_succ_apply, Function.iterate_succ_apply, blurIteration_withOut, ih]

theorem postProcessN_withOut (h : Handles) (sh : Shaders) (names : Nat × Nat) (n : Nat)
    (o : List String) (s : State) :
    postProcessN h sh names n (s.withOut o) = (postProcessN h sh names n s).withOut o := by
  have hb : ∀ t : State, blurFor h sh names n 0 (blurInit sh t)
      = (blurIteration h sh names)^[n] (blurInit sh t) :=
    fun t => blurFor_eq_iterate h sh names n n 0 _ rfl
  have hi : blurInit sh (s.withOut o)
      = { blurInit sh s with st := (blurInit sh s).st.withOut o } := rfl
  have key : blurFor h sh names n 0 (blurInit sh (s.withOut o))
      = { blurFor h sh names n 0 (blurInit sh s) with
          st := (blurFor h sh names n 0 (blurInit sh s)).st.withOut o } := by
    rw [hb, hb, hi, blurIterate_withOut]
  have hs : blurStage h sh names n (s.withOut o)
      = { blurStage h sh names n s with st := (blurStage h sh names n s).st.withOut o } := by
    unfold blurStage
    rw [key]
    rfl
  unfold postProcessN
  rw [hs, compositeStage_eq, compositeStage_eq]
  exact renderQuadForBloom_withOut names o
    { (blurStage h sh names n s).st with
      gl := compositeBind h sh (blurStage h sh names n s).horizontal
        (blurStage h sh names n s).st }

theorem renderFrame_withOut (h : Handles) (sh : Shaders) (names : Nat × Nat)
    (scene : ScenePass) (now : ℚ) (w : Window) (o : List String) (s : State) :
    renderFrame h sh names scene now w (s.withOut o)
      = ((renderFrame h sh names scene now w s).1,
         (renderFrame h sh names scene now w s).2.withOut o) := by
  have e : (frameScene scene now w (s.withOut o))
      = ((frameScene scene now w s).1, (frameScene scene now w s).2.withOut o) := rfl
  unfold renderFrame postProcess
  simp only [e, postProcessN_withOut]

theorem dispatch_withOut (o : List String) (s : State) (e : Event) :
    dispatch (s.withOut o) e = (dispatch s e).withOut o := by
  cases e <;> rfl

theorem dispatchAll_withOut (o : List String) (es : List Event) :
    ∀ s : State, es.foldl dispatch (s.withOut o) = (es.foldl dispatch s).withOut o := by
  induction es with
  | nil => intro s; rfl
  | cons e es ih => intro s; rw [List.foldl_cons, List.foldl_cons, dispatch_withOut, ih]

theorem loopBody_withOut (h : Handles) (sh : Shaders) (names : Nat × Nat)
    (scene : ScenePass) (f : FrameIn) (o : List String) (L : LoopState) :
    loopBody h sh names scene f { L with st := L.st.withOut o }
      = { loopBody h sh names scene f L with
          st := (loopBody h sh names scene f L).st.withOut o } := by
  unfold loopBody glfwPollEvents
  simp only [renderFrame_withOut, dispatchAll_withOut]

theorem renderLoop_withOut (h : Handles) (sh : Shaders) (names : Nat × Nat)
    (scene : ScenePass) (o : List String) (frames : List FrameIn) :
    ∀ L : LoopState,
      renderLoop h sh names scene frames { L with st := L.st.withOut o }
        = { renderLoop h sh names scene frames L with
            st := (renderLoop h sh names scene frames L).st.withOut o } := by
  induction frames with
  | nil => intro L; rfl
  | cons f fs ih =>
    intro L
    unfold renderLoop
    by_cases hc : glfwWindowShouldClose L.w = true
    · simp only [hc, if_true]
    · simp only [hc, if_false]
      rw [loopBody_withOut, ih]
      rfl

/-! ## What the framebuffer set-up prints -/

theorem hdrColorBufferStepAt_framebuffer (width height : Nat) (h : Handles) (g : GLState)
    (i : Fin 2) : (hdrColorBufferStepAt width height h g i).framebuffer = g.framebuffer := by
  unfold hdrColorBufferStepAt glFramebufferTexture2D
  by_cases hf : g.framebuffer = 0
  · simp [hf, glBindTexture, glTexImage2D, glTexParameteri]
  · simp [hf, glBindTexture, glTexImage2D, glTexParameteri]

theorem setupHdrFramebufferAt_out (width height : Nat) (h : Handles) (status : Nat → Nat)
    (s : State) :
    (setupHdrFramebufferAt width height h status s).out
      = s.out ++ (if status h.hdrFBO ≠ GL_FRAMEBUFFER_COMPLETE then
          ["Framebuffer not complete!"] else []) := by
  have hf : (hdrColorBufferStepAt width height h
      (hdrColorBufferStepAt width height h (glBindFramebuffer GL_FRAMEBUFFER h.hdrFBO s.gl) 0)
      1).framebuffer = h.hdrFBO := by
    rw [hdrColorBufferStepAt_framebuffer, hdrColorBufferStepAt_framebuffer]
    rfl
  have hfb : ∀ g2 : GLState, g2.framebuffer = h.hdrFBO →
      (glDrawBuffers [GL_COLOR_ATTACHMENT0, GL_COLOR_ATTACHMENT1]
        (glFramebufferRenderbuffer GL_DEPTH_ATTACHMENT h.rboDepth
          (glRenderbufferStorage GL_RENDERBUFFER GL_DEPTH_COMPONENT width height
            (glBindRenderbuffer GL_RENDERBUFFER h.rboDepth g2)))).framebuffer = h.hdrFBO := by
    intro g2 hg2
    unfold glDrawBuffers glFramebufferRenderbuffer
    split
    · exact hg2
    · exact hg2
  have e : (setupHdrFramebufferAt width height h status s).out
      = if status (glDrawBuffers [GL_COLOR_ATTACHMENT0, GL_COLOR_ATTACHMENT1]
          (glFramebufferRenderbuffer GL_DEPTH_ATTACHMENT h.rboDepth
            (glRenderbufferStorage GL_RENDERBUFFER GL_DEPTH_COMPONENT width height
              (glBindRenderbuffer GL_RENDERBUFFER h.rboDepth
                (hdrColorBufferStepAt width height h
                  (hdrColorBufferStepAt width height h
                    (glBindFramebuffer GL_FRAMEBUFFER h.hdrFBO s.gl) 0) 1))))).framebuffer
            ≠ GL_FRAMEBUFFER_COMPLETE
        then s.out ++ ["Framebuffer not complete!"] else s.out := rfl
  rw [e, hfb _ hf]
  split <;> simp

theorem pingpongStepAt_out (width height : Nat) (h : Handles) (status : Nat → Nat)
    (s : State) (i : Fin 2) :
    (pingpongStepAt width height h status s i).out
      = s.out ++ (if status (h.pingpongFBO i) ≠ GL_FRAMEBUFFER_COMPLETE then
          ["Framebuffer not complete!"] else []) := by
  have hf : ∀ g2 : GLState, g2.framebuffer = h.pingpongFBO i →
      (glFramebufferTexture2D GL_COLOR_ATTACHMENT0 (h.pingpongColorbuffers i) g2).framebuffer
        = h.pingpongFBO i := by
    intro g2 hg2
    unfold glFramebufferTexture2D
    split
    · exact hg2
    · exact hg2
  have e : (pingpongStepAt width height h status s i).out
      = if status (glFramebufferTexture2D GL_COLOR_ATTACHMENT0 (h.pingpongColorbuffers i)
          (glTexParameteri GL_TEXTURE_2D GL_TEXTURE_WRAP_T GL_CLAMP_TO_EDGE
            (glTexParameteri GL_TEXTURE_2D GL_TEXTURE_WRAP_S GL_CLAMP_TO_EDGE
              (glTexParameteri GL_TEXTURE_2D GL_TEXTURE_MAG_FILTER GL_LINEAR
                (glTexParameteri GL_TEXTURE_2D GL_TEXTURE_MIN_FILTER GL_LINEAR
                  (glTexImage2D GL_TEXTURE_2D GL_RGBA16F width height GL_RGBA GL_FLOAT
                    (glBindTexture GL_TEXTURE_2D (h.pingpongColorbuffers i)
                      (glBindFramebuffer GL_FRAMEBUFFER (h.pingpongFBO i)
                        s.gl)))))))).framebuffer ≠ GL_FRAMEBUFFER_COMPLETE
        then s.out ++ ["Framebuffer not complete!"] else s.out := rfl
  rw [e, hf _ rfl]
  split <;> simp

theorem setupFramebuffersAt_out (width height : Nat) (h : Handles) (status : Nat → Nat)
    (s : State) :
    (setupFramebuffersAt width height h status s).out = s.out ++ incompleteLines h status := by
  have e : setupFramebuffersAt width height h status s
      = pingpongStepAt width height h status
          (pingpongStepAt width height h status
            (setupHdrFramebufferAt width height h status s) 0) 1 := rfl
  rw [e, pingpongStepAt_out, pingpongStepAt_out, setupHdrFramebufferAt_out]
  unfold incompleteLines
  by_cases c0 : status h.hdrFBO = GL_FRAMEBUFFER_COMPLETE <;>
    by_cases c1 : status (h.pingpongFBO 0) = GL_FRAMEBUFFER_COMPLETE <;>
    by_cases c2 : status (h.pingpongFBO 1) = GL_FRAMEBUFFER_COMPLETE <;>
    simp [c0, c1, c2, List.filter]

theorem setupFramebuffersAt_core (width height : Nat) (h : Handles)
    (status status' : Nat → Nat) (s t : State) (hst : s.sameCore t) :
    (setupFramebuffersAt width height h status s).sameCore
      (setupFramebuffersAt width height h status' t) ∧
    (setupFramebuffersAt width height h status s).app = s.app := by
  obtain ⟨ha, hg⟩ := hst
  refine ⟨⟨?_, ?_⟩, rfl⟩
  · exact ha
  · have e : ∀ (st : Nat → Nat) (u : State),
        (setupFramebuffersAt width height h st u).gl
          = (setupFramebuffersAt width height h st { u with out := [] }).gl := fun _ _ => rfl
    have e2 : ∀ (u : State), (setupFramebuffersAt width height h status u).gl
        = (setupFramebuffersAt width height h status' u).gl := fun _ => rfl
    have e3 : ({ s with out := [] } : State) = { t with out := [] } := by
      cases s; cases t; simp_all
    rw [e status s, e status' t, e3, e2]

/-! ## `main` after the framebuffer set-up -/

theorem loadTexture_core (textureID : Nat) (stbi_load : String → Option StbImage)
    (path : String) (s t : State) (hst : s.sameCore t) :
    (loadTexture textureID stbi_load path s).2.sameCore
      (loadTexture textureID stbi_load path t).2 := by
  obtain ⟨ha, hg⟩ := hst
  unfold loadTexture
  cases stbi_load path with
  | none => exact ⟨ha, hg⟩
  | some data =>
    refine ⟨ha, ?_⟩
    simp only [hg]

theorem loadTextures_core_aux (ids : Nat → Nat) (getPath : String → String)
    (stbi_load : String → Option StbImage) (l : List (Nat × String)) :
    ∀ (acc acc' : List Nat × State), acc.2.sameCore acc'.2 →
      (l.foldl (fun acc kp =>
          ((acc.1 ++ [(loadTexture (ids kp.1) stbi_load (getPath kp.2) acc.2).1],
            (loadTexture (ids kp.1) stbi_load (getPath kp.2) acc.2).2) : List Nat × State))
        acc).2.sameCore
      (l.foldl (fun acc kp =>
          ((acc.1 ++ [(loadTexture (ids kp.1) stbi_load (getPath kp.2) acc.2).1],
            (loadTexture (ids kp.1) stbi_load (getPath kp.2) acc.2).2) : List Nat × State))
        acc').2 := by
  induction l with
  | nil => intro acc acc' hc; exact hc
  | cons kp l ih =>
    intro acc acc' hc
    rw [List.foldl_cons, List.foldl_cons]
    exact ih _ _ (loadTexture_core _ _ _ _ _ hc)

theorem loadTextures_core (ids : Nat → Nat) (getPath : String → String)
    (stbi_load : String → Option StbImage) (s t : State) (hst : s.sameCore t) :
    (loadTextures ids getPath stbi_load s).2.sameCore
      (loadTextures ids getPath stbi_load t).2 :=
  loadTextures_core_aux ids getPath stbi_load _ ([], s) ([], t) hst

theorem startupState_core (width height : Nat) (env : MainEnv) (status' : Nat → Nat) :
    (startupState width height env).sameCore
      (startupState width height { env with status := status' }) := by
  unfold startupState
  have h1 := (setupFramebuffersAt_core width height env.h env.status status'
    { app := Globals.init, gl := env.preSetup GLState.init, out := [] }
    { app := Globals.init, gl := env.preSetup GLState.init, out := [] } ⟨rfl, rfl⟩).1
  have h2 := loadTextures_core env.textureIDs env.getPath env.stbi_load _ _ h1
  exact ⟨h2.1, by simp only [h2.2]⟩

theorem mainRunAt_eq (width height : Nat) (env : MainEnv)
    (hw : env.windowCreated = true) (hg : env.gladLoaded = true)
    (hx : 0 < width) (hy : 0 < height) :
    mainRunAt width height env
      = { exitCode :=
            if glfwWindowShouldClose
                (renderLoop env.h env.sh env.names env.scene env.frames
                  (startupLoop width height env)).w
            then some 0 else none,
          loop := renderLoop env.h env.sh env.names env.scene env.frames
            (startupLoop width height env) } := by
  have hc : glfwCreateWindow env.windowCreated width height = true := by
    unfold glfwCreateWindow
    simp [hw, hx, hy]
  unfold mainRunAt
  simp only [hc, hg, Bool.true_eq_false, if_false]
  rfl

/-- With window and loader in order, what `main` does after the framebuffer
set-up does not depend on the completeness answers, the printed lines apart. -/
theorem mainRunAt_core (width height : Nat) (env : MainEnv) (status' : Nat → Nat)
    (hw : env.windowCreated = true) (hg : env.gladLoaded = true)
    (hx : 0 < width) (hy : 0 < height) :
    (mainRunAt width height env).exitCode
      = (mainRunAt width height { env with status := status' }).exitCode ∧
    (mainRunAt width height env).loop.w
      = (mainRunAt width height { env with status := status' }).loop.w ∧
    (mainRunAt width height env).loop.swaps
      = (mainRunAt width height { env with status := status' }).loop.swaps ∧
    (mainRunAt width height env).loop.st.sameCore
      (mainRunAt width height { env with status := status' }).loop.st := by
  rw [mainRunAt_eq width height env hw hg hx hy,
    mainRunAt_eq width height { env with status := status' } hw hg hx hy]
  obtain ⟨o, ho⟩ : ∃ o, startupState width height { env with status := status' }
      = (startupState width height env).withOut o :=
    ⟨_, (sameCore_iff _ _).1 (startupState_core width height env status')⟩
  have hl : startupLoop width height { env with status := status' }
      = { startupLoop width height env with
          st := (startupLoop width height env).st.withOut o } := by
    unfold startupLoop
    rw [ho]
  rw [hl, renderLoop_withOut]
  exact ⟨rfl, rfl, rfl, rfl, rfl⟩

theorem mainRunAt_no_error (width height : Nat) (env : MainEnv)
    (hw : env.windowCreated = true) (hg : env.gladLoaded = true)
    (hx : 0 < width) (hy : 0 < height) :
    (mainRunAt width height env).exitCode ≠ some (-1) := by
  rw [mainRunAt_eq width height env hw hg hx hy]
  simp only []
  split <;> simp

theorem incompleteLines_count (h : Handles) (status : Nat → Nat) (c0 c1 c2 : Bool)
    (h0 : (status h.hdrFBO = GL_FRAMEBUFFER_COMPLETE) ↔ c0 = true)
    (h1 : (status (h.pingpongFBO 0) = GL_FRAMEBUFFER_COMPLETE) ↔ c1 = true)
    (h2 : (status (h.pingpongFBO 1) = GL_FRAMEBUFFER_COMPLETE) ↔ c2 = true) :
    incompleteLines h status
      = List.replicate (incompleteCount c0 c1 c2) "Framebuffer not complete!" := by
  unfold incompleteLines incompleteCount
  cases c0 <;> cases c1 <;> cases c2 <;> simp_all [List.filter, List.replicate]

/-- C12: framebuffer incompleteness is only logged. For every combination
`c0 c1 c2` of completeness results of the HDR framebuffer and the two
ping-pong framebuffers, the set-up prints `Framebuffer not complete!` exactly
once per incomplete framebuffer and changes nothing else by it (the state
after the set-up is, the printed lines apart, the one reached with any other
results); `main` returns no error value, goes on to texture loading and
enters the render loop, and its exit code, window, swap count and state are
the same for any other completeness results. -/
theorem framebuffer_incompleteness_only_logged (env : MainEnv) (status' : Nat → Nat)
    (s : State) (c0 c1 c2 : Bool)
    (hw : env.windowCreated = true) (hg : env.gladLoaded = true)
    (h0 : (env.status env.h.hdrFBO = GL_FRAMEBUFFER_COMPLETE) ↔ c0 = true)
    (h1 : (env.status (env.h.pingpongFBO 0) = GL_FRAMEBUFFER_COMPLETE) ↔ c1 = true)
    (h2 : (env.status (env.h.pingpongFBO 1) = GL_FRAMEBUFFER_COMPLETE) ↔ c2 = true) :
    (setupFramebuffers env.h env.status s).out
      = s.out ++ List.replicate (incompleteCount c0 c1 c2) "Framebuffer not complete!" ∧
    (setupFramebuffers env.h env.status s).sameCore (setupFramebuffers env.h status' s) ∧
    (mainRun env).exitCode ≠ some (-1) ∧
    (mainRun env).loop
      = renderLoop env.h env.sh env.names env.scene env.frames
          (startupLoop SCR_WIDTH SCR_HEIGHT env) ∧
    (startupLoop SCR_WIDTH SCR_HEIGHT env).st
      = { (loadTextures env.textureIDs env.getPath env.stbi_load
            (setupFramebuffers env.h env.status
              { app := Globals.init, gl := env.preSetup GLState.init, out := [] })).2 with
          gl := env.postLoad
            (loadTextures env.textureIDs env.getPath env.stbi_load
              (setupFramebuffers env.h env.status
                { app := Globals.init, gl := env.preSetup GLState.init, out := [] })).2.gl } ∧
    (mainRun env).exitCode = (mainRun { env with status := status' }).exitCode ∧
    (mainRun env).loop.w = (mainRun { env with status := status' }).loop.w ∧
    (mainRun env).loop.swaps = (mainRun { env with status := status' }).loop.swaps ∧
    (mainRun env).loop.st.sameCore (mainRun { env with status := status' }).loop.st := by
  have hcore := mainRunAt_core SCR_WIDTH SCR_HEIGHT env status' hw hg (by decide) (by decide)
  refine ⟨?_, ?_,
    mainRunAt_no_error SCR_WIDTH SCR_HEIGHT env hw hg (by decide) (by decide), ?_, rfl,
    hcore.1, hcore.2.1, hcore.2.2.1, hcore.2.2.2⟩
  · rw [← setupFramebuffersAt_screen, setupFramebuffersAt_out,
      incompleteLines_count env.h env.status c0 c1 c2 h0 h1 h2]
  · exact (setupFramebuffersAt_core SCR_WIDTH SCR_HEIGHT env.h env.status status' s s
      ⟨rfl, rfl⟩).1
  · unfold mainRun
    rw [mainRunAt_eq SCR_WIDTH SCR_HEIGHT env hw hg (by decide) (by decide)]

/-- C12 instantiated: `demoEnv`, whose driver reports ping-pong framebuffer 0
incomplete, against a driver that reports everything complete. -/
theorem framebuffer_incompleteness_only_logged_witness :
    demoEnv.windowCreated = true ∧ demoEnv.gladLoaded = true ∧
    ((demoEnv.status demoEnv.h.hdrFBO = GL_FRAMEBUFFER_COMPLETE) ↔ true = true) ∧
    ((demoEnv.status (demoEnv.h.pingpongFBO 0) = GL_FRAMEBUFFER_COMPLETE) ↔ false = true) ∧
    ((demoEnv.status (demoEnv.h.pingpongFBO 1) = GL_FRAMEBUFFER_COMPLETE) ↔ true = true) ∧
    (setupFramebuffers demoEnv.h demoEnv.status
        { app := Globals.init, gl := GLState.init, out := [] }).out
      = [] ++ List.replicate (incompleteCount true false true) "Framebuffer not complete!" ∧
    (mainRun demoEnv).exitCode ≠ some (-1) ∧
    (mainRun demoEnv).exitCode = (mainRun { demoEnv with status := demoStatus }).exitCode ∧
    (mainRun demoEnv).loop.swaps
      = (mainRun { demoEnv with status := demoStatus }).loop.swaps :=
  have hw := framebuffer_incompleteness_only_logged demoEnv demoStatus
    { app := Globals.init, gl := GLState.init, out := [] } true false true rfl rfl
    (by decide) (by decide) (by decide)
  ⟨rfl, rfl, by decide, by decide, by decide, hw.1, hw.2.2.1, hw.2.2.2.2.2.1,
    hw.2.2.2.2.2.2.2.1⟩

/-! ## One pass of the loop body -/

theorem dispatch_gl (s : State) (e : Event) : (dispatch s e).gl = s.gl := by
  cases e <;> rfl

theorem dispatchAll_gl (es : List Event) : ∀ s : State, (es.foldl dispatch s).gl = s.gl := by
  induction es with
  | nil => intro s; rfl
  | cons e es ih => intro s; rw [List.foldl_cons, ih, dispatch_gl]

theorem renderFrame_draws (h : Handles) (sh : Shaders) (names : Nat × Nat)
    (scene : ScenePass) (now : ℚ) (w : Window) (s : State) :
    (renderFrame h sh names scene now w s).2.gl.draws
      = (frameScene scene now w s).2.gl.draws
        ++ blurDraws h sh names amount (frameScene scene now w s).2
        ++ [compositeDraw h sh names
              (blurStage h sh names amount (frameScene scene now w s).2).horizontal
              (blurStage h sh names amount (frameScene scene now w s).2).st] :=
  postProcessN_draws h sh names amount (frameScene scene now w s).2

theorem renderFrame_window (h : Handles) (sh : Shaders) (names : Nat × Nat)
    (scene : ScenePass) (now : ℚ) (w : Window) (s : State) :
    (renderFrame h sh names scene now w s).1.shouldClose
      = (w.shouldClose || w.keyDown GLFW_KEY_ESCAPE) ∧
    (renderFrame h sh names scene now w s).1.keyDown = w.keyDown := by
  have e1 : (renderFrame h sh names scene now w s).1.shouldClose
      = (inputEscape w).shouldClose := by
    unfold renderFrame frameScene frameInput processInput glfwSetInputMode
    simp only []
    split <;> rfl
  have e2 : (renderFrame h sh names scene now w s).1.keyDown = (inputEscape w).keyDown := by
    unfold renderFrame frameScene frameInput processInput glfwSetInputMode
    simp only []
    split <;> rfl
  refine ⟨?_, e2.trans (inputEscape_keyDown w)⟩
  rw [e1]
  unfold inputEscape glfwSetWindowShouldClose
  simp only [glfwGetKey_press]
  cases hk : w.keyDown GLFW_KEY_ESCAPE <;> simp

theorem loopBody_fields (h : Handles) (sh : Shaders) (names : Nat × Nat)
    (scene : ScenePass) (f : FrameIn) (L : LoopState) :
    (loopBody h sh names scene f L).swaps = L.swaps + 1 ∧
    (loopBody h sh names scene f L).st.gl
      = (renderFrame h sh names scene f.now L.w L.st).2.gl ∧
    (loopBody h sh names scene f L).w.shouldClose
      = ((L.w.shouldClose || L.w.keyDown GLFW_KEY_ESCAPE) || f.poll.closeRequested) ∧
    (loopBody h sh names scene f L).w.keyDown = f.poll.keys := by
  refine ⟨rfl, ?_, ?_, rfl⟩
  · unfold loopBody glfwPollEvents
    exact dispatchAll_gl _ _
  · have e : (loopBody h sh names scene f L).w.shouldClose
        = ((renderFrame h sh names scene f.now L.w L.st).1.shouldClose
            || f.poll.closeRequested) := rfl
    rw [e, (renderFrame_window h sh names scene f.now L.w L.st).1]

theorem renderLoop_closed (h : Handles) (sh : Shaders) (names : Nat × Nat)
    (scene : ScenePass) (frames : List FrameIn) (L : LoopState)
    (hc : L.w.shouldClose = true) : renderLoop h sh names scene frames L = L := by
  cases frames with
  | nil => rfl
  | cons f fs =>
    unfold renderLoop
    simp [glfwWindowShouldClose, hc]

theorem renderLoop_step (h : Handles) (sh : Shaders) (names : Nat × Nat)
    (scene : ScenePass) (f : FrameIn) (fs : List FrameIn) (L : LoopState)
    (hc : L.w.shouldClose = false) :
    renderLoop h sh names scene (f :: fs) L
      = renderLoop h sh names scene fs (loopBody h sh names scene f L) := by
  rw [renderLoop]
  simp [glfwWindowShouldClose, hc]

/-- With the constants as parameters, a width or height of zero ends `main` at
the window creation of lines 68-73: it prints the failure line and returns -1
before any OpenGL call, so the framebuffer provisioning is not reached. The
source has the one size 800 by 600. -/
theorem mainRunAt_zero_size (width height : Nat) (env : MainEnv)
    (hz : width = 0 ∨ height = 0) :
    (mainRunAt width height env).exitCode = some (-1) ∧
    (mainRunAt width height env).loop.st.out = ["Failed to create GLFW window"] ∧
    (mainRunAt width height env).loop.st.gl = GLState.init ∧
    (mainRunAt width height env).loop.swaps = 0 := by
  have hc : glfwCreateWindow env.windowCreated width height = false := by
    unfold glfwCreateWindow
    rcases hz with h | h
    · subst h; simp
    · subst h; simp
  refine ⟨?_, ?_, ?_, ?_⟩ <;> simp [mainRunAt, hc]

/-! ## The escape key -/

theorem glfwGetKey_releaseEscape (w : Window) (key : Nat) (hk : key ≠ GLFW_KEY_ESCAPE) :
    glfwGetKey (releaseEscape w) key = glfwGetKey w key := by
  unfold glfwGetKey releaseEscape
  simp [hk]

theorem processInput_releaseEscape (w : Window) (a : Globals) :
    (processInput (releaseEscape w) a).2 = (processInput w a).2 := by
  have hk : ∀ key, key ≠ GLFW_KEY_ESCAPE →
      glfwGetKey (inputEscape (releaseEscape w)) key = glfwGetKey (inputEscape w) key := by
    intro key hkey
    rw [glfwGetKey_inputEscape, glfwGetKey_inputEscape, glfwGetKey_releaseEscape w key hkey]
  have hW := hk GLFW_KEY_W (by decide)
  have hS := hk GLFW_KEY_S (by decide)
  have hA := hk GLFW_KEY_A (by decide)
  have hD := hk GLFW_KEY_D (by decide)
  have hQ := hk GLFW_KEY_Q (by decide)
  have hE := hk GLFW_KEY_E (by decide)
  have hSp := hk GLFW_KEY_SPACE (by decide)
  have hZ := hk GLFW_KEY_Z (by decide)
  have hC := hk GLFW_KEY_C (by decide)
  have m : ∀ b, inputMove (inputEscape (releaseEscape w)) b = inputMove (inputEscape w) b := by
    intro b; unfold inputMove; rw [hW, hS, hA, hD]
  have hs : ∀ b, inputHeightScale (inputEscape (releaseEscape w)) b
      = inputHeightScale (inputEscape w) b := by
    intro b; unfold inputHeightScale; rw [hQ, hE]
  have bl : ∀ b, inputBloom (inputEscape (releaseEscape w)) b = inputBloom (inputEscape w) b := by
    intro b; unfold inputBloom; rw [hSp]
  have ex : ∀ b, inputExposure (inputEscape (releaseEscape w)) b
      = inputExposure (inputEscape w) b := by
    intro b; unfold inputExposure; rw [hZ, hC]
  unfold processInput
  simp only [m, hs, bl, ex]

theorem processInput_escape (w : Window) (a : Globals)
    (hesc : w.keyDown GLFW_KEY_ESCAPE = true) :
    (processInput w a).1 = { w with shouldClose := true } := by
  have e : (processInput w a).1 = inputEscape w := rfl
  rw [e]
  unfold inputEscape glfwSetWindowShouldClose
  simp only [glfwGetKey_press, hesc, if_true]

theorem renderFrame_releaseEscape (h : Handles) (sh : Shaders) (names : Nat × Nat)
    (scene : ScenePass) (now : ℚ) (w : Window) (s : State) :
    (renderFrame h sh names scene now (releaseEscape w) s).2
      = (renderFrame h sh names scene now w s).2 := by
  have e : (frameScene scene now (releaseEscape w) s).2 = (frameScene scene now w s).2 := by
    unfold frameScene frameInput
    simp only [processInput_releaseEscape]
  unfold renderFrame
  simp only [e]

/-- C16: a frame is never abandoned mid-pipeline. When the loop body starts
with the window open and the escape key down, `processInput` only sets the
should-close flag (the globals it leaves are those of the same call with
escape released); that frame is the same as with escape released: its draw
log is the scene pass, then the ten blur draws, then the composite draw, and
the buffers are swapped once; and the loop stops at its next condition check,
so that whatever frame inputs follow, no further draw or swap is issued. -/
theorem escape_frame_completes (h : Handles) (sh : Shaders) (names : Nat × Nat)
    (scene : ScenePass) (f : FrameIn) (fs : List FrameIn) (L : LoopState)
    (hopen : L.w.shouldClose = false) (hesc : L.w.keyDown GLFW_KEY_ESCAPE = true) :
    (frameInput f.now L.w L.st.app).1 = { L.w with shouldClose := true } ∧
    (frameInput f.now L.w L.st.app).2 = (frameInput f.now (releaseEscape L.w) L.st.app).2 ∧
    (renderFrame h sh names scene f.now L.w L.st).2
      = (renderFrame h sh names scene f.now (releaseEscape L.w) L.st).2 ∧
    (loopBody h sh names scene f L).st.gl.draws
      = (frameScene scene f.now L.w L.st).2.gl.draws
        ++ blurDraws h sh names amount (frameScene scene f.now L.w L.st).2
        ++ [compositeDraw h sh names
              (blurStage h sh names amount (frameScene scene f.now L.w L.st).2).horizontal
              (blurStage h sh names amount (frameScene scene f.now L.w L.st).2).st] ∧
    (blurDraws h sh names amount (frameScene scene f.now L.w L.st).2).length = 10 ∧
    (loopBody h sh names scene f L).swaps = L.swaps + 1 ∧
    (loopBody h sh names scene f L).w.shouldClose = true ∧
    renderLoop h sh names scene (f :: fs) L = loopBody h sh names scene f L ∧
    (renderLoop h sh names scene (f :: fs) L).swaps = L.swaps + 1 ∧
    (renderLoop h sh names scene (f :: fs) L).st.gl.draws
      = (renderFrame h sh names scene f.now L.w L.st).2.gl.draws := by
  have hb := loopBody_fields h sh names scene f L
  have hclose : (loopBody h sh names scene f L).w.shouldClose = true := by
    rw [hb.2.2.1, hesc]; simp
  have hloop : renderLoop h sh names scene (f :: fs) L = loopBody h sh names scene f L := by
    rw [renderLoop_step h sh names scene f fs L hopen]
    exact renderLoop_closed h sh names scene fs _ hclose
  refine ⟨processInput_escape _ _ hesc, (processInput_releaseEscape _ _).symm,
    (renderFrame_releaseEscape h sh names scene f.now L.w L.st).symm, ?_,
    blurDraws_length _ _ _ _ _, hb.1, hclose, hloop, ?_, ?_⟩
  · rw [hb.2.1, renderFrame_draws]
  · rw [hloop, hb.1]
  · rw [hloop, hb.2.1]

/-- C16 instantiated: escape down in the first frame after the set-up, with a
second frame's inputs waiting. -/
theorem escape_frame_completes_witness :
    escWindow.shouldClose = false ∧ escWindow.keyDown GLFW_KEY_ESCAPE = true ∧
    renderLoop demoHandles demoShaders demoNames demoScene [quietFrame, quietFrame]
        { w := escWindow, st := demoState, swaps := 0 }
      = loopBody demoHandles demoShaders demoNames demoScene quietFrame
          { w := escWindow, st := demoState, swaps := 0 } ∧
    (renderLoop demoHandles demoShaders demoNames demoScene [quietFrame, quietFrame]
        { w := escWindow, st := demoState, swaps := 0 }).swaps = 0 + 1 ∧
    (blurDraws demoHandles demoShaders demoNames amount
      (frameScene demoScene quietFrame.now escWindow demoState).2).length = 10 :=
  have hw := escape_frame_completes demoHandles demoShaders demoNames demoScene quietFrame
    [quietFrame] { w := escWindow, st := demoState, swaps := 0 } rfl (by decide)
  ⟨rfl, by decide, hw.2.2.2.2.2.2.2.1, hw.2.2.2.2.2.2.2.2.1, hw.2.2.2.2.1⟩

/-! ## The two quads -/

theorem renderQuadForBloom_cached (names : Nat × Nat) (s : State)
    (hne : s.app.quadVAO1 ≠ 0) :
    renderQuadForBloom names s
      = { s with
          gl := (glBindVertexArray 0
            (glDrawArrays GL_TRIANGLE_STRIP 0 4 (glBindVertexArray s.app.quadVAO1 s.gl))) } := by
  unfold renderQuadForBloom
  rw [if_neg hne]

theorem renderQuadForBloom_first (names : Nat × Nat) (s : State)
    (h0 : s.app.quadVAO1 = 0) :
    (renderQuadForBloom names s).app.quadVAO1 = names.1 ∧
    (renderQuadForBloom names s).app.quadVBO1 = names.2 ∧
    (renderQuadForBloom names s).gl.bufferData names.2 = bloomQuadVertices ∧
    (renderQuadForBloom names s).gl.attribs names.1 0
      = some { size := 3, stride := 5, offset := 0, buffer := names.2 } ∧
    (renderQuadForBloom names s).gl.attribs names.1 1
      = some { size := 2, stride := 5, offset := 3, buffer := names.2 } := by
  unfold renderQuadForBloom
  simp [h0, glBindVertexArray, glDrawArrays, glBindBuffer, glBufferData,
    glVertexAttribPointer]

theorem renderQuadForBloom_keeps (names : Nat × Nat) (s : State)
    (hne : s.app.quadVAO1 ≠ 0) :
    (renderQuadForBloom names s).app = s.app ∧
    (renderQuadForBloom names s).gl.bufferData = s.gl.bufferData ∧
    (renderQuadForBloom names s).gl.attribs = s.gl.attribs ∧
    (renderQuadForBloom names s).gl.arrayBuffer = s.gl.arrayBuffer := by
  rw [renderQuadForBloom_cached names s hne]
  exact ⟨rfl, rfl, rfl, rfl⟩

theorem renderQuadForBloom_iterate_keeps (names : Nat × Nat) (n : Nat) :
    ∀ s : State, s.app.quadVAO1 ≠ 0 →
      ((renderQuadForBloom names)^[n] s).app = s.app ∧
      ((renderQuadForBloom names)^[n] s).gl.bufferData = s.gl.bufferData ∧
      ((renderQuadForBloom names)^[n] s).gl.attribs = s.gl.attribs ∧
      ((renderQuadForBloom names)^[n] s).gl.arrayBuffer = s.gl.arrayBuffer := by
  induction n with
  | zero => intro s _; exact ⟨rfl, rfl, rfl, rfl⟩
  | succ n ih =>
    intro s hne
    rw [Function.iterate_succ_apply]
    obtain ⟨ka, kb, kc, kd⟩ := renderQuadForBloom_keeps names s hne
    obtain ⟨ia, ib, ic, id⟩ := ih (renderQuadForBloom names s) (by rw [ka]; exact hne)
    exact ⟨ia.trans ka, ib.trans kb, ic.trans kc, id.trans kd⟩

theorem bloomDraw_after_call (names : Nat × Nat) (s : State) (hn : names.1 ≠ 0) :
    bloomDraw names (renderQuadForBloom names s) = bloomDraw names s ∧
    (bloomDraw names s).vertexArray = (renderQuadForBloom names s).app.quadVAO1 ∧
    (renderQuadForBloom names s).app.quadVAO1 ≠ 0 := by
  obtain ⟨f1, f2, _, f4, f5, f6, _, _⟩ := renderQuadForBloom_frame names s
  by_cases h0 : s.app.quadVAO1 = 0
  · have hv := (renderQuadForBloom_first names s h0).1
    refine ⟨?_, ?_, by rw [hv]; exact hn⟩
    · unfold bloomDraw
      simp only [f1, f2, f4, f5, f6, hv, h0, hn, if_true, if_false]
    · unfold bloomDraw
      simp only [hv, h0, if_true]
  · have hv := (renderQuadForBloom_keeps names s h0).1
    refine ⟨?_, ?_, by rw [hv]; exact h0⟩
    · unfold bloomDraw
      simp only [f1, f2, f4, f5, f6, hv]
    · unfold bloomDraw
      simp only [hv, h0, if_false]

theorem renderQuadForBloom_iterate_draws (names : Nat × Nat) (hn : names.1 ≠ 0) (n : Nat) :
    ∀ s : State,
      ((renderQuadForBloom names)^[n] s).gl.draws
        = s.gl.draws ++ List.replicate n (bloomDraw names s) := by
  induction n with
  | zero => intro s; simp
  | succ n ih =>
    intro s
    rw [Function.iterate_succ_apply, ih, renderQuadForBloom_draws,
      (bloomDraw_after_call names s hn).1, List.append_assoc, List.replicate_succ]
    rfl

theorem renderQuad_keeps_bloom (namesQ : Nat × Nat) (t : State) :
    (renderQuad namesQ t).app.quadVAO1 = t.app.quadVAO1 ∧
    (renderQuad namesQ t).app.quadVBO1 = t.app.quadVBO1 ∧
    (namesQ.2 ≠ t.app.quadVBO1 →
      (renderQuad namesQ t).gl.bufferData t.app.quadVBO1 = t.gl.bufferData t.app.quadVBO1) ∧
    (namesQ.1 ≠ t.app.quadVAO1 → ∀ i,
      (renderQuad namesQ t).gl.attribs t.app.quadVAO1 i = t.gl.attribs t.app.quadVAO1 i) := by
  unfold renderQuad
  by_cases h0 : t.app.quadVAO = 0
  · rw [if_pos h0]
    refine ⟨rfl, rfl, ?_, ?_⟩
    · intro hb
      simp [glBindVertexArray, glDrawArrays, glBindBuffer, glBufferData,
        glVertexAttribPointer, Ne.symm hb]
    · intro hv i
      simp [glBindVertexArray, glDrawArrays, glBindBuffer, glBufferData,
        glVertexAttribPointer, Ne.symm hv]
  · rw [if_neg h0]
    exact ⟨rfl, rfl, fun _ => rfl, fun _ _ => rfl⟩

theorem renderQuadForBloom_keeps_quad (names : Nat × Nat) (t : State) :
    (renderQuadForBloom names t).app.quadVAO = t.app.quadVAO ∧
    (renderQuadForBloom names t).app.quadVBO = t.app.quadVBO ∧
    (names.2 ≠ t.app.quadVBO →
      (renderQuadForBloom names t).gl.bufferData t.app.quadVBO
        = t.gl.bufferData t.app.quadVBO) ∧
    (names.1 ≠ t.app.quadVAO → ∀ i,
      (renderQuadForBloom names t).gl.attribs t.app.quadVAO i
        = t.gl.attribs t.app.quadVAO i) := by
  unfold renderQuadForBloom
  by_cases h0 : t.app.quadVAO1 = 0
  · rw [if_pos h0]
    refine ⟨rfl, rfl, ?_, ?_⟩
    · intro hb
      simp [glBindVertexArray, glDrawArrays, glBindBuffer, glBufferData,
        glVertexAttribPointer, Ne.symm hb]
    · intro hv i
      simp [glBindVertexArray, glDrawArrays, glBindBuffer, glBufferData,
        glVertexAttribPointer, Ne.symm hv]
  · rw [if_neg h0]
    exact ⟨rfl, rfl, fun _ => rfl, fun _ _ => rfl⟩

/-- C17: the bloom quad is uploaded once and reused. Starting with
`quadVAO1 = 0` and a non-zero generated vertex-array name, the first call of
`renderQuadForBloom` creates the vertex array and the buffer and fills them;
any `n` further calls leave the globals, the buffer contents, the vertex
attributes and the buffer binding as the first call left them, whatever names
the generator would offer; `n` calls issue `n` draws, each a four-vertex
triangle strip with that vertex array. Blur iterations and composite stage
draw through `renderQuadForBloom`. `renderQuad` never changes `quadVAO1`,
`quadVBO1` or the bloom quad's buffer and attributes, and
`renderQuadForBloom` never changes `quadVAO`, `quadVBO` or the other quad's
buffer and attributes (generated names being distinct from the other
quad's). -/
theorem bloom_quad_uploaded_once (names names' namesQ : Nat × Nat) (s t : State) (n : Nat)
    (h : Handles) (sh : Shaders) (L : BlurLoop) (hor : Bool)
    (h0 : s.app.quadVAO1 = 0) (hn : names.1 ≠ 0) :
    ((renderQuadForBloom names s).app.quadVAO1 = names.1 ∧
      (renderQuadForBloom names s).app.quadVBO1 = names.2 ∧
      (renderQuadForBloom names s).gl.bufferData names.2 = bloomQuadVertices ∧
      (renderQuadForBloom names s).gl.attribs names.1 0
        = some { size := 3, stride := 5, offset := 0, buffer := names.2 } ∧
      (renderQuadForBloom names s).gl.attribs names.1 1
        = some { size := 2, stride := 5, offset := 3, buffer := names.2 }) ∧
    (((renderQuadForBloom names')^[n] (renderQuadForBloom names s)).app
        = (renderQuadForBloom names s).app ∧
      ((renderQuadForBloom names')^[n] (renderQuadForBloom names s)).gl.bufferData
        = (renderQuadForBloom names s).gl.bufferData ∧
      ((renderQuadForBloom names')^[n] (renderQuadForBloom names s)).gl.attribs
        = (renderQuadForBloom names s).gl.attribs ∧
      ((renderQuadForBloom names')^[n] (renderQuadForBloom names s)).gl.arrayBuffer
        = (renderQuadForBloom names s).gl.arrayBuffer) ∧
    (((renderQuadForBloom names)^[n] s).gl.draws
        = s.gl.draws ++ List.replicate n (bloomDraw names s) ∧
      (bloomDraw names s).mode = GL_TRIANGLE_STRIP ∧ (bloomDraw names s).first = 0 ∧
      (bloomDraw names s).count = 4 ∧ (bloomDraw names s).vertexArray = names.1) ∧
    ((blurIteration h sh names L).st
        = renderQuadForBloom names { L.st with gl := blurBind h sh L } ∧
      compositeStage h sh names hor t
        = renderQuadForBloom names { t with gl := compositeBind h sh hor t }) ∧
    ((renderQuad namesQ t).app.quadVAO1 = t.app.quadVAO1 ∧
      (renderQuad namesQ t).app.quadVBO1 = t.app.quadVBO1 ∧
      (namesQ.2 ≠ t.app.quadVBO1 →
        (renderQuad namesQ t).gl.bufferData t.app.quadVBO1
          = t.gl.bufferData t.app.quadVBO1) ∧
      (namesQ.1 ≠ t.app.quadVAO1 → ∀ i,
        (renderQuad namesQ t).gl.attribs t.app.quadVAO1 i
          = t.gl.attribs t.app.quadVAO1 i)) ∧
    ((renderQuadForBloom names t).app.quadVAO = t.app.quadVAO ∧
      (renderQuadForBloom names t).app.quadVBO = t.app.quadVBO ∧
      (names.2 ≠ t.app.quadVBO →
        (renderQuadForBloom names t).gl.bufferData t.app.quadVBO
          = t.gl.bufferData t.app.quadVBO) ∧
      (names.1 ≠ t.app.quadVAO → ∀ i,
        (renderQuadForBloom names t).gl.attribs t.app.quadVAO i
          = t.gl.attribs t.app.quadVAO i)) := by
  have hfirst := renderQuadForBloom_first names s h0
  have hne : (renderQuadForBloom names s).app.quadVAO1 ≠ 0 := by
    rw [hfirst.1]; exact hn
  refine ⟨hfirst, renderQuadForBloom_iterate_keeps names' n _ hne,
    ⟨renderQuadForBloom_iterate_draws names hn n s, rfl, rfl, rfl, ?_⟩,
    ⟨rfl, rfl⟩, renderQuad_keeps_bloom namesQ t, renderQuadForBloom_keeps_quad names t⟩
  unfold bloomDraw
  simp only [h0, if_true]

/-- C17 instantiated: three calls from the state after the set-up, where
`quadVAO1` is still 0. -/
theorem bloom_quad_uploaded_once_witness :
    demoState.app.quadVAO1 = 0 ∧ demoNames.1 ≠ 0 ∧
    ((renderQuadForBloom demoNames)^[3] demoState).gl.draws
      = demoState.gl.draws ++ List.replicate 3 (bloomDraw demoNames demoState) ∧
    ((renderQuadForBloom demoQuadNames)^[3] (renderQuadForBloom demoNames demoState)).app
      = (renderQuadForBloom demoNames demoState).app ∧
    ((renderQuadForBloom demoQuadNames)^[3]
        (renderQuadForBloom demoNames demoState)).gl.bufferData
      = (renderQuadForBloom demoNames demoState).gl.bufferData :=
  have hw := bloom_quad_uploaded_once demoNames demoQuadNames demoQuadNames demoState
    demoState 3 demoHandles demoShaders (blurInit demoShaders demoState) true rfl
    (by decide)
  ⟨rfl, by decide, hw.2.2.1.1, hw.2.1.1, hw.2.1.2.1⟩

/-! ## Results on the shaders as the specification describes them -/

theorem sideSum_const (f : Nat → ℚ) (c : ℚ) (hf : ∀ i, f i = c) (ws : List ℚ) :
    ∀ i, sideSum f i ws = c * ws.sum := by
  induction ws with
  | nil => intro i; simp [sideSum]
  | cons w ws ih =>
    intro i
    rw [sideSum, ih, hf, List.sum_cons]
    ring

theorem clampIdx_lt (n : Nat) (i : Int) (hn : 0 < n) : clampIdx n i < n := by
  unfold clampIdx
  omega

theorem blurPass_uniform (k : BlurKernel) (width height : Nat) (horizontal : Bool)
    (img : Image) (c : ℚ) (hk : k.normalized) (hW : 0 < width) (hH : 0 < height)
    (hu : img.uniform width height c) (x y : Nat) :
    blurPass k width height horizontal img x y = c := by
  have hs : ∀ a b : Int, sampleClamped width height img a b = c :=
    fun a b => hu _ _ (clampIdx_lt width a hW) (clampIdx_lt height b hH)
  unfold blurPass
  rw [sideSum_const _ (c + c), hs]
  · unfold BlurKernel.normalized at hk
    linear_combination c * hk
  · intro i
    cases horizontal <;> simp [hs]

theorem applyBlurDraw_apply (k : BlurKernel) (width height : Nat) (att : Nat → Nat → Nat)
    (pix : TexContents) (d : DrawCall) (t : Nat) :
    applyBlurDraw k width height att pix d t
      = if t = d.writeTexture att then
          blurPass k width height (shaderBool (d.uniformI "horizontal")) (pix d.readSource)
        else pix t := rfl

/-- Contents after the first `i` blur draws: the bright-pass texture is
untouched, and the target of the last draw is uniform. -/
theorem blur_contents_invariant (k : BlurKernel) (width height : Nat) (h : Handles)
    (sh : Shaders) (names : Nat × Nat) (s : State) (pix : TexContents) (c : ℚ)
    (hk : k.normalized) (hW : 0 < width) (hH : 0 < height)
    (hatt : h.pingpongAttached s.gl.attachment) (hdist : h.texturesDistinct)
    (hu : (pix (h.colorBuffers 1)).uniform width height c) (i : Nat) :
    (((List.range i).map (fun j => iterDraw h sh names (blurEntry h sh names s j))).foldl
        (applyBlurDraw k width height s.gl.attachment) pix) (h.colorBuffers 1)
      = pix (h.colorBuffers 1) ∧
    (1 ≤ i →
      ((((List.range i).map (fun j => iterDraw h sh names (blurEntry h sh names s j))).foldl
          (applyBlurDraw k width height s.gl.attachment) pix)
        (h.pingpongColorbuffers (boolIdx (blurEntry h sh names s (i - 1)).horizontal))).uniform
        width height c) := by
  induction i with
  | zero => exact ⟨rfl, fun h0 => absurd h0 (by decide)⟩
  | succ i ih =>
    obtain ⟨ih1, ih2⟩ := ih
    have hw : (iterDraw h sh names (blurEntry h sh names s i)).writeTexture s.gl.attachment
        = h.pingpongColorbuffers (boolIdx (blurEntry h sh names s i).horizontal) := by
      rw [DrawCall.writeTexture, iterDraw_framebuffer, hatt]
    rw [List.range_succ, List.map_append, List.foldl_append]
    simp only [List.map_cons, List.map_nil, List.foldl_cons, List.foldl_nil]
    refine ⟨?_, fun _ => ?_⟩
    · rw [applyBlurDraw_apply, hw, if_neg (texturesDistinct_bright h hdist _), ih1]
    · rw [applyBlurDraw_apply, hw]
      simp only [Nat.add_sub_cancel, if_true]
      intro x y _ _
      refine blurPass_uniform k width height _ _ c hk hW hH ?_ x y
      rw [iterDraw_readSource, blurEntry_first]
      by_cases h0 : i = 0
      · simp only [h0, decide_True, if_true]
        subst h0
        exact hu
      · simp only [h0, decide_False, Bool.false_eq_true, if_false]
        have hsucc : i = (i - 1) + 1 := by omega
        have hh : (blurEntry h sh names s i).horizontal
            = !(blurEntry h sh names s (i - 1)).horizontal := by
          conv_lhs => rw [hsucc, blurEntry_succ, blurIteration_horizontal]
        rw [hh, Bool.not_not]
        exact ih2 (by omega)

theorem blurStageContents_uniform (k : BlurKernel) (width height : Nat) (h : Handles)
    (sh : Shaders) (names : Nat × Nat) (n : Nat) (s : State) (pix : TexContents) (c : ℚ)
    (hk : k.normalized) (hW : 0 < width) (hH : 0 < height)
    (hatt : h.pingpongAttached s.gl.attachment) (hdist : h.texturesDistinct)
    (hu : (pix (h.colorBuffers 1)).uniform width height c) (hn : 1 ≤ n) :
    (blurStageContents k width height h sh names n s pix
      (h.pingpongColorbuffers
        (boolIdx (!(blurStage h sh names n s).horizontal)))).uniform width height c := by
  have hinv := (blur_contents_invariant k width height h sh names s pix c hk hW hH hatt
    hdist hu n).2 hn
  have hh : (blurStage h sh names n s).horizontal
      = !(blurEntry h sh names s (n - 1)).horizontal := by
    have hsucc : n = (n - 1) + 1 := by omega
    rw [blurStage_horizontal]
    conv_lhs => rw [hsucc, blurEntry_succ, blurIteration_horizontal]
  rw [hh, Bool.not_not]
  unfold blurStageContents
  rw [blurDraws_eq]
  exact hinv

/-- C18: with the blur shader as the specification describes it (a symmetric,
normalized 1-D kernel with edge clamping), a bright-pass buffer that is
uniformly `c` leaves the output of the blur stage, the ping-pong texture that
the composite stage reads, uniformly `c`: for every iteration count `n ≥ 1`,
and so for the `amount = 10` of the source. -/
theorem blur_keeps_uniform_input (k : BlurKernel) (width height : Nat) (h : Handles)
    (sh : Shaders) (names : Nat × Nat) (n : Nat) (s : State) (pix : TexContents) (c : ℚ)
    (hk : k.normalized) (hW : 0 < width) (hH : 0 < height)
    (hatt : h.pingpongAttached s.gl.attachment) (hdist : h.texturesDistinct)
    (hu : (pix (h.colorBuffers 1)).uniform width height c) (hn : 1 ≤ n) :
    (blurStageContents k width height h sh names n s pix
      (h.pingpongColorbuffers
        (boolIdx (!(blurStage h sh names n s).horizontal)))).uniform width height c ∧
    (blurStageContents k width height h sh names amount s pix
      (h.pingpongColorbuffers
        (boolIdx (!(blurStage h sh names amount s).horizontal)))).uniform width height c ∧
    (postProcess h sh names s).gl.draws.getLast?.map (fun d => d.tex2D 1)
      = some (h.pingpongColorbuffers
          (boolIdx (!(blurStage h sh names amount s).horizontal))) :=
  ⟨blurStageContents_uniform k width height h sh names n s pix c hk hW hH hatt hdist hu hn,
   blurStageContents_uniform k width height h sh names amount s pix c hk hW hH hatt hdist hu
     (by decide),
   by
     unfold postProcess
     rw [postProcessN_draws, List.getLast?_concat, Option.map_some',
       (compositeDraw_fields h sh names _ _).2.2.2.1]⟩

/-- C18 instantiated: binomial kernel, screen resolution, demo handles after
the set-up, every texture uniformly one half. -/
theorem blur_keeps_uniform_input_witness :
    demoKernel.normalized ∧ 0 < SCR_WIDTH ∧ 0 < SCR_HEIGHT ∧
    demoHandles.pingpongAttached demoState.gl.attachment ∧
    demoHandles.texturesDistinct ∧
    (greyContents (demoHandles.colorBuffers 1)).uniform SCR_WIDTH SCR_HEIGHT (1 / 2) ∧
    1 ≤ 10 ∧
    (blurStageContents demoKernel SCR_WIDTH SCR_HEIGHT demoHandles demoShaders demoNames 10
      demoState greyContents
      (demoHandles.pingpongColorbuffers
        (boolIdx (!(blurStage demoHandles demoShaders demoNames 10 demoState).horizontal)))).uniform
      SCR_WIDTH SCR_HEIGHT (1 / 2) :=
  have hk : demoKernel.normalized := by
    unfold BlurKernel.normalized demoKernel
    norm_num
  have hatt : demoHandles.pingpongAttached demoState.gl.attachment :=
    setup_pingpongAttached demoHandles demoStatus _ (by decide) (by decide)
  have hdist : demoHandles.texturesDistinct := by
    unfold Handles.texturesDistinct; decide
  have hu : (greyContents (demoHandles.colorBuffers 1)).uniform SCR_WIDTH SCR_HEIGHT (1 / 2) :=
    fun _ _ _ _ => rfl
  ⟨hk, by decide, by decide, hatt, hdist, hu, by decide,
    (blur_keeps_uniform_input demoKernel SCR_WIDTH SCR_HEIGHT demoHandles demoShaders
      demoNames 10 demoState greyContents (1 / 2) hk (by decide) (by decide) hatt hdist hu
      (by decide)).1⟩

/-- C19: with the final shader as the specification describes it, and bloom
disabled, the image that the composite stage writes is the tone-mapping of the
scene colour alone. Two runs of the composite stage with `bloom = false`, the
same exposure and the same contents of the scene texture `colorBuffers[0]`
write the same image, whatever the other textures, the blurred ping-pong
textures among them, contain and whichever of them is bound. -/
theorem composite_ignores_blur_without_bloom (toneMap : ℚ → ℚ → ℚ) (h : Handles)
    (sh : Shaders) (names : Nat × Nat) (hor hor' : Bool) (s s' : State)
    (pix pix' : TexContents)
    (hb : s.app.bloom = false) (hb' : s'.app.bloom = false)
    (he : s.app.exposure = s'.app.exposure)
    (hscene : pix (h.colorBuffers 0) = pix' (h.colorBuffers 0)) :
    ∃ c c',
      (compositeStage h sh names hor s).gl.draws.getLast? = some c ∧
      (compositeStage h sh names hor' s').gl.draws.getLast? = some c' ∧
      compositeOutput toneMap pix c = compositeOutput toneMap pix' c' ∧
      compositeOutput toneMap pix c
        = fun x y => toneMap (pix (h.colorBuffers 0) x y) s.app.exposure := by
  have key : ∀ (b : Bool) (t : State) (q : TexContents), t.app.bloom = false →
      compositeOutput toneMap q (compositeDraw h sh names b t)
        = fun x y => toneMap (q (h.colorBuffers 0) x y) t.app.exposure := by
    intro b t q hbt
    obtain ⟨_, _, f0, _, fb, fe, _⟩ := compositeDraw_fields h sh names b t
    funext x y
    unfold compositeOutput compositeShade
    rw [f0, fb, fe, hbt]
    simp [shaderBool, boolToInt]
  refine ⟨compositeDraw h sh names hor s, compositeDraw h sh names hor' s', ?_, ?_, ?_,
    key hor s pix hb⟩
  · rw [compositeStage_draws, List.getLast?_concat]
  · rw [compositeStage_draws, List.getLast?_concat]
  · rw [key hor s pix hb, key hor' s' pix' hb', hscene, he]

/-- C19 instantiated: the state after the set-up (bloom is off initially),
once with uniform ping-pong textures and once with a gradient in them, and
with different ping-pong textures bound. -/
theorem composite_ignores_blur_without_bloom_witness :
    demoState.app.bloom = false ∧
    demoState.app.exposure = demoState.app.exposure ∧
    greyContents (demoHandles.colorBuffers 0) = otherBlurContents (demoHandles.colorBuffers 0) ∧
    ∃ c c',
      (compositeStage demoHandles demoShaders demoNames true demoState).gl.draws.getLast?
        = some c ∧
      (compositeStage demoHandles demoShaders demoNames false demoState).gl.draws.getLast?
        = some c' ∧
      compositeOutput (fun v e => v * e) greyContents c
        = compositeOutput (fun v e => v * e) otherBlurContents c' ∧
      compositeOutput (fun v e => v * e) greyContents c
        = fun x y => (fun v e => v * e) (greyContents (demoHandles.colorBuffers 0) x y)
            demoState.app.exposure :=
  have hscene : greyContents (demoHandles.colorBuffers 0)
      = otherBlurContents (demoHandles.colorBuffers 0) := by
    funext x y
    simp [greyContents, otherBlurContents, demoHandles]
  ⟨rfl, rfl, hscene,
    composite_ignores_blur_without_bloom (fun v e => v * e) demoHandles demoShaders demoNames
      true false demoState demoState greyContents otherBlurContents rfl rfl rfl hscene⟩

/-! ## The scene pass: which meshes are drawn -/

theorem glUniform1i_view (prog : Nat) (name : String) (v : Int) (g : GLState) :
    (glUniform1i prog name v g).vertexArray = g.vertexArray ∧
    (glUniform1i prog name v g).draws = g.draws := by
  unfold glUniform1i
  split
  · exact ⟨rfl, rfl⟩
  · exact ⟨rfl, rfl⟩

theorem glUniform1f_view (prog : Nat) (name : String) (v : ℚ) (g : GLState) :
    (glUniform1f prog name v g).vertexArray = g.vertexArray ∧
    (glUniform1f prog name v g).draws = g.draws := by
  unfold glUniform1f
  split
  · exact ⟨rfl, rfl⟩
  · exact ⟨rfl, rfl⟩

theorem glActiveTexture_view (t : Nat) (g : GLState) :
    (glActiveTexture t g).vertexArray = g.vertexArray ∧
    (glActiveTexture t g).draws = g.draws := by
  unfold glActiveTexture
  exact ⟨rfl, rfl⟩

theorem glBindTexture_view (t x : Nat) (g : GLState) :
    (glBindTexture t x g).vertexArray = g.vertexArray ∧
    (glBindTexture t x g).draws = g.draws := by
  unfold glBindTexture
  exact ⟨rfl, rfl⟩

theorem bindTextures_view (sh : Shader) (l : List (Nat × String × Nat)) :
    ∀ g : GLState, (Mesh.bindTextures sh l g).vertexArray = g.vertexArray ∧
      (Mesh.bindTextures sh l g).draws = g.draws := by
  induction l with
  | nil => intro g; exact ⟨rfl, rfl⟩
  | cons t rest ih =>
    intro g
    obtain ⟨i, name, id⟩ := t
    have hd : Mesh.bindTextures sh ((i, name, id) :: rest) g
        = Mesh.bindTextures sh rest (glBindTexture GL_TEXTURE_2D id
            (glUniform1i sh.ID name i (glActiveTexture (GL_TEXTURE0 + i) g))) := by
      simp only [Mesh.bindTextures]
    obtain ⟨h1, h2⟩ := ih (glBindTexture GL_TEXTURE_2D id
      (glUniform1i sh.ID name i (glActiveTexture (GL_TEXTURE0 + i) g)))
    obtain ⟨u1, u2⟩ := glUniform1i_view sh.ID name i (glActiveTexture (GL_TEXTURE0 + i) g)
    obtain ⟨b1, b2⟩ := glBindTexture_view GL_TEXTURE_2D id
      (glUniform1i sh.ID name i (glActiveTexture (GL_TEXTURE0 + i) g))
    obtain ⟨a1, a2⟩ := glActiveTexture_view (GL_TEXTURE0 + i) g
    rw [hd, h1, h2, b1, b2, u1, u2, a1, a2]
    exact ⟨rfl, rfl⟩

theorem Mesh_Draw_view (m : Mesh) (sh : Shader) (g : GLState) :
    (m.Draw sh g).vertexArray = 0 ∧
    (m.Draw sh g).draws.map DrawCall.mesh = g.draws.map DrawCall.mesh ++ [m.key] := by
  obtain ⟨h1, h2⟩ := bindTextures_view sh m.textures.enum g
  refine ⟨rfl, ?_⟩
  simp only [Mesh.Draw, glActiveTexture, glBindVertexArray, glDrawElements, h2,
    List.map_append, List.map_cons, List.map_nil]
  rfl

theorem Model_Draw_view (sh : Shader) (meshes : List Mesh) :
    ∀ g : GLState,
      (Model.Draw meshes sh g).vertexArray = (if meshes.isEmpty then g.vertexArray else 0) ∧
      (Model.Draw meshes sh g).draws.map DrawCall.mesh
        = g.draws.map DrawCall.mesh ++ meshes.map Mesh.key := by
  induction meshes with
  | nil => intro g; simp [Model.Draw]
  | cons m rest ih =>
    intro g
    obtain ⟨h1, h2⟩ := ih (m.Draw sh g)
    obtain ⟨m1, m2⟩ := Mesh_Draw_view m sh g
    have hd : Model.Draw (m :: rest) sh g = Model.Draw rest sh (m.Draw sh g) := rfl
    rw [hd, h1, h2, m1, m2]
    refine ⟨?_, by simp⟩
    cases rest <;> simp

theorem meshView_mk (a : Globals) (g : GLState) (o : List String) :
    (State.mk a g o).meshView = ⟨g.vertexArray, a.quadVAO, g.draws.map DrawCall.mesh⟩ := rfl

theorem renderQuad_view (env : SceneEnv) (s : State) :
    (renderQuad env.quadNames s).meshView = s.meshView.step env .quad := by
  unfold renderQuad State.meshView MeshView.step quadArray
  by_cases h0 : s.app.quadVAO = 0
  · simp [h0, glBindVertexArray, glDrawArrays, glBindBuffer, glBufferData,
      glVertexAttribPointer, DrawCall.mesh]
  · simp [h0, glBindVertexArray, glDrawArrays, DrawCall.mesh]

/-- Every call of the scene pass acts on the view as its draw step does, and
not at all if it has none. -/
theorem runCall_view (env : SceneEnv) (s : State) (c : SceneCall) :
    (runCall env s c).meshView
      = match c.drawStep with
        | none => s.meshView
        | some d => s.meshView.step env d := by
  cases c with
  | glClearColor r g b a => rfl
  | glClear => rfl
  | glBindFramebuffer fbo => rfl
  | use sh => rfl
  | setVec3 sh name v => rfl
  | setFloat sh name v =>
    obtain ⟨h1, h2⟩ := glUniform1f_view (env.shaders sh).ID name (v.eval env) s.gl
    simp only [runCall, SceneCall.drawStep, State.meshView, Shader.setFloat, h1, h2]
  | setInt sh name v =>
    obtain ⟨h1, h2⟩ := glUniform1i_view (env.shaders sh).ID name v s.gl
    simp only [runCall, SceneCall.drawStep, State.meshView, Shader.setInt, h1, h2]
  | setMat4 sh name m => rfl
  | draw model sh =>
    obtain ⟨h1, h2⟩ := Model_Draw_view (env.shaders sh) (env.meshes model) s.gl
    simp only [runCall, SceneCall.drawStep, State.meshView, MeshView.step, h1, h2]
  | glDepthFunc f => rfl
  | glBindVertexArray vao => rfl
  | glActiveTexture texture =>
    obtain ⟨h1, h2⟩ := glActiveTexture_view texture s.gl
    have e : runCall env s (.glActiveTexture texture)
        = State.mk s.app (glActiveTexture texture s.gl) s.out := rfl
    rw [e, meshView_mk, h1, h2]
    rfl
  | glBindTexture target tex => rfl
  | glDrawArrays mode first count =>
    simp [runCall, SceneCall.drawStep, State.meshView, MeshView.step, glDrawArrays,
      DrawCall.mesh]
  | glEnable cap => rfl
  | glDisable cap => rfl
  | glCullFace mode => rfl
  | renderQuad => exact renderQuad_view env s

theorem runScene_view (env : SceneEnv) (calls : List SceneCall) :
    ∀ s : State, (runScene env calls s).meshView
      = (calls.filterMap SceneCall.drawStep).foldl (MeshView.step env) s.meshView := by
  induction calls with
  | nil => intro s; rfl
  | cons c rest ih =>
    intro s
    have hd : runScene env (c :: rest) s = runScene env rest (runCall env s c) := rfl
    rw [hd, ih, runCall_view]
    cases hc : c.drawStep with
    | none => simp [List.filterMap_cons, hc]
    | some d => simp [List.filterMap_cons, hc]

/-! ## The scene pass: the model matrices -/


theorem sceneModels_append (l1 l2 : List SceneCall) :
    sceneModels (l1 ++ l2) = sceneModels l1 ++ sceneModels l2 :=
  List.filterMap_append _ _ _

/-- The model matrices of the scene pass: the UFO's, those of the objects
before the gate, the two of the gate, and those of the objects after it. -/
theorem sceneModels_sceneCalls (h : Handles) (env : SceneEnv) (a : Globals)
    (clock : Nat → ℚ) :
    sceneModels (sceneCalls h env a clock)
      = .model [.translate (.orbit (clock 3) (clock 4)), .scale ⟨0.05, 0.05, 0.05⟩] ::
        (sceneModels (stallCalls ++ hutRotatedCalls ++ hutCalls ++ humanCalls ++ wellCalls ++
            fenceCalls ++ fenceRotatedCalls) ++
          (sceneModels (gateCalls a.gateClosed) ++
            sceneModels (sheepInsideCalls ++ sheepOutsideCalls ++ vegetationCalls ++
              vegetationRotatedCalls ++
              [.setMat4 .shader "model"
                (.model [.translate (.lit ⟨0, 0, 0⟩), .rotate (-90) ⟨1, 0, 0⟩,
                  .scale ⟨12.5, 12.5, 12.5⟩])]))) := by
  have e1 : sceneModels (clearCalls h) = [] := rfl
  have e2 : sceneModels (ufoLightCalls clock) = [] := rfl
  have e3 : sceneModels (ourLightCalls a) = [] := rfl
  have e4 : sceneModels cameraCalls = [] := rfl
  have e5 : sceneModels (ufoCalls clock)
      = [.model [.translate (.orbit (clock 3) (clock 4)), .scale ⟨0.05, 0.05, 0.05⟩]] := rfl
  have e6 : sceneModels (skyboxCalls env) = [] := rfl
  have e7 : sceneModels (blendingCalls env) = [] := rfl
  have e8 : sceneModels (parallaxCalls env a)
      = sceneModels [.setMat4 .shader "model"
          (.model [.translate (.lit ⟨0, 0, 0⟩), .rotate (-90) ⟨1, 0, 0⟩,
            .scale ⟨12.5, 12.5, 12.5⟩])] := rfl
  unfold sceneCalls
  simp only [sceneModels_append, e1, e2, e3, e4, e5, e6, e7, e8, List.nil_append,
    List.append_nil, List.append_assoc, List.singleton_append]

theorem fixedBefore_length :
    (sceneModels (stallCalls ++ hutRotatedCalls ++ hutCalls ++ humanCalls ++ wellCalls ++
      fenceCalls ++ fenceRotatedCalls)).length = 68 := rfl

theorem gateModels_length (b : Bool) : (sceneModels (gateCalls b)).length = 2 := by
  cases b <;> rfl

theorem fixedAfter_length :
    (sceneModels (sheepInsideCalls ++ sheepOutsideCalls ++ vegetationCalls ++
              vegetationRotatedCalls ++
              [.setMat4 .shader "model"
                (.model [.translate (.lit ⟨0, 0, 0⟩), .rotate (-90) ⟨1, 0, 0⟩,
                  .scale ⟨12.5, 12.5, 12.5⟩])])).length = 58 := rfl

theorem sceneModels_length (h : Handles) (env : SceneEnv) (a : Globals)
    (clock : Nat → ℚ) : (sceneModels (sceneCalls h env a clock)).length = 129 := by
  rw [sceneModels_sceneCalls]
  simp only [List.length_cons, List.length_append, fixedBefore_length, gateModels_length,
    fixedAfter_length]

theorem sceneModels_gate_entries (h : Handles) (env : SceneEnv) (a : Globals)
    (clock : Nat → ℚ) :
    (sceneModels (sceneCalls h env a clock))[69]? = (sceneModels (gateCalls a.gateClosed))[0]? ∧
    (sceneModels (sceneCalls h env a clock))[70]?
      = (sceneModels (gateCalls a.gateClosed))[1]? := by
  rw [sceneModels_sceneCalls]
  have hb := fixedBefore_length
  have hg := gateModels_length a.gateClosed
  constructor
  · rw [show (69 : Nat) = 68 + 1 from rfl, List.getElem?_cons_succ,
      List.getElem?_append_right (by omega), hb, List.getElem?_append_left (by omega)]
  · rw [show (70 : Nat) = 69 + 1 from rfl, List.getElem?_cons_succ,
      List.getElem?_append_right (by omega), hb, List.getElem?_append_left (by omega)]

theorem sceneModels_fixed_entry (h h' : Handles) (env env' : SceneEnv) (a a' : Globals)
    (clock clock' : Nat → ℚ) (i : Nat) (h0 : i ≠ 0) (h69 : i ≠ 69) (h70 : i ≠ 70) :
    (sceneModels (sceneCalls h env a clock))[i]?
      = (sceneModels (sceneCalls h' env' a' clock'))[i]? := by
  rw [sceneModels_sceneCalls, sceneModels_sceneCalls]
  have hb := fixedBefore_length
  have hg := gateModels_length a.gateClosed
  have hg' := gateModels_length a'.gateClosed
  obtain ⟨j, rfl⟩ := Nat.exists_eq_succ_of_ne_zero h0
  simp only [Nat.succ_eq_add_one, List.getElem?_cons_succ]
  by_cases hj : j < 68
  · rw [List.getElem?_append_left (by omega), List.getElem?_append_left (by omega)]
  · rw [List.getElem?_append_right (by omega), List.getElem?_append_right (by omega),
      List.getElem?_append_right (by omega), List.getElem?_append_right (by omega), hb, hg,
      hg']

/-- C15, as stated, fails: a frame at time 0 with the gate open and a frame
at time 1 with the gate closed issue different sequences of model matrices.
Entry 69, the first fence of the gate, is translated to `(6.55, 0, 2.05)` and
turned by 45 degrees in the first frame, and translated to `(7.12, 0, 0.95)`
and turned by 90 degrees in the second; entry 0, the UFO, is translated to a
point computed from the clock. -/
theorem scene_models_differ_between_frames :
    openGateFrame.2 0 ≠ closedGateFrame.2 0 ∧
    openGateFrame.2 3 ≠ closedGateFrame.2 3 ∧
    openGateFrame.1.gateClosed ≠ closedGateFrame.1.gateClosed ∧
    sceneModels (sceneCalls demoHandles demoSceneEnv openGateFrame.1 openGateFrame.2)
      ≠ sceneModels (sceneCalls demoHandles demoSceneEnv closedGateFrame.1 closedGateFrame.2) ∧
    (sceneModels (sceneCalls demoHandles demoSceneEnv openGateFrame.1 openGateFrame.2))[69]?
      = some (.model [.translate (.lit ⟨6.55, 0, 2.05⟩), .rotate 45 ⟨0, 1, 0⟩,
          .scale ⟨0.8, 0.8, 0.8⟩]) ∧
    (sceneModels (sceneCalls demoHandles demoSceneEnv closedGateFrame.1 closedGateFrame.2))[69]?
      = some (.model [.translate (.lit ⟨7.12, 0, 0.95⟩), .rotate 90 ⟨0, 1, 0⟩,
          .scale ⟨0.8, 0.8, 0.8⟩]) ∧
    (sceneModels (sceneCalls demoHandles demoSceneEnv openGateFrame.1 openGateFrame.2))[0]?
      = some (.model [.translate (.orbit 0 0), .scale ⟨0.05, 0.05, 0.05⟩]) ∧
    (sceneModels (sceneCalls demoHandles demoSceneEnv closedGateFrame.1 closedGateFrame.2))[0]?
      = some (.model [.translate (.orbit 1 1), .scale ⟨0.05, 0.05, 0.05⟩]) := by
  have ho : (sceneModels
      (sceneCalls demoHandles demoSceneEnv openGateFrame.1 openGateFrame.2))[69]?
      = some (.model [.translate (.lit ⟨6.55, 0, 2.05⟩), .rotate 45 ⟨0, 1, 0⟩,
          .scale ⟨0.8, 0.8, 0.8⟩]) := by
    rw [(sceneModels_gate_entries _ _ _ _).1]; rfl
  have hc : (sceneModels
      (sceneCalls demoHandles demoSceneEnv closedGateFrame.1 closedGateFrame.2))[69]?
      = some (.model [.translate (.lit ⟨7.12, 0, 0.95⟩), .rotate 90 ⟨0, 1, 0⟩,
          .scale ⟨0.8, 0.8, 0.8⟩]) := by
    rw [(sceneModels_gate_entries _ _ _ _).1]; rfl
  refine ⟨?_, ?_, ?_, ?_, ho, hc, ?_, ?_⟩
  · simp [openGateFrame, closedGateFrame]
  · simp [openGateFrame, closedGateFrame]
  · simp [openGateFrame, closedGateFrame]
  · intro heq
    have h69 := congrArg (fun l => l[69]?) heq
    simp only [ho, hc, Option.some.injEq, Mat4Arg.model.injEq, List.cons.injEq,
      Xform.translate.injEq, Vec3Arg.lit.injEq, vec3.mk.injEq] at h69
    norm_num at h69
  · rw [sceneModels_sceneCalls, List.getElem?_cons_zero]; rfl
  · rw [sceneModels_sceneCalls, List.getElem?_cons_zero]; rfl

/-- C15, amended: every model matrix of the scene pass other than the UFO's
and the two gate fences' is the same in every frame. For any two frames,
whatever their clock readings, globals and object names, the sequences of
model matrices have length 129 and agree at every position other than 0, 69
and 70. Entry 0 is the UFO's matrix, a translation to the point computed from
clock readings 3 and 4 followed by a scaling; entries 69 and 70 are the two
matrices of the gate branch selected by `gateClosed`. -/
theorem scene_models_fixed_except_ufo_and_gate (h h' : Handles) (env env' : SceneEnv)
    (a a' : Globals) (clock clock' : Nat → ℚ) (i : Nat) (h0 : i ≠ 0) (h69 : i ≠ 69)
    (h70 : i ≠ 70) :
    (sceneModels (sceneCalls h env a clock)).length = 129 ∧
    (sceneModels (sceneCalls h' env' a' clock')).length = 129 ∧
    (sceneModels (sceneCalls h env a clock))[i]?
      = (sceneModels (sceneCalls h' env' a' clock'))[i]? ∧
    (sceneModels (sceneCalls h env a clock))[0]?
      = some (.model [.translate (.orbit (clock 3) (clock 4)), .scale ⟨0.05, 0.05, 0.05⟩]) ∧
    (sceneModels (sceneCalls h env a clock))[69]? = (sceneModels (gateCalls a.gateClosed))[0]? ∧
    (sceneModels (sceneCalls h env a clock))[70]?
      = (sceneModels (gateCalls a.gateClosed))[1]? :=
  ⟨sceneModels_length h env a clock, sceneModels_length h' env' a' clock',
    sceneModels_fixed_entry h h' env env' a a' clock clock' i h0 h69 h70,
    by rw [sceneModels_sceneCalls]; rfl,
    (sceneModels_gate_entries h env a clock).1, (sceneModels_gate_entries h env a clock).2⟩

theorem scene_models_fixed_except_ufo_and_gate_witness :
    (1 : Nat) ≠ 0 ∧ (1 : Nat) ≠ 69 ∧ (1 : Nat) ≠ 70 ∧
    (sceneModels (sceneCalls demoHandles demoSceneEnv openGateFrame.1
      openGateFrame.2)).length = 129 ∧
    (sceneModels (sceneCalls demoHandles demoSceneEnv closedGateFrame.1
      closedGateFrame.2)).length = 129 ∧
    (sceneModels (sceneCalls demoHandles demoSceneEnv openGateFrame.1 openGateFrame.2))[1]?
      = (sceneModels
          (sceneCalls demoHandles demoSceneEnv closedGateFrame.1 closedGateFrame.2))[1]? ∧
    (sceneModels (sceneCalls demoHandles demoSceneEnv openGateFrame.1 openGateFrame.2))[0]?
      = some (.model [.translate (.orbit (openGateFrame.2 3) (openGateFrame.2 4)),
          .scale ⟨0.05, 0.05, 0.05⟩]) ∧
    (sceneModels (sceneCalls demoHandles demoSceneEnv openGateFrame.1 openGateFrame.2))[69]?
      = (sceneModels (gateCalls openGateFrame.1.gateClosed))[0]? ∧
    (sceneModels (sceneCalls demoHandles demoSceneEnv openGateFrame.1 openGateFrame.2))[70]?
      = (sceneModels (gateCalls openGateFrame.1.gateClosed))[1]? :=
  ⟨by decide, by decide, by decide,
    scene_models_fixed_except_ufo_and_gate demoHandles demoHandles demoSceneEnv demoSceneEnv
      openGateFrame.1 closedGateFrame.1 openGateFrame.2 closedGateFrame.2 1
      (by decide) (by decide) (by decide)⟩

/-! ## The scene pass and the frame: the sequence of draws -/


theorem gateCalls_steps (b : Bool) :
    (gateCalls b).filterMap SceneCall.drawStep = [.model .fenceModel, .model .fenceModel] := by
  cases b <;> rfl

/-- The draw steps of the scene pass do not depend on the globals or the clock. -/
theorem sceneCalls_steps (h : Handles) (env : SceneEnv) (a a' : Globals)
    (clock clock' : Nat → ℚ) :
    (sceneCalls h env a clock).filterMap SceneCall.drawStep
      = (sceneCalls h env a' clock').filterMap SceneCall.drawStep := by
  unfold sceneCalls
  simp only [List.filterMap_append, gateCalls_steps]
  rfl

theorem bindsBeforeArrays_mono (b : Bool) (L : List DrawStep)
    (hL : bindsBeforeArrays false L = true) : bindsBeforeArrays b L = true := by
  cases L with
  | nil => rfl
  | cons d rest =>
    cases d with
    | bind vao => exact hL
    | arrays mode first count => simp [bindsBeforeArrays] at hL
    | model m => exact hL
    | quad => exact hL

theorem bindsBeforeArrays_append (L1 L2 : List DrawStep)
    (h2 : bindsBeforeArrays false L2 = true) :
    ∀ b : Bool, bindsBeforeArrays b L1 = true → bindsBeforeArrays b (L1 ++ L2) = true := by
  induction L1 with
  | nil => intro b _; exact bindsBeforeArrays_mono b L2 h2
  | cons d rest ih =>
    intro b h1
    cases d with
    | bind vao => exact ih true h1
    | arrays mode first count =>
      simp only [bindsBeforeArrays, Bool.and_eq_true] at h1
      simp only [List.cons_append, bindsBeforeArrays, Bool.and_eq_true]
      exact ⟨h1.1, ih b h1.2⟩
    | model m => exact ih false h1
    | quad => exact ih true h1

theorem sceneCalls_split (h : Handles) (env : SceneEnv) (a : Globals) (clock : Nat → ℚ) :
    sceneCalls h env a clock
      = (clearCalls h ++ ufoLightCalls clock ++ ourLightCalls a ++ cameraCalls ++
          ufoCalls clock ++ stallCalls ++ hutRotatedCalls ++ hutCalls ++ humanCalls ++
          wellCalls ++ fenceCalls ++ fenceRotatedCalls ++ gateCalls a.gateClosed ++
          sheepInsideCalls ++ sheepOutsideCalls) ++
        (skyboxCalls env ++ blendingCalls env ++ vegetationCalls ++ vegetationRotatedCalls ++
          parallaxCalls env a) := by
  simp only [sceneCalls, List.append_assoc]

theorem sceneCalls_bound (h : Handles) (env : SceneEnv) (a : Globals) (clock : Nat → ℚ) :
    bindsBeforeArrays false
      ((sceneCalls h env a clock).filterMap SceneCall.drawStep) = true := by
  rw [sceneCalls_split, List.filterMap_append]
  refine bindsBeforeArrays_append _ _ (by rfl) false ?_
  simp only [List.filterMap_append, gateCalls_steps]
  iterate 14 (refine bindsBeforeArrays_append _ _ (by rfl) false ?_)
  rfl

/-- Two runs of the same draw steps from views that agree on the cached quad
name draw the same meshes, whatever was bound and drawn before, provided each
`glDrawArrays` of the steps follows a binding made by the steps. -/
theorem steps_fixed (env : SceneEnv) (L : List DrawStep) :
    ∀ (bound : Bool) (v v' : MeshView) (p p' X : List MeshKey),
      bindsBeforeArrays bound L = true → v.quadVAO = v'.quadVAO →
      (bound = true → v.vertexArray = v'.vertexArray) →
      v.drawn = p ++ X → v'.drawn = p' ++ X →
      ∃ Y, (L.foldl (MeshView.step env) v).drawn = p ++ Y ∧
        (L.foldl (MeshView.step env) v').drawn = p' ++ Y := by
  induction L with
  | nil => intro bound v v' p p' X _ _ _ hX hX'; exact ⟨X, hX, hX'⟩
  | cons d rest ih =>
    intro bound v v' p p' X hb hq hv hX hX'
    cases d with
    | bind vao =>
      exact ih true _ _ p p' X hb hq (fun _ => rfl) hX hX'
    | arrays mode first count =>
      simp only [bindsBeforeArrays, Bool.and_eq_true] at hb
      have hva := hv hb.1
      refine ih bound _ _ p p' (X ++ [⟨v.vertexArray, mode, first, count⟩]) hb.2 hq hv ?_ ?_
      · simp only [MeshView.step, hX, List.append_assoc]
      · simp only [MeshView.step, hX', List.append_assoc, hva]
    | model m =>
      refine ih false _ _ p p' (X ++ (env.meshes m).map Mesh.key) hb hq
        (fun hf => Bool.noConfusion hf) ?_ ?_
      · simp only [MeshView.step, hX, List.append_assoc]
      · simp only [MeshView.step, hX', List.append_assoc]
    | quad =>
      refine ih true _ _ p p'
        (X ++ [⟨quadArray env v.quadVAO, GL_TRIANGLES, 0, 6⟩]) hb ?_ (fun _ => rfl) ?_ ?_
      · simp only [MeshView.step, hq]
      · simp only [MeshView.step, hX, List.append_assoc]
      · simp only [MeshView.step, hX', List.append_assoc, hq]

theorem inputMove_quads (w : Window) (a : Globals) :
    (inputMove w a).quadVAO = a.quadVAO ∧ (inputMove w a).quadVAO1 = a.quadVAO1 := by
  unfold inputMove cameraProcessKeyboard
  split_ifs <;> exact ⟨rfl, rfl⟩

theorem inputHeightScale_quads (w : Window) (a : Globals) :
    (inputHeightScale w a).quadVAO = a.quadVAO ∧
    (inputHeightScale w a).quadVAO1 = a.quadVAO1 := by
  unfold inputHeightScale
  split_ifs <;> exact ⟨rfl, rfl⟩

theorem inputBloom_quads (w : Window) (a : Globals) :
    (inputBloom w a).quadVAO = a.quadVAO ∧ (inputBloom w a).quadVAO1 = a.quadVAO1 := by
  unfold inputBloom
  split_ifs <;> exact ⟨rfl, rfl⟩

theorem inputExposure_quads (w : Window) (a : Globals) :
    (inputExposure w a).quadVAO = a.quadVAO ∧ (inputExposure w a).quadVAO1 = a.quadVAO1 := by
  unfold inputExposure
  split_ifs <;> exact ⟨rfl, rfl⟩

theorem frameInput_quads (now : ℚ) (w : Window) (a : Globals) :
    (frameInput now w a).2.quadVAO = a.quadVAO ∧
    (frameInput now w a).2.quadVAO1 = a.quadVAO1 := by
  have e : (frameInput now w a).2
      = inputExposure (inputEscape w) (inputBloom (inputEscape w)
          (inputHeightScale (inputEscape w) (inputMove (inputEscape w)
            { a with deltaTime := now - a.lastFrame, lastFrame := now }))) := rfl
  rw [e]
  obtain ⟨e1, e2⟩ := inputExposure_quads (inputEscape w) (inputBloom (inputEscape w)
    (inputHeightScale (inputEscape w) (inputMove (inputEscape w)
      { a with deltaTime := now - a.lastFrame, lastFrame := now })))
  obtain ⟨b1, b2⟩ := inputBloom_quads (inputEscape w)
    (inputHeightScale (inputEscape w) (inputMove (inputEscape w)
      { a with deltaTime := now - a.lastFrame, lastFrame := now }))
  obtain ⟨h1, h2⟩ := inputHeightScale_quads (inputEscape w) (inputMove (inputEscape w)
      { a with deltaTime := now - a.lastFrame, lastFrame := now })
  obtain ⟨m1, m2⟩ := inputMove_quads (inputEscape w)
      { a with deltaTime := now - a.lastFrame, lastFrame := now }
  exact ⟨e1.trans (b1.trans (h1.trans m1)), e2.trans (b2.trans (h2.trans m2))⟩

theorem meshView_drawn (s : State) : s.meshView.drawn = s.gl.draws.map DrawCall.mesh := rfl

/-- The log at the end of the scene pass of a frame, seen through the meshes. -/
theorem frameScene_view (h : Handles) (env : SceneEnv) (later : ℚ → Nat → ℚ)
    (now : ℚ) (w : Window) (s : State) :
    (frameScene (scenePass h env later) now w s).2.gl.draws.map DrawCall.mesh
      = (((sceneCalls h env Globals.init (fun _ => 0)).filterMap SceneCall.drawStep).foldl
          (MeshView.step env)
          ⟨s.gl.vertexArray, s.app.quadVAO, s.gl.draws.map DrawCall.mesh⟩).drawn := by
  have e : (frameScene (scenePass h env later) now w s).2.gl
      = (runScene env (sceneCalls h env (frameInput now w s.app).2 (later now))
          { app := (frameInput now w s.app).2, gl := s.gl, out := [] }).gl := by
    simp only [frameScene, scenePass]
  have hv := runScene_view env (sceneCalls h env (frameInput now w s.app).2 (later now))
    { app := (frameInput now w s.app).2, gl := s.gl, out := [] }
  have hm : State.meshView { app := (frameInput now w s.app).2, gl := s.gl, out := [] }
      = ⟨s.gl.vertexArray, s.app.quadVAO, s.gl.draws.map DrawCall.mesh⟩ := by
    rw [meshView_mk, (frameInput_quads now w s.app).1]
  rw [sceneCalls_steps h env _ Globals.init _ (fun _ => 0), hm] at hv
  rw [e, ← hv, meshView_drawn]

theorem sceneDraws_fixed (h : Handles) (env : SceneEnv) (later later' : ℚ → Nat → ℚ)
    (now now' : ℚ) (w w' : Window) (s s' : State) (hq : s.app.quadVAO = s'.app.quadVAO) :
    ∃ Y, (frameScene (scenePass h env later) now w s).2.gl.draws.map DrawCall.mesh
          = s.gl.draws.map DrawCall.mesh ++ Y ∧
        (frameScene (scenePass h env later') now' w' s').2.gl.draws.map DrawCall.mesh
          = s'.gl.draws.map DrawCall.mesh ++ Y := by
  rw [frameScene_view, frameScene_view]
  exact steps_fixed env _ false _ _ _ _ [] (sceneCalls_bound h env _ _) hq
    (fun hf => Bool.noConfusion hf) (List.append_nil _).symm (List.append_nil _).symm

theorem bloomArray_idem (names : Nat × Nat) (q : Nat) :
    bloomArray names (bloomArray names q) = bloomArray names q := by
  unfold bloomArray
  by_cases hq : q = 0
  · by_cases hn : names.1 = 0
    · simp [hq, hn]
    · simp [hq, hn]
  · simp [hq]

theorem renderQuadForBloom_quadVAO1 (names : Nat × Nat) (s : State) :
    (renderQuadForBloom names s).app.quadVAO1 = bloomArray names s.app.quadVAO1 := by
  unfold renderQuadForBloom bloomArray
  by_cases h0 : s.app.quadVAO1 = 0
  · simp [h0]
  · simp [h0]

theorem bloomDraw_mesh (names : Nat × Nat) (s : State) :
    (bloomDraw names s).mesh = ⟨bloomArray names s.app.quadVAO1, GL_TRIANGLE_STRIP, 0, 4⟩ :=
  rfl

theorem blurEntry_quadVAO1 (h : Handles) (sh : Shaders) (names : Nat × Nat) (s : State)
    (i : Nat) :
    bloomArray names (blurEntry h sh names s i).st.app.quadVAO1
      = bloomArray names s.app.quadVAO1 := by
  induction i with
  | zero => rw [blurEntry_zero]; rfl
  | succ i ih =>
    rw [blurEntry_succ, blurIteration_st, renderQuadForBloom_quadVAO1, bloomArray_idem]
    exact ih

theorem blurDraws_mesh (h : Handles) (sh : Shaders) (names : Nat × Nat) (n : Nat)
    (s : State) :
    (blurDraws h sh names n s).map DrawCall.mesh
      = List.replicate n ⟨bloomArray names s.app.quadVAO1, GL_TRIANGLE_STRIP, 0, 4⟩ := by
  rw [blurDraws_eq, List.eq_replicate_iff]
  refine ⟨by simp, ?_⟩
  intro b hb
  simp only [List.map_map, List.mem_map, List.mem_range, Function.comp] at hb
  obtain ⟨j, _, rfl⟩ := hb
  have e : (iterDraw h sh names (blurEntry h sh names s j)).mesh
      = ⟨bloomArray names (blurEntry h sh names s j).st.app.quadVAO1,
          GL_TRIANGLE_STRIP, 0, 4⟩ := rfl
  rw [e, blurEntry_quadVAO1]

theorem compositeDraw_mesh (h : Handles) (sh : Shaders) (names : Nat × Nat) (n : Nat)
    (s : State) :
    (compositeDraw h sh names (blurStage h sh names n s).horizontal
        (blurStage h sh names n s).st).mesh
      = ⟨bloomArray names s.app.quadVAO1, GL_TRIANGLE_STRIP, 0, 4⟩ := by
  have e : (compositeDraw h sh names (blurStage h sh names n s).horizontal
        (blurStage h sh names n s).st).mesh
      = ⟨bloomArray names (blurEntry h sh names s n).st.app.quadVAO1,
          GL_TRIANGLE_STRIP, 0, 4⟩ := rfl
  rw [e, blurEntry_quadVAO1]

theorem frameScene_quadVAO1 (scene : ScenePass) (now : ℚ) (w : Window) (s : State) :
    (frameScene scene now w s).2.app.quadVAO1 = s.app.quadVAO1 :=
  (frameInput_quads now w s.app).2

/-- The meshes of the draws of a frame: those of the scene pass, then the
bloom quad eleven times. -/
theorem frameDraws_mesh (h : Handles) (sh : Shaders) (names : Nat × Nat) (scene : ScenePass)
    (now : ℚ) (w : Window) (s : State) (Y : List MeshKey)
    (hY : (frameScene scene now w s).2.gl.draws.map DrawCall.mesh
      = s.gl.draws.map DrawCall.mesh ++ Y) :
    (frameDraws h sh names scene now w s).map DrawCall.mesh
      = Y ++ List.replicate 10 ⟨bloomArray names s.app.quadVAO1, GL_TRIANGLE_STRIP, 0, 4⟩
          ++ [⟨bloomArray names s.app.quadVAO1, GL_TRIANGLE_STRIP, 0, 4⟩] := by
  unfold frameDraws
  rw [renderFrame_draws, List.map_drop, List.map_append, List.map_append, hY, blurDraws_mesh,
    List.map_cons, List.map_nil, compositeDraw_mesh, frameScene_quadVAO1, List.append_assoc,
    List.append_assoc, ← List.length_map s.gl.draws DrawCall.mesh, List.drop_left,
    ← List.append_assoc]
  rfl

theorem gateCalls_drawnModel (gateClosed : Bool) :
    (gateCalls gateClosed).filterMap SceneCall.drawnModel = [.fenceModel, .fenceModel] := by
  cases gateClosed <;> rfl

theorem frameScene_draws_length (h : Handles) (env : SceneEnv) (later : ℚ → Nat → ℚ)
    (now : ℚ) (w : Window) (s : State) :
    s.gl.draws.length ≤ (frameScene (scenePass h env later) now w s).2.gl.draws.length := by
  obtain ⟨Y, hY, _⟩ := sceneDraws_fixed h env later later now now w w s s rfl
  have := congrArg List.length hY
  simp only [List.length_map, List.length_append] at this
  omega

theorem frameDraws_eq (h : Handles) (sh : Shaders) (names : Nat × Nat) (env : SceneEnv)
    (later : ℚ → Nat → ℚ) (now : ℚ) (w : Window) (s : State) :
    frameDraws h sh names (scenePass h env later) now w s
      = sceneDraws (scenePass h env later) now w s
        ++ blurDraws h sh names amount (frameScene (scenePass h env later) now w s).2
        ++ [compositeDraw h sh names
              (blurStage h sh names amount
                (frameScene (scenePass h env later) now w s).2).horizontal
              (blurStage h sh names amount
                (frameScene (scenePass h env later) now w s).2).st] := by
  unfold frameDraws sceneDraws
  rw [renderFrame_draws, List.append_assoc,
    List.drop_append_of_le_length (frameScene_draws_length h env later now w s),
    List.append_assoc]



theorem steps_length (env : SceneEnv) (L : List DrawStep) :
    ∀ v : MeshView, (L.foldl (MeshView.step env) v).drawn.length
      = v.drawn.length + (L.map (fun d => match d with
          | .model m => (env.meshes m).length
          | .arrays _ _ _ => 1
          | .quad => 1
          | .bind _ => 0)).sum := by
  induction L with
  | nil => intro v; simp
  | cons d rest ih =>
    intro v
    rw [List.foldl_cons, ih]
    cases d <;> simp [MeshView.step] <;> omega

set_option maxRecDepth 100000 in
theorem demo_scene_count :
    (sceneDraws (scenePass demoHandles demoSceneEnv demoLater) 0 demoWindow demoState).length
      = 144 := by
  unfold sceneDraws
  have hv := frameScene_view demoHandles demoSceneEnv demoLater 0 demoWindow demoState
  have hl := congrArg List.length hv
  rw [steps_length, List.length_map] at hl
  rw [List.length_drop, hl]
  simp only [List.length_map, Nat.add_sub_cancel_left]
  decide

/-- C20: the draw calls of a frame, as the sequence of meshes drawn (vertex
array, primitive mode, first vertex and count of each call in issue order),
are the same for any two program states that agree on the cached vertex-array
names of the two quads: the toggles `gateClosed`, `blinnPhong`, `bloom` and
`cursorEnabled`, the values of `exposure` and `heightScale`, the keys held, the
clock and everything drawn or bound before have no influence. Either branch of
the gate draws the fence model exactly twice and nothing else, and a frame's
draws are those of the scene pass, then ten blur draws, then the composite
draw, whatever the value of `bloom`. -/
theorem frame_draw_sequence_fixed (h : Handles) (sh : Shaders) (names : Nat × Nat)
    (env : SceneEnv) (later later' : ℚ → Nat → ℚ) (now now' : ℚ) (w w' : Window)
    (s s' : State) (hq : s.app.quadVAO = s'.app.quadVAO)
    (hq1 : s.app.quadVAO1 = s'.app.quadVAO1) :
    (frameDraws h sh names (scenePass h env later) now w s).map DrawCall.mesh
      = (frameDraws h sh names (scenePass h env later') now' w' s').map DrawCall.mesh ∧
    (∀ gateClosed : Bool,
      (gateCalls gateClosed).filterMap SceneCall.drawnModel = [.fenceModel, .fenceModel]) ∧
    frameDraws h sh names (scenePass h env later) now w s
      = sceneDraws (scenePass h env later) now w s
        ++ blurDraws h sh names amount (frameScene (scenePass h env later) now w s).2
        ++ [compositeDraw h sh names
              (blurStage h sh names amount
                (frameScene (scenePass h env later) now w s).2).horizontal
              (blurStage h sh names amount
                (frameScene (scenePass h env later) now w s).2).st] ∧
    (blurDraws h sh names amount (frameScene (scenePass h env later) now w s).2).length
      = 10 := by
  obtain ⟨Y, hY, hY'⟩ := sceneDraws_fixed h env later later' now now' w w' s s' hq
  refine ⟨?_, gateCalls_drawnModel, frameDraws_eq h sh names env later now w s,
    blurDraws_length h sh names amount _⟩
  rw [frameDraws_mesh h sh names _ now w s Y hY, frameDraws_mesh h sh names _ now' w' s' Y hY',
    hq1]


theorem frame_draw_sequence_fixed_witness :
    demoState.app.quadVAO = toggledState.app.quadVAO ∧
    demoState.app.quadVAO1 = toggledState.app.quadVAO1 ∧
    (sceneDraws (scenePass demoHandles demoSceneEnv demoLater) 0 demoWindow demoState).length
      = 144 ∧
    (frameDraws demoHandles demoShaders demoNames
        (scenePass demoHandles demoSceneEnv demoLater) 0 demoWindow demoState).map
        DrawCall.mesh
      = (frameDraws demoHandles demoShaders demoNames
          (scenePass demoHandles demoSceneEnv demoLater) 1 zWindow toggledState).map
          DrawCall.mesh ∧
    (∀ gateClosed : Bool,
      (gateCalls gateClosed).filterMap SceneCall.drawnModel = [.fenceModel, .fenceModel]) ∧
    frameDraws demoHandles demoShaders demoNames
        (scenePass demoHandles demoSceneEnv demoLater) 0 demoWindow demoState
      = sceneDraws (scenePass demoHandles demoSceneEnv demoLater) 0 demoWindow demoState
        ++ blurDraws demoHandles demoShaders demoNames amount
            (frameScene (scenePass demoHandles demoSceneEnv demoLater) 0 demoWindow
              demoState).2
        ++ [compositeDraw demoHandles demoShaders demoNames
              (blurStage demoHandles demoShaders demoNames amount
                (frameScene (scenePass demoHandles demoSceneEnv demoLater) 0 demoWindow
                  demoState).2).horizontal
              (blurStage demoHandles demoShaders demoNames amount
                (frameScene (scenePass demoHandles demoSceneEnv demoLater) 0 demoWindow
                  demoState).2).st] ∧
    (blurDraws demoHandles demoShaders demoNames amount
      (frameScene (scenePass demoHandles demoSceneEnv demoLater) 0 demoWindow
        demoState).2).length = 10 :=
  ⟨rfl, rfl, demo_scene_count,
    frame_draw_sequence_fixed demoHandles demoShaders demoNames demoSceneEnv demoLater
      demoLater 0 1 demoWindow zWindow demoState toggledState rfl rfl⟩

/-! ## The scene pass: the globals -/

theorem runCall_app (env : SceneEnv) (s : State) (c : SceneCall)
    (hc : c.isRenderQuad = false) : (runCall env s c).app = s.app := by
  cases c with
  | renderQuad => exact Bool.noConfusion hc
  | glActiveTexture texture =>
    have e : runCall env s (.glActiveTexture texture)
        = State.mk s.app (glActiveTexture texture s.gl) s.out := rfl
    rw [e]
  | _ => rfl

theorem runScene_app (env : SceneEnv) (L : List SceneCall) :
    ∀ s : State, L.any SceneCall.isRenderQuad = false → (runScene env L s).app = s.app := by
  induction L with
  | nil => intro s _; rfl
  | cons c rest ih =>
    intro s hL
    simp only [List.any_cons, Bool.or_eq_false_iff] at hL
    have hd : runScene env (c :: rest) s = runScene env rest (runCall env s c) := rfl
    rw [hd, ih _ hL.2, runCall_app env s c hL.1]

theorem runScene_append (env : SceneEnv) (L1 L2 : List SceneCall) (s : State) :
    runScene env (L1 ++ L2) s = runScene env L2 (runScene env L1 s) :=
  List.foldl_append _ _ _ _

theorem renderQuad_app (names : Nat × Nat) (s : State) :
    (renderQuad names s).app
      = (renderQuad names { app := s.app, gl := GLState.init, out := [] }).app := by
  unfold renderQuad
  by_cases h0 : s.app.quadVAO = 0
  · simp [h0]
  · simp [h0]

/-- The globals at the end of the scene pass: only `renderQuad` changes them,
so the scene parameter `scenePass` hands `frameScene` the right quad names. -/
theorem scenePass_app (h : Handles) (env : SceneEnv) (later : ℚ → Nat → ℚ) (a : Globals)
    (clock : Nat → ℚ) (g : GLState) (o : List String) :
    (runScene env (sceneCalls h env a clock) { app := a, gl := g, out := o }).app
      = { a with quadVAO := ((scenePass h env later).quad a).1,
                 quadVBO := ((scenePass h env later).quad a).2 } := by
  have hs : sceneCalls h env a clock
      = (clearCalls h ++ ufoLightCalls clock ++ ourLightCalls a ++ cameraCalls ++
          ufoCalls clock ++ stallCalls ++ hutRotatedCalls ++ hutCalls ++ humanCalls ++
          wellCalls ++ fenceCalls ++ fenceRotatedCalls ++ gateCalls a.gateClosed ++
          sheepInsideCalls ++ sheepOutsideCalls ++ skyboxCalls env ++ blendingCalls env ++
          vegetationCalls ++ vegetationRotatedCalls ++ (parallaxCalls env a).take 53) ++
        ([.renderQuad] ++ [.glDisable GL_CULL_FACE]) := by
    have hd : (parallaxCalls env a).drop 53
        = [.renderQuad] ++ [.glDisable GL_CULL_FACE] := by
      simp [parallaxCalls]
    have hp : parallaxCalls env a
        = (parallaxCalls env a).take 53 ++ ([.renderQuad] ++ [.glDisable GL_CULL_FACE]) := by
      rw [← hd, List.take_append_drop]
    unfold sceneCalls
    conv_lhs => rw [hp]
    simp only [List.append_assoc]
  have hg : ∀ b : Bool, (gateCalls b).any SceneCall.isRenderQuad = false := by
    intro b; cases b <;> rfl
  rw [hs, runScene_append, runScene_append]
  rw [runScene_app env [.glDisable GL_CULL_FACE] _ rfl]
  have h1 : runScene env [SceneCall.renderQuad] = renderQuad env.quadNames := rfl
  rw [h1, renderQuad_app, runScene_app]
  · by_cases h0 : a.quadVAO = 0
    · simp [scenePass, renderQuad, h0]
    · simp [scenePass, renderQuad, h0]
  · simp only [List.any_append, Bool.or_eq_false_iff, hg]
    refine ⟨⟨⟨⟨⟨⟨⟨⟨⟨⟨⟨⟨⟨⟨⟨⟨⟨⟨⟨?_, ?_⟩, ?_⟩, ?_⟩, ?_⟩, ?_⟩, ?_⟩, ?_⟩, ?_⟩, ?_⟩, ?_⟩, ?_⟩,
      trivial⟩, ?_⟩, ?_⟩, ?_⟩, ?_⟩, ?_⟩, ?_⟩, ?_⟩ <;> rfl

/-! ## The bloom quad as a mesh -/

theorem bloom_fetch (names : Nat × Nat) (s : State) (h0 : s.app.quadVAO1 = 0) (i : Nat) :
    (renderQuadForBloom names s).gl.fetch names.1 0 i
      = some ((bloomQuadVertices.drop (0 + i * 5)).take 3) ∧
    (renderQuadForBloom names s).gl.fetch names.1 1 i
      = some ((bloomQuadVertices.drop (3 + i * 5)).take 2) := by
  obtain ⟨_, _, hb, a0, a1⟩ := renderQuadForBloom_first names s h0
  unfold GLState.fetch
  rw [a0, a1]
  simp only [Option.map_some', VertexAttrib.fetch, hb, and_self]

/-- C21: the quad that `renderQuadForBloom` builds on its first call is the
square of normalized device coordinates. Read through the two vertex
attributes, the four vertices that the draw uses have the positions
`(-1, 1, 0)`, `(-1, -1, 0)`, `(1, 1, 0)`, `(1, -1, 0)` in this order, one
corner each, and every vertex with position `(x, y, 0)` has the texture
coordinates `((x + 1) / 2, (y + 1) / 2)`, which are the four corners `(0, 1)`,
`(0, 0)`, `(1, 1)`, `(1, 0)` of the unit square. The draw is a strip of these
four vertices. -/
theorem bloom_quad_is_ndc_square (names : Nat × Nat) (s : State)
    (h0 : s.app.quadVAO1 = 0) :
    (List.range 4).map ((renderQuadForBloom names s).gl.fetch names.1 0)
      = [some [-1, 1, 0], some [-1, -1, 0], some [1, 1, 0], some [1, -1, 0]] ∧
    (List.range 4).map ((renderQuadForBloom names s).gl.fetch names.1 1)
      = [some [0, 1], some [0, 0], some [1, 1], some [1, 0]] ∧
    [([-1, 1, 0] : List ℚ), [-1, -1, 0], [1, 1, 0], [1, -1, 0]].Nodup ∧
    (∀ i, i < 4 → ∃ x y : ℚ,
      (renderQuadForBloom names s).gl.fetch names.1 0 i = some [x, y, 0] ∧
      (renderQuadForBloom names s).gl.fetch names.1 1 i
        = some [(x + 1) / 2, (y + 1) / 2]) ∧
    (bloomDraw names s).vertexArray = names.1 ∧
    (bloomDraw names s).mode = GL_TRIANGLE_STRIP ∧
    (bloomDraw names s).first = 0 ∧ (bloomDraw names s).count = 4 ∧
    (renderQuadForBloom names s).gl.draws = s.gl.draws ++ [bloomDraw names s] := by
  have hf := bloom_fetch names s h0
  refine ⟨?_, ?_, ?_, ?_, ?_, rfl, rfl, rfl, renderQuadForBloom_draws names s⟩
  · simp only [List.range, List.range.loop, List.map_cons, List.map_nil, (hf _).1]
    rfl
  · simp only [List.range, List.range.loop, List.map_cons, List.map_nil, (hf _).2]
    rfl
  · simp only [List.nodup_cons, List.mem_cons, List.cons.injEq, List.mem_singleton,
      List.not_mem_nil, List.nodup_nil]
    norm_num
  · intro i hi
    rw [(hf i).1, (hf i).2]
    interval_cases i
    · exact ⟨-1, 1, rfl, by norm_num [bloomQuadVertices]⟩
    · exact ⟨-1, -1, rfl, by norm_num [bloomQuadVertices]⟩
    · exact ⟨1, 1, rfl, by norm_num [bloomQuadVertices]⟩
    · exact ⟨1, -1, rfl, by norm_num [bloomQuadVertices]⟩
  · simp [bloomDraw, h0]

theorem bloom_quad_is_ndc_square_witness :
    demoState.app.quadVAO1 = 0 ∧
    (List.range 4).map ((renderQuadForBloom demoNames demoState).gl.fetch demoNames.1 0)
      = [some [-1, 1, 0], some [-1, -1, 0], some [1, 1, 0], some [1, -1, 0]] ∧
    (List.range 4).map ((renderQuadForBloom demoNames demoState).gl.fetch demoNames.1 1)
      = [some [0, 1], some [0, 0], some [1, 1], some [1, 0]] ∧
    [([-1, 1, 0] : List ℚ), [-1, -1, 0], [1, 1, 0], [1, -1, 0]].Nodup ∧
    (∀ i, i < 4 → ∃ x y : ℚ,
      (renderQuadForBloom demoNames demoState).gl.fetch demoNames.1 0 i = some [x, y, 0] ∧
      (renderQuadForBloom demoNames demoState).gl.fetch demoNames.1 1 i
        = some [(x + 1) / 2, (y + 1) / 2]) ∧
    (bloomDraw demoNames demoState).vertexArray = demoNames.1 ∧
    (bloomDraw demoNames demoState).mode = GL_TRIANGLE_STRIP ∧
    (bloomDraw demoNames demoState).first = 0 ∧ (bloomDraw demoNames demoState).count = 4 ∧
    (renderQuadForBloom demoNames demoState).gl.draws
      = demoState.gl.draws ++ [bloomDraw demoNames demoState] :=
  ⟨rfl, bloom_quad_is_ndc_square demoNames demoState rfl⟩

/-! ## The exposure and height-scale grids -/

theorem processInput_exposure_grid (w : Window) (a : Globals)
    (ha : ∃ k : ℕ, a.exposure = k / 1000) :
    ∃ k : ℕ, (processInput w a).2.exposure = k / 1000 := by
  obtain ⟨k, hk⟩ := ha
  rw [processInput_exposure, hk]
  by_cases hz : w.keyDown GLFW_KEY_Z = true
  · rw [if_pos hz]
    by_cases hpos : (k : ℚ) / 1000 > 0
    · rw [if_pos hpos]
      have hk0 : 0 < k := by
        rcases Nat.eq_zero_or_pos k with h | h
        · subst h; simp at hpos
        · exact h
      refine ⟨k - 1, ?_⟩
      rw [Nat.cast_sub hk0]
      push_cast
      ring
    · rw [if_neg hpos]
      exact ⟨0, by simp⟩
  · rw [if_neg hz]
    by_cases hc : w.keyDown GLFW_KEY_C = true
    · rw [if_pos hc]
      exact ⟨k + 1, by push_cast; ring⟩
    · rw [if_neg hc]
      exact ⟨k, rfl⟩

theorem processInputs_exposure_grid (keys : List (Nat → Bool)) :
    ∀ (w : Window) (a : Globals), (∃ k : ℕ, a.exposure = k / 1000) →
      ∃ k : ℕ, (processInputs keys (w, a)).2.exposure = k / 1000 := by
  induction keys with
  | nil => intro w a ha; exact ha
  | cons k keys ih =>
    intro w a ha
    rw [processInputs_cons]
    exact ih _ _ (processInput_exposure_grid _ a ha)

/-- From `m` steps of 0.001, `n` frames with Z down leave `m - n` steps, and
none once `n` has reached `m`. -/
theorem processInputs_exposure_down (n : Nat) :
    ∀ (w : Window) (a : Globals) (m : ℕ), a.exposure = m / 1000 →
      (processInputs (List.replicate n zKeys) (w, a)).2.exposure = ((m - n : ℕ) : ℚ) / 1000 := by
  induction n with
  | zero => intro w a m ha; simpa using ha
  | succ n ih =>
    intro w a m ha
    rw [List.replicate_succ, processInputs_cons]
    have hstep : (processInput { w with keyDown := zKeys } a).2.exposure
        = ((m - 1 : ℕ) : ℚ) / 1000 := by
      rw [processInput_exposure, ha]
      have hz : zKeys GLFW_KEY_Z = true := by simp [zKeys]
      simp only [hz, if_true]
      rcases Nat.eq_zero_or_pos m with h | h
      · subst h; simp
      · have : (m : ℚ) / 1000 > 0 := by positivity
        rw [if_pos this, Nat.cast_sub h]
        push_cast
        ring
    rw [ih _ _ (m - 1) hstep]
    congr 2
    omega

/-- C22: under exact arithmetic, from the initial globals (`exposure = 1`),
after the `processInput` calls of any finite run of frames with arbitrary key
states, `exposure` is `k * 0.001` for a natural number `k`, so it is not
negative. With Z held down, `n` frames from the start leave `1000 - n` steps:
frame 1000 reaches exactly 0 and every later frame stays at 0. -/
theorem exposure_on_grid (keys : List (Nat → Bool)) (w : Window) (n : Nat) :
    Globals.init.exposure = 1 ∧
    (∃ k : ℕ, (processInputs keys (w, Globals.init)).2.exposure = k * (1 / 1000)) ∧
    0 ≤ (processInputs keys (w, Globals.init)).2.exposure ∧
    (processInputs (List.replicate n zKeys) (w, Globals.init)).2.exposure
      = ((1000 - n : ℕ) : ℚ) * (1 / 1000) ∧
    (processInputs (List.replicate 1000 zKeys) (w, Globals.init)).2.exposure = 0 ∧
    (processInputs (List.replicate (1000 + n) zKeys) (w, Globals.init)).2.exposure = 0 := by
  have hinit : Globals.init.exposure = ((1000 : ℕ) : ℚ) / 1000 := by
    simp [Globals.init]
  obtain ⟨k, hk⟩ := processInputs_exposure_grid keys w Globals.init ⟨1000, hinit⟩
  refine ⟨rfl, ⟨k, by rw [hk]; ring⟩, by rw [hk]; positivity, ?_, ?_, ?_⟩
  · rw [processInputs_exposure_down n w Globals.init 1000 hinit]; ring
  · rw [processInputs_exposure_down 1000 w Globals.init 1000 hinit]; simp
  · rw [processInputs_exposure_down (1000 + n) w Globals.init 1000 hinit]; simp

theorem inputHeightScale_heightScale (w : Window) (a : Globals) :
    (inputHeightScale w a).heightScale
      = if w.keyDown GLFW_KEY_Q = true then
          (if a.heightScale > 0 then a.heightScale - 5 / 10000 else 0)
        else if w.keyDown GLFW_KEY_E = true then
          (if a.heightScale < 1 then a.heightScale + 5 / 10000 else 1)
        else a.heightScale := by
  unfold inputHeightScale
  simp only [glfwGetKey_press]
  repeat' split
  all_goals rfl

theorem inputBloom_heightScale (w : Window) (a : Globals) :
    (inputBloom w a).heightScale = a.heightScale := by
  unfold inputBloom
  simp only []
  repeat' split
  all_goals rfl

theorem inputExposure_heightScale (w : Window) (a : Globals) :
    (inputExposure w a).heightScale = a.heightScale := by
  unfold inputExposure
  repeat' split
  all_goals rfl

theorem processInput_heightScale (w : Window) (a : Globals) :
    (processInput w a).2.heightScale
      = if w.keyDown GLFW_KEY_Q = true then
          (if a.heightScale > 0 then a.heightScale - 5 / 10000 else 0)
        else if w.keyDown GLFW_KEY_E = true then
          (if a.heightScale < 1 then a.heightScale + 5 / 10000 else 1)
        else a.heightScale := by
  unfold processInput
  simp only [inputExposure_heightScale, inputBloom_heightScale, inputHeightScale_heightScale,
    inputEscape_keyDown, (inputMove_fields _ _).2.2.2]

theorem processInput_heightScale_grid (w : Window) (a : Globals)
    (ha : ∃ k : ℕ, k ≤ 2000 ∧ a.heightScale = k / 2000) :
    ∃ k : ℕ, k ≤ 2000 ∧ (processInput w a).2.heightScale = k / 2000 := by
  obtain ⟨k, hk2, hk⟩ := ha
  rw [processInput_heightScale, hk]
  by_cases hq : w.keyDown GLFW_KEY_Q = true
  · rw [if_pos hq]
    by_cases hpos : (k : ℚ) / 2000 > 0
    · rw [if_pos hpos]
      have hk0 : 0 < k := by
        rcases Nat.eq_zero_or_pos k with h | h
        · subst h; simp at hpos
        · exact h
      refine ⟨k - 1, by omega, ?_⟩
      rw [Nat.cast_sub hk0]
      push_cast
      ring
    · rw [if_neg hpos]
      exact ⟨0, by omega, by simp⟩
  · rw [if_neg hq]
    by_cases he : w.keyDown GLFW_KEY_E = true
    · rw [if_pos he]
      by_cases hlt : (k : ℚ) / 2000 < 1
      · rw [if_pos hlt]
        have hk1 : k < 2000 := by
          by_contra hge
          have h2000 : k = 2000 := by omega
          subst h2000
          norm_num at hlt
        exact ⟨k + 1, by omega, by push_cast; ring⟩
      · rw [if_neg hlt]
        exact ⟨2000, le_refl _, by norm_num⟩
    · rw [if_neg he]
      exact ⟨k, hk2, rfl⟩

theorem processInputs_heightScale_grid (keys : List (Nat → Bool)) :
    ∀ (w : Window) (a : Globals), (∃ k : ℕ, k ≤ 2000 ∧ a.heightScale = k / 2000) →
      ∃ k : ℕ, k ≤ 2000 ∧ (processInputs keys (w, a)).2.heightScale = k / 2000 := by
  induction keys with
  | nil => intro w a ha; exact ha
  | cons k keys ih =>
    intro w a ha
    rw [processInputs_cons]
    exact ih _ _ (processInput_heightScale_grid _ a ha)

/-- C23: under exact arithmetic, from the initial globals (`heightScale =
0.0305`), after the `processInput` calls of any finite run of frames with
arbitrary key states, `heightScale` is `k * 0.0005` for a natural number
`k ≤ 2000`, so it lies between 0 and 1. One call changes it as follows: with Q
down, whatever the state of E, it drops by 0.0005 when it is positive and
becomes 0 otherwise; with Q up and E down it rises by 0.0005 when it is below
1 and becomes 1 otherwise; with both up it keeps its value. -/
theorem heightScale_on_grid (keys : List (Nat → Bool)) (w w1 : Window) (a : Globals) :
    Globals.init.heightScale = 305 / 10000 ∧
    (∃ k : ℕ, k ≤ 2000 ∧
      (processInputs keys (w, Globals.init)).2.heightScale = k * (5 / 10000)) ∧
    0 ≤ (processInputs keys (w, Globals.init)).2.heightScale ∧
    (processInputs keys (w, Globals.init)).2.heightScale ≤ 1 ∧
    (processInput w1 a).2.heightScale
      = (if w1.keyDown GLFW_KEY_Q = true then
          (if a.heightScale > 0 then a.heightScale - 5 / 10000 else 0)
        else if w1.keyDown GLFW_KEY_E = true then
          (if a.heightScale < 1 then a.heightScale + 5 / 10000 else 1)
        else a.heightScale) ∧
    (processInput { w1 with keyDown := qeKeys } a).2.heightScale
      = (if a.heightScale > 0 then a.heightScale - 5 / 10000 else 0) := by
  have hinit : ∃ k : ℕ, k ≤ 2000 ∧ Globals.init.heightScale = k / 2000 :=
    ⟨61, by norm_num, by norm_num [Globals.init]⟩
  obtain ⟨k, hk2, hk⟩ := processInputs_heightScale_grid keys w Globals.init hinit
  have hkq : (k : ℚ) ≤ 2000 := by exact_mod_cast hk2
  refine ⟨rfl, ⟨k, hk2, by rw [hk]; ring⟩, by rw [hk]; positivity, ?_,
    processInput_heightScale w1 a, ?_⟩
  · rw [hk, div_le_one (by norm_num)]
    exact hkq
  · rw [processInput_heightScale]
    have hq : qeKeys GLFW_KEY_Q = true := by simp [qeKeys]
    simp only [hq, if_true]

/-! ## The key and mouse callbacks -/

theorem key_callback_eq (key scancode action mods : Nat) (a : Globals) :
    key_callback key scancode action mods a
      = if action = GLFW_PRESS then
          (if key = GLFW_KEY_F1 then { a with cursorEnabled := !a.cursorEnabled }
           else if key = GLFW_KEY_G then { a with gateClosed := !a.gateClosed }
           else if key = GLFW_KEY_M then { a with blinnPhong := !a.blinnPhong }
           else a)
        else a := by
  have hGF : ¬ GLFW_KEY_G = GLFW_KEY_F1 := by decide
  have hMF : ¬ GLFW_KEY_M = GLFW_KEY_F1 := by decide
  have hMG : ¬ GLFW_KEY_M = GLFW_KEY_G := by decide
  have hFG : ¬ GLFW_KEY_F1 = GLFW_KEY_G := by decide
  have hFM : ¬ GLFW_KEY_F1 = GLFW_KEY_M := by decide
  have hGM : ¬ GLFW_KEY_G = GLFW_KEY_M := by decide
  unfold key_callback
  by_cases hp : action = GLFW_PRESS
  · by_cases h1 : key = GLFW_KEY_F1
    · subst h1
      simp only [hp, and_self, if_true, hFG, hFM, false_and, if_false]
    · by_cases h2 : key = GLFW_KEY_G
      · subst h2
        simp only [hp, and_self, and_true, if_true, hGF, hGM, false_and, if_false]
      · by_cases h3 : key = GLFW_KEY_M
        · subst h3
          simp only [hp, and_self, and_true, if_true, hMF, hMG, false_and, if_false]
        · simp only [hp, h1, h2, h3, false_and, if_false, if_true]
  · simp only [hp, and_false, if_false]

/-- C24: `key_callback` acts only on a press of F1, G or M. An event whose
action is not `GLFW_PRESS`, or whose key is none of the three, leaves all
globals as they are. A press of F1 negates `cursorEnabled`, a press of G
negates `gateClosed`, a press of M negates `blinnPhong`, each leaving the two
other flags (and every other global) unchanged. Two successive presses of the
same key, whichever it is, restore the state. -/
theorem key_callback_toggles (key scancode action mods scancode1 mods1 : Nat)
    (a : Globals) :
    (action ≠ GLFW_PRESS → key_callback key scancode action mods a = a) ∧
    (key ≠ GLFW_KEY_F1 → key ≠ GLFW_KEY_G → key ≠ GLFW_KEY_M →
      key_callback key scancode action mods a = a) ∧
    key_callback GLFW_KEY_F1 scancode GLFW_PRESS mods a
      = { a with cursorEnabled := !a.cursorEnabled } ∧
    key_callback GLFW_KEY_G scancode GLFW_PRESS mods a
      = { a with gateClosed := !a.gateClosed } ∧
    key_callback GLFW_KEY_M scancode GLFW_PRESS mods a
      = { a with blinnPhong := !a.blinnPhong } ∧
    key_callback key scancode1 GLFW_PRESS mods1 (key_callback key scancode GLFW_PRESS mods a)
      = a := by
  refine ⟨?_, ?_, ?_, ?_, ?_, ?_⟩
  · intro hp
    rw [key_callback_eq, if_neg hp]
  · intro h1 h2 h3
    rw [key_callback_eq]
    simp [h1, h2, h3]
  · rw [key_callback_eq]; simp only [if_true]
  · rw [key_callback_eq]
    rw [if_pos rfl, if_neg (by decide), if_pos rfl]
  · rw [key_callback_eq]
    rw [if_pos rfl, if_neg (by decide), if_neg (by decide), if_pos rfl]
  · have hGF : ¬ GLFW_KEY_G = GLFW_KEY_F1 := by decide
    have hMF : ¬ GLFW_KEY_M = GLFW_KEY_F1 := by decide
    have hMG : ¬ GLFW_KEY_M = GLFW_KEY_G := by decide
    rw [key_callback_eq, key_callback_eq]
    simp only [if_true]
    by_cases h1 : key = GLFW_KEY_F1
    · subst h1
      simp only [if_true, Bool.not_not]
    · by_cases h2 : key = GLFW_KEY_G
      · subst h2
        simp only [hGF, if_true, if_false, Bool.not_not]
      · by_cases h3 : key = GLFW_KEY_M
        · subst h3
          simp only [hMF, hMG, if_true, if_false, Bool.not_not]
        · simp only [h1, h2, h3, if_false]

theorem key_callback_toggles_witness :
    GLFW_REPEAT ≠ GLFW_PRESS ∧
    key_callback GLFW_KEY_G 0 GLFW_REPEAT 0 Globals.init = Globals.init ∧
    GLFW_KEY_W ≠ GLFW_KEY_F1 ∧ GLFW_KEY_W ≠ GLFW_KEY_G ∧ GLFW_KEY_W ≠ GLFW_KEY_M ∧
    key_callback GLFW_KEY_W 0 GLFW_PRESS 0 Globals.init = Globals.init ∧
    key_callback GLFW_KEY_F1 0 GLFW_PRESS 0 Globals.init
      = { Globals.init with cursorEnabled := !Globals.init.cursorEnabled } ∧
    key_callback GLFW_KEY_G 0 GLFW_PRESS 0 Globals.init
      = { Globals.init with gateClosed := !Globals.init.gateClosed } ∧
    key_callback GLFW_KEY_M 0 GLFW_PRESS 0 Globals.init
      = { Globals.init with blinnPhong := !Globals.init.blinnPhong } ∧
    key_callback GLFW_KEY_G 1 GLFW_PRESS 1 (key_callback GLFW_KEY_G 0 GLFW_PRESS 0 Globals.init)
      = Globals.init :=
  ⟨by decide,
    (key_callback_toggles GLFW_KEY_G 0 GLFW_REPEAT 0 1 1 Globals.init).1 (by decide),
    by decide, by decide, by decide,
    (key_callback_toggles GLFW_KEY_W 0 GLFW_PRESS 0 1 1 Globals.init).2.1
      (by decide) (by decide) (by decide),
    (key_callback_toggles GLFW_KEY_G 0 GLFW_PRESS 0 1 1 Globals.init).2.2⟩

/-- C25: `mouse_callback` under exact arithmetic. On an event at `(x, y)`
with `firstMouse` set, the camera receives the offsets `(0, 0)` and
`firstMouse` is cleared; on an event with `firstMouse` clear it receives
`(x - lastX, lastY - y)`, the y offset reversed, and `firstMouse` stays clear.
In both cases the camera receives exactly this one call, and afterwards
`lastX = x` and `lastY = y`. -/
theorem mouse_callback_offsets (xpos ypos : ℚ) (a : Globals) :
    (a.firstMouse = true →
      (mouse_callback xpos ypos a).camera = a.camera ++ [.ProcessMouseMovement 0 0] ∧
      (mouse_callback xpos ypos a).firstMouse = false) ∧
    (a.firstMouse = false →
      (mouse_callback xpos ypos a).camera
        = a.camera ++ [.ProcessMouseMovement (xpos - a.lastX) (a.lastY - ypos)] ∧
      (mouse_callback xpos ypos a).firstMouse = false) ∧
    (mouse_callback xpos ypos a).lastX = xpos ∧
    (mouse_callback xpos ypos a).lastY = ypos := by
  unfold mouse_callback
  refine ⟨?_, ?_, ?_, ?_⟩
  · intro hf
    simp only [hf, if_true, sub_self, and_self]
  · intro hf
    simp only [hf, Bool.false_eq_true, if_false, and_self]
  · rfl
  · rfl

theorem mouse_callback_offsets_witness :
    Globals.init.firstMouse = true ∧
    (mouse_callback 123 45 Globals.init).camera
      = Globals.init.camera ++ [.ProcessMouseMovement 0 0] ∧
    (mouse_callback 123 45 Globals.init).firstMouse = false ∧
    (mouse_callback 130 40 (mouse_callback 123 45 Globals.init)).camera
      = (mouse_callback 123 45 Globals.init).camera
        ++ [.ProcessMouseMovement (130 - (mouse_callback 123 45 Globals.init).lastX)
              ((mouse_callback 123 45 Globals.init).lastY - 40)] ∧
    (mouse_callback 130 40 (mouse_callback 123 45 Globals.init)).firstMouse = false ∧
    (mouse_callback 130 40 (mouse_callback 123 45 Globals.init)).camera
      = [.ProcessMouseMovement 0 0, .ProcessMouseMovement 7 5] ∧
    (mouse_callback 123 45 Globals.init).lastX = 123 ∧
    (mouse_callback 123 45 Globals.init).lastY = 45 :=
  ⟨rfl,
    ((mouse_callback_offsets 123 45 Globals.init).1 rfl).1,
    ((mouse_callback_offsets 123 45 Globals.init).1 rfl).2,
    ((mouse_callback_offsets 130 40 (mouse_callback 123 45 Globals.init)).2.1
      ((mouse_callback_offsets 123 45 Globals.init).1 rfl).2).1,
    ((mouse_callback_offsets 130 40 (mouse_callback 123 45 Globals.init)).2.1
      ((mouse_callback_offsets 123 45 Globals.init).1 rfl).2).2,
    by norm_num [mouse_callback, Globals.init],
    (mouse_callback_offsets 123 45 Globals.init).2.2.1,
    (mouse_callback_offsets 123 45 Globals.init).2.2.2⟩

/-! ## The tangent frame of the parallax quad -/

/-- The buffer of `renderQuad` holds, for the three vertices of each triangle,
the tangent and bitangent of `triangleFrame`. -/
theorem parallaxQuadVertices_frames :
    parallaxQuadVertices
      = quadRow ⟨-1, 1, 0⟩ quadNormal ⟨0, 1⟩ quadTriangle1.tangent quadTriangle1.bitangent ++
        quadRow ⟨-1, -1, 0⟩ quadNormal ⟨0, 0⟩ quadTriangle1.tangent quadTriangle1.bitangent ++
        quadRow ⟨1, -1, 0⟩ quadNormal ⟨1, 0⟩ quadTriangle1.tangent quadTriangle1.bitangent ++
        quadRow ⟨-1, 1, 0⟩ quadNormal ⟨0, 1⟩ quadTriangle2.tangent quadTriangle2.bitangent ++
        quadRow ⟨1, -1, 0⟩ quadNormal ⟨1, 0⟩ quadTriangle2.tangent quadTriangle2.bitangent ++
        quadRow ⟨1, 1, 0⟩ quadNormal ⟨1, 1⟩ quadTriangle2.tangent quadTriangle2.bitangent :=
  rfl

theorem normalize_x2 : normalize ⟨2, 0, 0⟩ = ⟨1, 0, 0⟩ := by
  unfold normalize
  have h4 : ((2 : ℚ) * 2 + 0 * 0 + 0 * 0) = 2 * 2 := by norm_num
  simp only [h4, Rat.sqrt_eq]
  norm_num

theorem normalize_y2 : normalize ⟨0, 2, 0⟩ = ⟨0, 1, 0⟩ := by
  unfold normalize
  have h4 : ((0 : ℚ) * 0 + 2 * 2 + 0 * 0) = 2 * 2 := by norm_num
  simp only [h4, Rat.sqrt_eq]
  norm_num

theorem quadTriangle1_eq : quadTriangle1 = ⟨1, ⟨1, 0, 0⟩, ⟨0, 1, 0⟩⟩ := by
  have ht : rawTangent (1 / uvDeterminant ((⟨0, 0⟩ : vec2).sub ⟨0, 1⟩) ((⟨1, 0⟩ : vec2).sub ⟨0, 1⟩))
      ((⟨-1, -1, 0⟩ : vec3).sub ⟨-1, 1, 0⟩) ((⟨1, -1, 0⟩ : vec3).sub ⟨-1, 1, 0⟩)
      ((⟨0, 0⟩ : vec2).sub ⟨0, 1⟩) ((⟨1, 0⟩ : vec2).sub ⟨0, 1⟩) = ⟨2, 0, 0⟩ := by
    simp only [rawTangent, uvDeterminant, vec2.sub, vec3.sub, vec3.mk.injEq]
    norm_num
  have hb : rawBitangent (1 / uvDeterminant ((⟨0, 0⟩ : vec2).sub ⟨0, 1⟩) ((⟨1, 0⟩ : vec2).sub ⟨0, 1⟩))
      ((⟨-1, -1, 0⟩ : vec3).sub ⟨-1, 1, 0⟩) ((⟨1, -1, 0⟩ : vec3).sub ⟨-1, 1, 0⟩)
      ((⟨0, 0⟩ : vec2).sub ⟨0, 1⟩) ((⟨1, 0⟩ : vec2).sub ⟨0, 1⟩) = ⟨0, 2, 0⟩ := by
    simp only [rawBitangent, uvDeterminant, vec2.sub, vec3.sub, vec3.mk.injEq]
    norm_num
  have hd : uvDeterminant ((⟨0, 0⟩ : vec2).sub ⟨0, 1⟩) ((⟨1, 0⟩ : vec2).sub ⟨0, 1⟩) = 1 := by
    simp only [uvDeterminant, vec2.sub]
    norm_num
  unfold quadTriangle1 triangleFrame
  simp only [ht, hb, normalize_x2, normalize_y2]
  rw [hd]

theorem quadTriangle2_eq : quadTriangle2 = ⟨1, ⟨1, 0, 0⟩, ⟨0, 1, 0⟩⟩ := by
  have ht : rawTangent (1 / uvDeterminant ((⟨1, 0⟩ : vec2).sub ⟨0, 1⟩) ((⟨1, 1⟩ : vec2).sub ⟨0, 1⟩))
      ((⟨1, -1, 0⟩ : vec3).sub ⟨-1, 1, 0⟩) ((⟨1, 1, 0⟩ : vec3).sub ⟨-1, 1, 0⟩)
      ((⟨1, 0⟩ : vec2).sub ⟨0, 1⟩) ((⟨1, 1⟩ : vec2).sub ⟨0, 1⟩) = ⟨2, 0, 0⟩ := by
    simp only [rawTangent, uvDeterminant, vec2.sub, vec3.sub, vec3.mk.injEq]
    norm_num
  have hb : rawBitangent (1 / uvDeterminant ((⟨1, 0⟩ : vec2).sub ⟨0, 1⟩) ((⟨1, 1⟩ : vec2).sub ⟨0, 1⟩))
      ((⟨1, -1, 0⟩ : vec3).sub ⟨-1, 1, 0⟩) ((⟨1, 1, 0⟩ : vec3).sub ⟨-1, 1, 0⟩)
      ((⟨1, 0⟩ : vec2).sub ⟨0, 1⟩) ((⟨1, 1⟩ : vec2).sub ⟨0, 1⟩) = ⟨0, 2, 0⟩ := by
    simp only [rawBitangent, uvDeterminant, vec2.sub, vec3.sub, vec3.mk.injEq]
    norm_num
  have hd : uvDeterminant ((⟨1, 0⟩ : vec2).sub ⟨0, 1⟩) ((⟨1, 1⟩ : vec2).sub ⟨0, 1⟩) = 1 := by
    simp only [uvDeterminant, vec2.sub]
    norm_num
  unfold quadTriangle2 triangleFrame
  simp only [ht, hb, normalize_x2, normalize_y2]
  rw [hd]

/-- C26: in `renderQuad`, under exact arithmetic, the denominator of `f` is 1
for both triangles, hence not zero; the normalized tangent is `(1, 0, 0)` and
the normalized bitangent is `(0, 1, 0)` for both; with the normal `(0, 0, 1)`
they are unit vectors, pairwise orthogonal, and tangent × bitangent = normal.
These are the tangent and bitangent columns of all six vertices of the
uploaded array. -/
theorem parallax_quad_tangent_frame :
    quadTriangle1.determinant = 1 ∧ quadTriangle2.determinant = 1 ∧
    quadTriangle1.determinant ≠ 0 ∧ quadTriangle2.determinant ≠ 0 ∧
    quadTriangle1.tangent = ⟨1, 0, 0⟩ ∧ quadTriangle1.bitangent = ⟨0, 1, 0⟩ ∧
    quadTriangle2.tangent = ⟨1, 0, 0⟩ ∧ quadTriangle2.bitangent = ⟨0, 1, 0⟩ ∧
    quadNormal = ⟨0, 0, 1⟩ ∧
    quadTriangle1.tangent.cross quadTriangle1.bitangent = quadNormal ∧
    quadTriangle2.tangent.cross quadTriangle2.bitangent = quadNormal ∧
    quadTriangle1.tangent.dot quadTriangle1.tangent = 1 ∧
    quadTriangle1.bitangent.dot quadTriangle1.bitangent = 1 ∧
    quadNormal.dot quadNormal = 1 ∧
    quadTriangle1.tangent.dot quadTriangle1.bitangent = 0 ∧
    quadTriangle1.tangent.dot quadNormal = 0 ∧
    quadTriangle1.bitangent.dot quadNormal = 0 ∧
    parallaxQuadVertices
      = [-1, 1, 0, 0, 0, 1, 0, 1, 1, 0, 0, 0, 1, 0,
         -1, -1, 0, 0, 0, 1, 0, 0, 1, 0, 0, 0, 1, 0,
         1, -1, 0, 0, 0, 1, 1, 0, 1, 0, 0, 0, 1, 0,
         -1, 1, 0, 0, 0, 1, 0, 1, 1, 0, 0, 0, 1, 0,
         1, -1, 0, 0, 0, 1, 1, 0, 1, 0, 0, 0, 1, 0,
         1, 1, 0, 0, 0, 1, 1, 1, 1, 0, 0, 0, 1, 0] := by
  rw [parallaxQuadVertices_frames, quadTriangle1_eq, quadTriangle2_eq]
  simp only [quadNormal, vec3.cross, vec3.dot, quadRow, List.cons_append, List.nil_append]
  norm_num

/-! ## Cube-map loading -/

theorem loadCubemapFace_fields (stbi_load : Nat → String → Option StbImage) (i : Nat)
    (face : String) (s : State) :
    (loadCubemapFace stbi_load i face s).gl.faceUploads
      = s.gl.faceUploads ++
        ((stbi_load i face).map fun data =>
          ({ target := GL_TEXTURE_CUBE_MAP_POSITIVE_X + i,
             texture := s.gl.texBinding s.gl.activeUnit GL_TEXTURE_CUBE_MAP,
             image := { internalFormat := GL_RGB, width := data.width, height := data.height,
                        format := GL_RGB, dataType := GL_UNSIGNED_BYTE } } : FaceUpload)).toList ∧
    (loadCubemapFace stbi_load i face s).out
      = s.out ++ (if (stbi_load i face).isNone then [faceMessage face] else []) ∧
    (loadCubemapFace stbi_load i face s).gl.texBinding = s.gl.texBinding ∧
    (loadCubemapFace stbi_load i face s).gl.activeUnit = s.gl.activeUnit ∧
    (loadCubemapFace stbi_load i face s).app = s.app := by
  unfold loadCubemapFace
  cases hd : stbi_load i face with
  | none => simp [faceMessage]
  | some data => simp [glTexImage2DFace]

theorem loadCubemapLoop_fields (stbi_load : Nat → String → Option StbImage)
    (textureID : Nat) (faces : List String) :
    ∀ (i : Nat) (s : State), s.gl.texBinding s.gl.activeUnit GL_TEXTURE_CUBE_MAP = textureID →
      (loadCubemapLoop stbi_load i faces s).gl.faceUploads
        = s.gl.faceUploads ++ (faces.enumFrom i).filterMap
            (fun p => (stbi_load p.1 p.2).map (faceUploadOf textureID p.1)) ∧
      (loadCubemapLoop stbi_load i faces s).out
        = s.out ++ (faces.enumFrom i).filterMap
            (fun p => if (stbi_load p.1 p.2).isNone then some (faceMessage p.2) else none) ∧
      (loadCubemapLoop stbi_load i faces s).app = s.app := by
  induction faces with
  | nil => intro i s _; simp [loadCubemapLoop]
  | cons face rest ih =>
    intro i s hs
    obtain ⟨f1, f2, f3, f4, f5⟩ := loadCubemapFace_fields stbi_load i face s
    have hs1 : (loadCubemapFace stbi_load i face s).gl.texBinding
        (loadCubemapFace stbi_load i face s).gl.activeUnit GL_TEXTURE_CUBE_MAP = textureID := by
      rw [f3, f4]; exact hs
    obtain ⟨h1, h2, h3⟩ := ih (i + 1) (loadCubemapFace stbi_load i face s) hs1
    have hd : loadCubemapLoop stbi_load i (face :: rest) s
        = loadCubemapLoop stbi_load (i + 1) rest (loadCubemapFace stbi_load i face s) := rfl
    rw [hd, h1, h2, h3, f1, f2, f5, hs]
    refine ⟨?_, ?_, rfl⟩
    · cases hdec : stbi_load i face <;>
        simp [List.enumFrom_cons, List.filterMap_cons, hdec, faceUploadOf]
    · cases hdec : stbi_load i face <;>
        simp [List.enumFrom_cons, List.filterMap_cons, hdec]

theorem loadCubemap_fields (textureID : Nat) (stbi_load : Nat → String → Option StbImage)
    (faces : List String) (s : State) :
    (loadCubemap textureID stbi_load faces s).2.gl.faceUploads
      = s.gl.faceUploads ++ faces.enum.filterMap
          (fun p => (stbi_load p.1 p.2).map (faceUploadOf textureID p.1)) ∧
    (loadCubemap textureID stbi_load faces s).2.out
      = s.out ++ faces.enum.filterMap
          (fun p => if (stbi_load p.1 p.2).isNone then some (faceMessage p.2) else none) ∧
    (loadCubemap textureID stbi_load faces s).2.app = s.app := by
  have hb : ({ s with gl := glBindTexture GL_TEXTURE_CUBE_MAP textureID s.gl } : State).gl.texBinding
      ({ s with gl := glBindTexture GL_TEXTURE_CUBE_MAP textureID s.gl } : State).gl.activeUnit
      GL_TEXTURE_CUBE_MAP = textureID := by
    simp [glBindTexture]
  obtain ⟨h1, h2, h3⟩ := loadCubemapLoop_fields stbi_load textureID faces 0
    { s with gl := glBindTexture GL_TEXTURE_CUBE_MAP textureID s.gl } hb
  have e1 : (loadCubemap textureID stbi_load faces s).2.gl.faceUploads
      = (loadCubemapLoop stbi_load 0 faces
          { s with gl := glBindTexture GL_TEXTURE_CUBE_MAP textureID s.gl }).gl.faceUploads := by
    simp [loadCubemap, glTexParameteri]
  have e2 : (loadCubemap textureID stbi_load faces s).2.out
      = (loadCubemapLoop stbi_load 0 faces
          { s with gl := glBindTexture GL_TEXTURE_CUBE_MAP textureID s.gl }).out := by
    simp only [loadCubemap]
  have e3 : (loadCubemap textureID stbi_load faces s).2.app
      = (loadCubemapLoop stbi_load 0 faces
          { s with gl := glBindTexture GL_TEXTURE_CUBE_MAP textureID s.gl }).app := by
    simp only [loadCubemap]
  rw [e1, e2, e3, h1, h2, h3]
  exact ⟨rfl, rfl, rfl⟩

theorem enum_split_length (stbi_load : Nat → String → Option StbImage) (textureID : Nat)
    (faces : List String) :
    ∀ i : Nat,
      ((faces.enumFrom i).filterMap
          (fun p => (stbi_load p.1 p.2).map (faceUploadOf textureID p.1))).length
        + ((faces.enumFrom i).filterMap
          (fun p => if (stbi_load p.1 p.2).isNone then some (faceMessage p.2) else none)).length
        = faces.length := by
  induction faces with
  | nil => intro i; rfl
  | cons face rest ih =>
    intro i
    have := ih (i + 1)
    cases hdec : stbi_load i face <;>
      simp [List.enumFrom_cons, List.filterMap_cons, hdec] <;> omega

/-- C27: `loadCubemap` handles every face on its own. For every list of faces
and every outcome of the decoder on each of them, the uploads it issues are, in
order, one for each face that decodes, face `i` to the target
`GL_TEXTURE_CUBE_MAP_POSITIVE_X + i` of the generated texture with the decoded
size in `GL_RGB`; the lines it prints are, in order, one message for each face
that does not decode. So every face gives either one upload or one message,
a face that decodes is uploaded whatever happened to the faces before it, and
the handle returned is the generated name in every case. -/
theorem loadCubemap_faces_independent (textureID : Nat)
    (stbi_load : Nat → String → Option StbImage) (faces : List String) (s : State) :
    (loadCubemap textureID stbi_load faces s).1 = textureID ∧
    (loadCubemap textureID stbi_load faces s).2.gl.faceUploads
      = s.gl.faceUploads ++ faces.enum.filterMap
          (fun p => (stbi_load p.1 p.2).map (faceUploadOf textureID p.1)) ∧
    (loadCubemap textureID stbi_load faces s).2.out
      = s.out ++ faces.enum.filterMap
          (fun p => if (stbi_load p.1 p.2).isNone then some (faceMessage p.2) else none) ∧
    ((loadCubemap textureID stbi_load faces s).2.gl.faceUploads.length
        - s.gl.faceUploads.length)
      + ((loadCubemap textureID stbi_load faces s).2.out.length - s.out.length)
      = faces.length ∧
    (∀ (i : Nat) (face : String) (data : StbImage), faces[i]? = some face →
      stbi_load i face = some data →
      faceUploadOf textureID i data ∈ (loadCubemap textureID stbi_load faces s).2.gl.faceUploads ∧
      (faceUploadOf textureID i data).target = GL_TEXTURE_CUBE_MAP_POSITIVE_X + i ∧
      (faceUploadOf textureID i data).texture = textureID) ∧
    (∀ (i : Nat) (face : String), faces[i]? = some face → stbi_load i face = none →
      faceMessage face ∈ (loadCubemap textureID stbi_load faces s).2.out) := by
  obtain ⟨h1, h2, _⟩ := loadCubemap_fields textureID stbi_load faces s
  have hmem : ∀ (i : Nat) (face : String), faces[i]? = some face → (i, face) ∈ faces.enum :=
    fun i face hface => List.mk_mem_enum_iff_getElem?.mpr hface
  refine ⟨rfl, h1, h2, ?_, ?_, ?_⟩
  · rw [h1, h2, List.length_append, List.length_append, Nat.add_sub_cancel_left,
      Nat.add_sub_cancel_left]
    exact enum_split_length stbi_load textureID faces 0
  · intro i face data hface hdata
    refine ⟨?_, rfl, rfl⟩
    rw [h1]
    refine List.mem_append_right _
      (List.mem_filterMap.mpr ⟨(i, face), hmem i face hface, ?_⟩)
    simp only [hdata, Option.map_some']
  · intro i face hface hnone
    rw [h2]
    refine List.mem_append_right _
      (List.mem_filterMap.mpr ⟨(i, face), hmem i face hface, ?_⟩)
    simp only [hnone, Option.isNone_none, if_true]

theorem loadCubemap_faces_independent_witness :
    skyboxSides[2]? = some "resources/textures/alps/up.tga" ∧
    patchyDecoder 2 "resources/textures/alps/up.tga"
      = some { width := 8, height := 8, nrComponents := 3 } ∧
    skyboxSides[4]? = some "resources/textures/alps/back.tga" ∧
    patchyDecoder 4 "resources/textures/alps/back.tga" = none ∧
    (loadCubemap 9 patchyDecoder skyboxSides demoState).1 = 9 ∧
    (loadCubemap 9 failingDecoderAt skyboxSides demoState).1 = 9 ∧
    (loadCubemap 9 patchyDecoder skyboxSides demoState).2.gl.faceUploads.map
        (fun u => u.target - GL_TEXTURE_CUBE_MAP_POSITIVE_X) = [0, 2, 3, 5] ∧
    (loadCubemap 9 patchyDecoder skyboxSides demoState).2.out
      = demoState.out ++
        [faceMessage "resources/textures/alps/left.tga",
         faceMessage "resources/textures/alps/back.tga"] ∧
    faceUploadOf 9 2 { width := 8, height := 8, nrComponents := 3 }
      ∈ (loadCubemap 9 patchyDecoder skyboxSides demoState).2.gl.faceUploads ∧
    faceMessage "resources/textures/alps/back.tga"
      ∈ (loadCubemap 9 patchyDecoder skyboxSides demoState).2.out :=
  ⟨rfl, rfl, rfl, rfl,
    (loadCubemap_faces_independent 9 patchyDecoder skyboxSides demoState).1,
    (loadCubemap_faces_independent 9 failingDecoderAt skyboxSides demoState).1,
    by
      rw [(loadCubemap_fields 9 patchyDecoder skyboxSides demoState).1]
      rfl,
    by
      rw [(loadCubemap_fields 9 patchyDecoder skyboxSides demoState).2.1]
      rfl,
    ((loadCubemap_faces_independent 9 patchyDecoder skyboxSides demoState).2.2.2.2.1 2
      "resources/textures/alps/up.tga" { width := 8, height := 8, nrComponents := 3 }
      rfl rfl).1,
    (loadCubemap_faces_independent 9 patchyDecoder skyboxSides demoState).2.2.2.2.2 4
      "resources/textures/alps/back.tga" rfl rfl⟩

/-! ## The pixel format of `loadTexture` -/

theorem loadTexture_texImage (textureID : Nat) (stbi_load : String → Option StbImage)
    (path : String) (s : State) (data : StbImage) (hd : stbi_load path = some data) :
    (loadTexture textureID stbi_load path s).2.gl.texImage textureID
      = some { internalFormat := channelFormat data.nrComponents, width := data.width,
               height := data.height, format := channelFormat data.nrComponents,
               dataType := GL_UNSIGNED_BYTE } := by
  unfold loadTexture
  rw [hd]
  simp only [glTexParameteri, glGenerateMipmap, glTexImage2D, glBindTexture, channelFormat,
    and_self, if_true]

/-- C28: when the file decodes, `loadTexture` gives the generated texture the
decoded size with a pixel format that depends on the channel count alone:
`GL_RED` for 1 channel, `GL_RGB` for 3, `GL_RGBA` for 4, and `GL_RED` for every
other count, 2 among them. The internal format and the data format of the
upload are this same value, and the data type is `GL_UNSIGNED_BYTE`. -/
theorem loadTexture_format_by_channels (textureID : Nat)
    (stbi_load : String → Option StbImage) (path : String) (s : State) (data : StbImage)
    (hd : stbi_load path = some data) :
    (loadTexture textureID stbi_load path s).2.gl.texImage textureID
      = some { internalFormat := channelFormat data.nrComponents, width := data.width,
               height := data.height, format := channelFormat data.nrComponents,
               dataType := GL_UNSIGNED_BYTE } ∧
    channelFormat 1 = GL_RED ∧ channelFormat 3 = GL_RGB ∧ channelFormat 4 = GL_RGBA ∧
    channelFormat 2 = GL_RED ∧
    (∀ n : Int, n ≠ 1 → n ≠ 3 → n ≠ 4 → channelFormat n = GL_RED) := by
  refine ⟨loadTexture_texImage textureID stbi_load path s data hd, rfl, rfl, rfl, rfl, ?_⟩
  intro n h1 h3 h4
  unfold channelFormat
  rw [if_neg h1, if_neg h3, if_neg h4]

theorem loadTexture_format_by_channels_witness :
    twoChannelDecoder "resources/textures/tree.png"
      = some { width := 4, height := 4, nrComponents := 2 } ∧
    (loadTexture 9 twoChannelDecoder "resources/textures/tree.png" demoState).2.gl.texImage 9
      = some { internalFormat := GL_RED, width := 4, height := 4, format := GL_RED,
               dataType := GL_UNSIGNED_BYTE } ∧
    rgbDecoder "resources/textures/tree.png"
      = some { width := 4, height := 4, nrComponents := 3 } ∧
    (loadTexture 9 rgbDecoder "resources/textures/tree.png" demoState).2.gl.texImage 9
      = some { internalFormat := GL_RGB, width := 4, height := 4, format := GL_RGB,
               dataType := GL_UNSIGNED_BYTE } ∧
    (5 : Int) ≠ 1 ∧ (5 : Int) ≠ 3 ∧ (5 : Int) ≠ 4 ∧ channelFormat 5 = GL_RED :=
  ⟨rfl,
    (loadTexture_format_by_channels 9 twoChannelDecoder "resources/textures/tree.png"
      demoState { width := 4, height := 4, nrComponents := 2 } rfl).1,
    rfl,
    (loadTexture_format_by_channels 9 rgbDecoder "resources/textures/tree.png"
      demoState { width := 4, height := 4, nrComponents := 3 } rfl).1,
    by decide, by decide, by decide,
    (loadTexture_format_by_channels 9 rgbDecoder "resources/textures/tree.png"
      demoState { width := 4, height := 4, nrComponents := 3 } rfl).2.2.2.2.2 5
      (by decide) (by decide) (by decide)⟩

/-! ## The exposure in `float` arithmetic -/

theorem f32ulp_eq (x : ℚ) (k : ℤ) (hk : -126 ≤ k) (h1 : (2 : ℚ) ^ k ≤ |x|)
    (h2 : |x| < (2 : ℚ) ^ (k + 1)) : f32ulp x = (2 : ℚ) ^ (k - 23) := by
  have hpos : 0 < |x| := lt_of_lt_of_le (by positivity) h1
  have hl1 : k ≤ Int.log 2 |x| := by
    have := (Int.zpow_le_iff_le_log (b := 2) (by norm_num) hpos (x := k)).1
    exact this (by exact_mod_cast h1)
  have hl2 : Int.log 2 |x| < k + 1 := by
    have := (Int.lt_zpow_iff_log_lt (b := 2) (by norm_num) hpos (x := k + 1)).1
    exact this (by exact_mod_cast h2)
  have hlog : Int.log 2 |x| = k := by omega
  unfold f32ulp
  rw [hlog, max_eq_left hk]

theorem roundHalfEven_of_lt (q : ℚ) (z : ℤ) (h1 : (z : ℚ) ≤ q) (h2 : q < z + 1 / 2) :
    roundHalfEven q = z := by
  have hf : ⌊q⌋ = z := by
    rw [Int.floor_eq_iff]
    constructor
    · exact h1
    · linarith
  unfold roundHalfEven
  simp only [hf]
  rw [if_pos (by linarith)]

theorem f32_stall : f32 (32768 + float_0_001) = 32768 := by
  have hu : f32ulp (32768 + float_0_001) = (2 : ℚ) ^ ((15 : ℤ) - 23) := by
    apply f32ulp_eq _ 15 (by norm_num)
    · rw [abs_of_pos (by norm_num [float_0_001])]
      norm_num [float_0_001]
    · rw [abs_of_pos (by norm_num [float_0_001])]
      norm_num [float_0_001]
  unfold f32
  rw [hu, roundHalfEven_of_lt _ 8388608]
  · norm_num
  · norm_num [float_0_001]
  · norm_num [float_0_001]

theorem f32_32768 : f32 32768 = 32768 := by
  have hu : f32ulp 32768 = (2 : ℚ) ^ ((15 : ℤ) - 23) := by
    apply f32ulp_eq _ 15 (by norm_num)
    · rw [abs_of_pos (by norm_num)]
      norm_num
    · rw [abs_of_pos (by norm_num)]
      norm_num
  unfold f32
  rw [hu, roundHalfEven_of_lt _ 8388608]
  · norm_num
  · norm_num
  · norm_num

theorem inputHeightScaleFloat_exposure (w : Window) (a : Globals) :
    (inputHeightScaleFloat w a).exposure = a.exposure := by
  unfold inputHeightScaleFloat
  repeat' split
  all_goals rfl

theorem inputExposureFloat_exposure (w : Window) (a : Globals) :
    (inputExposureFloat w a).exposure
      = if w.keyDown GLFW_KEY_Z = true then
          (if a.exposure > 0 then f32 (a.exposure - float_0_001) else 0)
        else if w.keyDown GLFW_KEY_C = true then f32 (a.exposure + float_0_001)
        else a.exposure := by
  unfold inputExposureFloat
  simp only [glfwGetKey_press]
  repeat' split
  all_goals rfl

theorem processInputFloat_exposure (w : Window) (a : Globals) :
    (processInputFloat w a).2.exposure
      = if w.keyDown GLFW_KEY_Z = true then
          (if a.exposure > 0 then f32 (a.exposure - float_0_001) else 0)
        else if w.keyDown GLFW_KEY_C = true then f32 (a.exposure + float_0_001)
        else a.exposure := by
  unfold processInputFloat
  simp only [inputExposureFloat_exposure, inputEscape_keyDown, inputBloom_exposure,
    inputHeightScaleFloat_exposure, (inputMove_fields _ _).2.2.1]

/-- With Z up and C down, `exposure = 32768` is a fixed point of
`processInput` in `float` arithmetic. -/
theorem processInputFloat_stall (w : Window) (hz : w.keyDown GLFW_KEY_Z = false)
    (hc : w.keyDown GLFW_KEY_C = true) (n : Nat) :
    ∀ a : Globals, a.exposure = 32768 →
      ((fun b => (processInputFloat w b).2)^[n] a).exposure = 32768 := by
  induction n with
  | zero => intro a ha; exact ha
  | succ n ih =>
    intro a ha
    rw [Function.iterate_succ_apply]
    apply ih
    rw [processInputFloat_exposure, ha]
    simp only [hz, hc, Bool.false_eq_true, if_false, if_true]
    exact f32_stall

/-- C10, as stated, fails in the `float` arithmetic of the source: at
`exposure = 32768`, itself a `float`, with Z up and C down, one call of
`processInput` leaves `exposure` at 32768, which is neither `e + 0.001` nor
`e + 0.001f`, and so do a thousand calls: the increment has an upper bound. -/
theorem exposure_increment_stalls :
    cWindow.keyDown GLFW_KEY_Z = false ∧ cWindow.keyDown GLFW_KEY_C = true ∧
    highExposure.exposure = 32768 ∧ f32 highExposure.exposure = highExposure.exposure ∧
    (processInputFloat cWindow highExposure).2.exposure = 32768 ∧
    (processInputFloat cWindow highExposure).2.exposure ≠ highExposure.exposure + 1 / 1000 ∧
    (processInputFloat cWindow highExposure).2.exposure
      ≠ highExposure.exposure + float_0_001 ∧
    ((fun b => (processInputFloat cWindow b).2)^[1000] highExposure).exposure = 32768 := by
  have hz : cWindow.keyDown GLFW_KEY_Z = false := by decide
  have hc : cWindow.keyDown GLFW_KEY_C = true := by decide
  have he : highExposure.exposure = 32768 := rfl
  have h1 : (processInputFloat cWindow highExposure).2.exposure = 32768 := by
    rw [processInputFloat_exposure, he]
    simp only [hz, hc, Bool.false_eq_true, if_false, if_true]
    exact f32_stall
  refine ⟨hz, hc, he, ?_, h1, ?_, ?_, processInputFloat_stall cWindow hz hc 1000 _ he⟩
  · rw [he]; exact f32_32768
  · rw [h1, he]; norm_num
  · rw [h1, he]; norm_num [float_0_001]

/-- C10, as amended: one call of `processInput` changes `exposure` as follows,
for every prior value `e`. In the `float` arithmetic of the source: with Z down
the result is `e - 0.001f` rounded to `float` when `e > 0` and `0` otherwise,
whatever the state of C; with Z up and C down it is `e + 0.001f` rounded to
`float`; with both up it is `e`. The rounded sum is `e` itself at `e = 32768`,
so with Z up and C down any number of calls from there leave 32768. Under exact
arithmetic the results are `e - 0.001` or `0`, `e + 0.001` and `e`, and `n`
calls with Z up and C down give `e + n * 0.001` for every `n`. -/
theorem exposure_step_float (w : Window) (a : Globals) (n : Nat) :
    (processInputFloat w a).2.exposure
      = (if w.keyDown GLFW_KEY_Z = true then
          (if a.exposure > 0 then f32 (a.exposure - float_0_001) else 0)
        else if w.keyDown GLFW_KEY_C = true then f32 (a.exposure + float_0_001)
        else a.exposure) ∧
    f32 (32768 + float_0_001) = 32768 ∧
    (w.keyDown GLFW_KEY_Z = false → w.keyDown GLFW_KEY_C = true → a.exposure = 32768 →
      ((fun b => (processInputFloat w b).2)^[n] a).exposure = 32768) ∧
    (processInput w a).2.exposure
      = (if w.keyDown GLFW_KEY_Z = true then
          (if a.exposure > 0 then a.exposure - 1 / 1000 else 0)
        else if w.keyDown GLFW_KEY_C = true then a.exposure + 1 / 1000
        else a.exposure) ∧
    (w.keyDown GLFW_KEY_Z = false → w.keyDown GLFW_KEY_C = true →
      ((fun b => (processInput w b).2)^[n] a).exposure = a.exposure + n * (1 / 1000)) :=
  ⟨processInputFloat_exposure w a, f32_stall,
    fun hz hc ha => processInputFloat_stall w hz hc n a ha,
    processInput_exposure w a,
    fun hz hc => processInput_exposure_iterate w hz hc n a⟩

theorem exposure_step_float_witness :
    cWindow.keyDown GLFW_KEY_Z = false ∧ cWindow.keyDown GLFW_KEY_C = true ∧
    highExposure.exposure = 32768 ∧
    (processInputFloat cWindow highExposure).2.exposure
      = (if cWindow.keyDown GLFW_KEY_Z = true then
          (if highExposure.exposure > 0 then f32 (highExposure.exposure - float_0_001) else 0)
        else if cWindow.keyDown GLFW_KEY_C = true then
          f32 (highExposure.exposure + float_0_001)
        else highExposure.exposure) ∧
    f32 (32768 + float_0_001) = 32768 ∧
    ((fun b => (processInputFloat cWindow b).2)^[7] highExposure).exposure = 32768 ∧
    (processInput cWindow highExposure).2.exposure
      = (if cWindow.keyDown GLFW_KEY_Z = true then
          (if highExposure.exposure > 0 then highExposure.exposure - 1 / 1000 else 0)
        else if cWindow.keyDown GLFW_KEY_C = true then highExposure.exposure + 1 / 1000
        else highExposure.exposure) ∧
    ((fun b => (processInput cWindow b).2)^[7] highExposure).exposure
      = highExposure.exposure + (7 : Nat) * (1 / 1000) :=
  ⟨by decide, by decide, rfl,
    (exposure_step_float cWindow highExposure 7).1,
    (exposure_step_float cWindow highExposure 7).2.1,
    (exposure_step_float cWindow highExposure 7).2.2.1 (by decide) (by decide) rfl,
    (exposure_step_float cWindow highExposure 7).2.2.2.1,
    (exposure_step_float cWindow highExposure 7).2.2.2.2 (by decide) (by decide)⟩

end RgProject
